import Mathlib

/-!
# WASAPI capture session (`plugins/win-wasapi/win-wasapi.cpp`)

A shallow embedding of the capture session `WASAPISource`: its configuration
update path, the default-device tracker, the drain routine
`ProcessCaptureData`, the initializer and the two execution strategies
(capture thread, work-queue callbacks).

Conventions of the embedding.
* Strings (`std::string`, `std::wstring`, `LPCWSTR`) are `String`; a null
  `LPCWSTR` is `none`.
* Machine integers are `Nat`/`Int`; 64-bit unsigned arithmetic is written with
  an explicit `% 2 ^ 64`.
* Win32 events are `Bool` fields of the session; every call that is visible
  outside the session (`SetEvent`, `ResetEvent`, handing a frame to the sink,
  releasing a buffer, stopping the client, queueing a work item) is also
  appended to the session's `log`, in program order.  `blog` calls and the
  `temp_file` trace are not modelled.
* Answers of the platform (COM calls, window lookup, clock) are inputs of the
  model, one record per call site.
-/

namespace WASAPI

/-! ## Data model -/

/-- Kind of capture session (`enum class SourceType`). -/
inductive SourceType where
  | Input
  | DeviceOutput
  | ProcessOutput
  deriving DecidableEq, Repr

/-- Direction of an endpoint (`EDataFlow`). -/
inductive EDataFlow where
  | eRender
  | eCapture
  | eAll
  deriving DecidableEq, Repr

/-- Role of an endpoint (`ERole`). -/
inductive ERole where
  | eConsole
  | eMultimedia
  | eCommunications
  deriving DecidableEq, Repr

/-- The event objects owned by a session. -/
inductive Signal where
  | idle
  | stop
  | receive
  | restart
  | exit
  | init
  | reconnect
  deriving DecidableEq, Repr

/-- The frame handed to the sink (`obs_source_audio`), without the sample
pointer. -/
structure obs_source_audio where
  frames : Nat
  speakers : Nat
  samples_per_sec : Nat
  format : Nat
  timestamp : Nat
  deriving DecidableEq, Repr

/-- The work items of the shared work queue. -/
inductive WorkItem where
  | startCapture
  | sampleReady
  | restart
  deriving DecidableEq, Repr

/-- The two threads a session may own. -/
inductive ThreadId where
  | reconnect
  | capture
  deriving DecidableEq, Repr

/-- Calls visible outside the session, recorded in program order.  A wait is
recorded by the thread that makes it: `waitSignal sig ms` is
`WaitForSingleObject(sig, ms)` with `none` for `INFINITE`, `waitThread` is the
wait for a thread handle. -/
inductive Effect where
  | setEvent (sig : Signal)
  | resetEvent (sig : Signal)
  | outputAudio (data : obs_source_audio)
  | releaseBuffer (frames : Nat)
  | clientStop
  | putWorkItem (item : WorkItem)
  | putWaitingWorkItem (sig : Signal) (item : WorkItem) (hr : Int)
  | createEvent (sig : Signal)
  | createThread (th : ThreadId)
  | registerNotify
  | unregisterNotify
  | waitSignal (sig : Signal) (ms : Option Nat)
  | waitThread (th : ThreadId)
  | unlockWorkQueue
  deriving DecidableEq, Repr

/-- An `IMMDevice` interface pointer (non-null). -/
structure IMMDevice where
  handle : Nat
  deriving DecidableEq, Repr

/-- An `IAudioClient` interface pointer (non-null). -/
structure IAudioClient where
  handle : Nat
  deriving DecidableEq, Repr

/-- An `IAudioCaptureClient` interface pointer (non-null). -/
structure IAudioCaptureClient where
  handle : Nat
  deriving DecidableEq, Repr

/-- The session object (`class WASAPISource`); `ComPtr` members are `Option`,
`HWND`/`DWORD` members are numbers with `0` for `NULL`. -/
structure WASAPISource where
  sourceType : SourceType
  -- configuration, written by `UpdateSettings`
  device_id : String := ""
  useDeviceTiming : Bool := false
  isDefaultDevice : Bool := false
  priority : Int := 0
  window_class : String := ""
  title : String := ""
  executable : String := ""
  session : String := ""
  -- runtime
  default_id : String := ""
  device_name : String := ""
  activate_audio_interface_async : Bool := false
  rtwq_supported : Bool := false
  hwnd : Nat := 0
  process_id : Nat := 0
  previouslyFailed : Bool := false
  client : Option IAudioClient := none
  capture : Option IAudioCaptureClient := none
  speakers : Nat := 0
  format : Nat := 0
  sampleRate : Nat := 0
  framesProcessed : Nat := 0
  reconnectDuration : Nat := 0
  -- events
  idleSignal : Bool := false
  stopSignal : Bool := false
  receiveSignal : Bool := false
  restartSignal : Bool := false
  exitSignal : Bool := false
  initSignal : Bool := false
  reconnectSignal : Bool := false
  -- thread handles (`WinHandle` valid) and the registered notification sink
  reconnectThread : Bool := false
  captureThread : Bool := false
  notifyRegistered : Bool := false
  -- work items pending on the shared work queue, counted
  startCaptureQueued : Nat := 0
  sampleReadyWaiting : Nat := 0
  restartWaiting : Nat := 0
  -- externally visible calls, oldest first
  log : List Effect := []
  deriving DecidableEq, Repr

/-- The settings object as far as the session reads it: the string under
`"device_id"` (which is also `OPT_WINDOW`), the bool under
`"use_device_timing"` and the integer under `"priority"`. -/
structure obs_data where
  device_id : String
  use_device_timing : Bool
  priority : Int
  deriving DecidableEq, Repr

/-- The parameters derived from a settings object (`struct UpdateParams`). -/
structure UpdateParams where
  device_id : String
  useDeviceTiming : Bool
  isDefaultDevice : Bool
  priority : Int
  window_class : String
  title : String
  executable : String
  session : String
  deriving DecidableEq, Repr

/-- Result of `ms_build_window_strings`: the three output pointers, `none` for
a pointer left null. -/
structure WindowStrings where
  window_class : Option String
  title : Option String
  executable : Option String
  deriving DecidableEq, Repr

/-! ## Events -/

/-- `SetEvent(sig)`. -/
def SetEvent (sig : Signal) (s : WASAPISource) : WASAPISource :=
  let s1 := { s with log := s.log ++ [Effect.setEvent sig] }
  match sig with
  | .idle => { s1 with idleSignal := true }
  | .stop => { s1 with stopSignal := true }
  | .receive => { s1 with receiveSignal := true }
  | .restart => { s1 with restartSignal := true }
  | .exit => { s1 with exitSignal := true }
  | .init => { s1 with initSignal := true }
  | .reconnect => { s1 with reconnectSignal := true }

/-- `ResetEvent(sig)`. -/
def ResetEvent (sig : Signal) (s : WASAPISource) : WASAPISource :=
  let s1 := { s with log := s.log ++ [Effect.resetEvent sig] }
  match sig with
  | .idle => { s1 with idleSignal := false }
  | .stop => { s1 with stopSignal := false }
  | .receive => { s1 with receiveSignal := false }
  | .restart => { s1 with restartSignal := false }
  | .exit => { s1 with exitSignal := false }
  | .init => { s1 with initSignal := false }
  | .reconnect => { s1 with reconnectSignal := false }

/-! ## Configuration update -/

/-- The cast `(window_priority)obs_data_get_int(...)`: a 64-bit integer
narrowed to the 32-bit enum. -/
def toWindowPriority (v : Int) : Int :=
  (v + 2 ^ 31) % 2 ^ 32 - 2 ^ 31

/-- The test `_strcmpi(id, "default") == 0`. -/
def isDefaultId (id : String) : Bool :=
  id.data.map Char.toLower == "default".data

/-- `WASAPISource::BuildUpdateParams`; `build` is `ms_build_window_strings`. -/
def BuildUpdateParams (build : String → WindowStrings) (sourceType : SourceType)
    (settings : obs_data) : UpdateParams :=
  let params : UpdateParams :=
    { device_id := settings.device_id
      useDeviceTiming := settings.use_device_timing
      isDefaultDevice := isDefaultId settings.device_id
      priority := toWindowPriority settings.priority
      window_class := ""
      title := ""
      executable := ""
      session := "" }
  if sourceType ≠ SourceType.Input then
    let window := settings.device_id
    if window.data.head? = some '\x7b' then
      { params with session := window }
    else
      let w := build window
      let p1 := match w.window_class with
        | some c => { params with window_class := c }
        | none => params
      let p2 := match w.title with
        | some t => { p1 with title := t }
        | none => p1
      match w.executable with
      | some e => { p2 with executable := e }
      | none => p2
  else
    params

/-- `WASAPISource::UpdateSettings`. -/
def UpdateSettings (params : UpdateParams) (s : WASAPISource) : WASAPISource :=
  { s with
    device_id := params.device_id
    useDeviceTiming := params.useDeviceTiming
    isDefaultDevice := params.isDefaultDevice
    priority := params.priority
    window_class := params.window_class
    title := params.title
    executable := params.executable
    session := params.session }

/-- The restart decision of `WASAPISource::Update`. -/
def needsRestart (s : WASAPISource) (params : UpdateParams) : Bool :=
  if s.sourceType = SourceType.ProcessOutput then
    (s.priority != params.priority) ||
    (s.window_class != params.window_class) ||
    (s.title != params.title) ||
    (s.session != params.session) ||
    (s.executable != params.executable)
  else
    s.device_id != params.device_id

/-- `WASAPISource::Update`. -/
def Update (build : String → WindowStrings) (settings : obs_data)
    (s : WASAPISource) : WASAPISource :=
  let params := BuildUpdateParams build s.sourceType settings
  let restart := needsRestart s params
  let s1 := UpdateSettings params s
  if restart then SetEvent Signal.restart s1 else s1

/-- The configuration fields of a session, read back as an `UpdateParams`. -/
def currentParams (s : WASAPISource) : UpdateParams :=
  { device_id := s.device_id
    useDeviceTiming := s.useDeviceTiming
    isDefaultDevice := s.isDefaultDevice
    priority := s.priority
    window_class := s.window_class
    title := s.title
    executable := s.executable
    session := s.session }

/-! ## Default-device tracker -/

/-- The flow a session listens to (`expectedFlow` in `SetDefaultDevice`). -/
def expectedFlow (t : SourceType) : EDataFlow :=
  if t = SourceType.Input then EDataFlow.eCapture else EDataFlow.eRender

/-- The role a session listens to (`expectedRole` in `SetDefaultDevice`). -/
def expectedRole (t : SourceType) : ERole :=
  if t = SourceType.Input then ERole.eCommunications else ERole.eConsole

/-- `WASAPISource::SetDefaultDevice`. -/
def SetDefaultDevice (flow : EDataFlow) (role : ERole) (id : Option String)
    (s : WASAPISource) : WASAPISource :=
  if !s.isDefaultDevice then s
  else if flow ≠ expectedFlow s.sourceType ∨ role ≠ expectedRole s.sourceType then s
  else
    match id with
    | some i =>
      if s.default_id = i then s
      else SetEvent Signal.restart { s with default_id := i }
    | none =>
      if s.default_id = "" then s
      else SetEvent Signal.restart { s with default_id := "" }

/-! ## Capture dispatcher -/

/-- Ways a run of the model can end without a result: the program
dereferences a null interface pointer, or the list of platform answers given
to the model is used up while the program is still looping. -/
inductive Fault where
  | nullDeref
  | starved
  deriving DecidableEq, Repr

/-- The `FAILED(hr)` test on an `HRESULT`. -/
def FAILED (hr : Int) : Bool :=
  decide (hr < 0)

/-- `IsWindow(hwnd)`: false for the null handle, otherwise what the platform
says (`alive`). -/
def IsWindow (hwnd : Nat) (alive : Bool) : Bool :=
  hwnd != 0 && alive

/-- Modelled from the spec: `util_mul_div64` of `util/util_uint64.h`, which is
not among the sources.  §4.5 of the spec gives the value as
`num * mul / div`; the result type is `uint64_t`.  A zero `div` is a division
by zero in the program; the model is total and the theorems that depend on the
value assume a positive divisor. -/
def util_mul_div64 (num mul div : Nat) : Nat :=
  (num * mul / div) % 2 ^ 64

/-- Unsigned 64-bit multiplication. -/
def mul64 (a b : Nat) : Nat :=
  (a * b) % 2 ^ 64

/-- Unsigned 64-bit addition. -/
def add64 (a b : Nat) : Nat :=
  (a + b) % 2 ^ 64

/-- Unsigned 64-bit subtraction. -/
def sub64 (a b : Nat) : Nat :=
  (a % 2 ^ 64 + 2 ^ 64 - b % 2 ^ 64) % 2 ^ 64

/-- What the platform answers during one iteration of the loop of
`ProcessCaptureData`: `IsWindow`, `GetNextPacketSize` (result and size),
`GetBuffer` (result, frame count, flags, device position, device timestamp)
and the host clock `os_gettime_ns()`.  Answers to calls the iteration does not
reach are ignored. -/
structure CaptureReply where
  windowAlive : Bool := true
  sizeResult : Int := 0
  captureSize : Nat := 0
  bufferResult : Int := 0
  frames : Nat := 0
  flags : Nat := 0
  pos : Nat := 0
  ts : Nat := 0
  now : Nat := 0
  deriving DecidableEq, Repr

/-- Lines 1072-1104 of `ProcessCaptureData`: build the frame for a fetched
packet, stamp it, hand it to the sink and release the buffer. -/
def deliverPacket (s : WASAPISource) (r : CaptureReply) : WASAPISource :=
  if s.sourceType = SourceType.ProcessOutput then
    let data : obs_source_audio :=
      { frames := r.frames
        speakers := s.speakers
        samples_per_sec := s.sampleRate
        format := s.format
        timestamp := util_mul_div64 s.framesProcessed 1000000000 s.sampleRate }
    { s with
      framesProcessed := add64 s.framesProcessed r.frames
      log := s.log ++ [Effect.outputAudio data, Effect.releaseBuffer r.frames] }
  else
    let t0 := if s.useDeviceTiming then mul64 r.ts 100 else r.now % 2 ^ 64
    let t1 :=
      if !s.useDeviceTiming then
        sub64 t0 (util_mul_div64 r.frames 1000000000 s.sampleRate)
      else t0
    let data : obs_source_audio :=
      { frames := r.frames
        speakers := s.speakers
        samples_per_sec := s.sampleRate
        format := s.format
        timestamp := t1 }
    { s with
      log := s.log ++ [Effect.outputAudio data, Effect.releaseBuffer r.frames] }

/-- `WASAPISource::ProcessCaptureData`: one drain pass.  Each element of
`replies` answers one iteration of the `while (true)` loop. -/
def ProcessCaptureData (s : WASAPISource) :
    List CaptureReply → Except Fault (WASAPISource × Bool)
  | [] => Except.error Fault.starved
  | r :: rest =>
    if s.sourceType = SourceType.ProcessOutput ∧ IsWindow s.hwnd r.windowAlive = false then
      Except.ok (s, false)
    else
      match s.capture with
      | none => Except.error Fault.nullDeref
      | some _ =>
        if FAILED r.sizeResult then Except.ok (s, false)
        else if r.captureSize = 0 then Except.ok (s, true)
        else if FAILED r.bufferResult then Except.ok (s, false)
        else ProcessCaptureData (deliverPacket s r) rest

/-- An iteration with answers `r` gets past the window check. -/
def windowOk (s : WASAPISource) (r : CaptureReply) : Bool :=
  !(s.sourceType = SourceType.ProcessOutput && !IsWindow s.hwnd r.windowAlive)

/-- An iteration with answers `r` fetches a packet: it gets past the window
check, the size query succeeds with a non-zero size and the buffer fetch
succeeds. -/
def fetches (s : WASAPISource) (r : CaptureReply) : Bool :=
  windowOk s r && !FAILED r.sizeResult && r.captureSize != 0 && !FAILED r.bufferResult

/-- An iteration with answers `r` finds the device caught up: it gets past the
window check and the size query succeeds with size 0. -/
def caughtUp (s : WASAPISource) (r : CaptureReply) : Bool :=
  windowOk s r && !FAILED r.sizeResult && r.captureSize == 0

/-- The frames handed to the sink, in order, read off a log. -/
def audioFrames : List Effect → List obs_source_audio
  | [] => []
  | Effect.outputAudio d :: rest => d :: audioFrames rest
  | _ :: rest => audioFrames rest

/-- A frame with its timestamp blanked. -/
def unstamped (e : Effect) : Effect :=
  match e with
  | Effect.outputAudio d => Effect.outputAudio { d with timestamp := 0 }
  | other => other

/-- The sink and buffer calls one fetched packet must produce, timestamps
blanked: the frame with the packet's frame count and the session's layout,
rate and format, then the release of the buffer. -/
def packetCalls (s : WASAPISource) (r : CaptureReply) : List Effect :=
  [Effect.outputAudio
     { frames := r.frames, speakers := s.speakers, samples_per_sec := s.sampleRate,
       format := s.format, timestamp := 0 },
   Effect.releaseBuffer r.frames]

/-- Several drain passes in a row on the same session, whatever each pass
returns. -/
def drainPasses (s : WASAPISource) :
    List (List CaptureReply) → Except Fault WASAPISource
  | [] => Except.ok s
  | p :: ps =>
    match ProcessCaptureData s p with
    | Except.ok (s1, _) => drainPasses s1 ps
    | Except.error f => Except.error f

/-- The frame counts of the packets fetched by one pass. -/
def fetchedFrames (s : WASAPISource) (p : List CaptureReply) : List Nat :=
  (p.takeWhile (fetches s)).map CaptureReply.frames

/-! ## Endpoint resolver and client/format negotiator -/

/-- What the program throws: an `HRError` (text and result code) or a string
literal. -/
inductive Thrown where
  | hrError (str : String) (hr : Int)
  | message (str : String)
  deriving DecidableEq, Repr

/-- `AudioDeviceInfo` of `enum-wasapi.hpp`. -/
structure AudioDeviceInfo where
  device : Option IMMDevice
  name : String
  id : String
  deriving DecidableEq, Repr

/-- An endpoint known to the platform, with its direction. -/
structure Endpoint where
  input : Bool
  info : AudioDeviceInfo
  deriving DecidableEq, Repr

/-- `WAVEFORMATEX`. -/
structure WAVEFORMATEX where
  wFormatTag : Nat := 0
  nChannels : Nat := 0
  nSamplesPerSec : Nat := 0
  nAvgBytesPerSec : Nat := 0
  nBlockAlign : Nat := 0
  wBitsPerSample : Nat := 0
  cbSize : Nat := 0
  deriving DecidableEq, Repr

/-- `WAVEFORMATEXTENSIBLE`; the three extension members are meaningful only
when `Format.wFormatTag` is `WAVE_FORMAT_EXTENSIBLE`. -/
structure WAVEFORMATEXTENSIBLE where
  Format : WAVEFORMATEX := {}
  wValidBitsPerSample : Nat := 0
  dwChannelMask : Nat := 0
  SubFormat : Nat := 0
  deriving DecidableEq, Repr

/-- Answers of the six platform calls of `ClearBuffer`, in program order. -/
structure ClearBufferAnswers where
  activate : Int := 0
  getMixFormat : Int := 0
  clientInit : Int := 0
  getBufferSize : Int := 0
  getService : Int := 0
  getBuffer : Int := 0
  deriving DecidableEq, Repr

/-- The platform as one initialization attempt sees it.  A call that returns
an `HRESULT` and an interface pointer is a pair; the pointer is read only
when the result is not `FAILED`.  The two device lookups, whose pointer the
program tests itself, return an optional pointer. -/
structure Platform where
  -- process/window locator
  ms_find_window : Int → String → String → String → Nat
  GetWindowThreadProcessId : Nat → Nat × Nat
  getPID : String → Nat
  -- endpoint enumerator
  GetDefaultAudioEndpoint : EDataFlow → ERole → Int × Option IMMDevice
  os_utf8_to_wcs_ptr : String → Bool
  GetDevice : String → Int × Option IMMDevice
  GetDeviceName : Option IMMDevice → String
  endpoints : List Endpoint
  -- host mix configuration (`obs_get_audio_info`, `get_audio_channels`)
  hostSpeakers : Nat
  hostChannels : Nat
  hostSamplesPerSec : Nat
  -- client activation
  createEvent : Bool
  ActivateAudioInterfaceAsync : Nat → Int
  GetActivateResult : Nat → Int × IAudioClient
  Activate : IMMDevice → Int × IAudioClient
  GetMixFormat : IAudioClient → Int × WAVEFORMATEXTENSIBLE
  client_Initialize : IAudioClient → Nat → WAVEFORMATEXTENSIBLE → Int
  clearBuffer : IMMDevice → ClearBufferAnswers
  -- capture interface
  GetService : IAudioClient → Int × IAudioCaptureClient
  SetEventHandle : IAudioClient → Int
  Start : IAudioClient → Int
  -- shared work queue
  putWaitingSampleReady : Int
  putWaitingRestart : Int

/-- `WAVE_FORMAT_EXTENSIBLE` (`mmreg.h`). -/
def WAVE_FORMAT_EXTENSIBLE : Nat := 0xFFFE

/-- `KSAUDIO_SPEAKER_STEREO` (`ksmedia.h`): front left, front right. -/
def KSAUDIO_SPEAKER_STEREO : Nat := 0x3

/-- `KSAUDIO_SPEAKER_2POINT1` (`ksmedia.h`). -/
def KSAUDIO_SPEAKER_2POINT1 : Nat := 0xB

/-- `KSAUDIO_SPEAKER_SURROUND` (`ksmedia.h`). -/
def KSAUDIO_SPEAKER_SURROUND : Nat := 0x107

/-- `SPEAKER_LOW_FREQUENCY` (`ksmedia.h`). -/
def SPEAKER_LOW_FREQUENCY : Nat := 0x8

/-- `OBS_KSAUDIO_SPEAKER_4POINT1`, defined at the top of the file. -/
def OBS_KSAUDIO_SPEAKER_4POINT1 : Nat :=
  KSAUDIO_SPEAKER_SURROUND ||| SPEAKER_LOW_FREQUENCY

/-- `KSAUDIO_SPEAKER_5POINT1_SURROUND` (`ksmedia.h`). -/
def KSAUDIO_SPEAKER_5POINT1_SURROUND : Nat := 0x60F

/-- `KSAUDIO_SPEAKER_7POINT1_SURROUND` (`ksmedia.h`). -/
def KSAUDIO_SPEAKER_7POINT1_SURROUND : Nat := 0x63F

/-- Values of `enum speaker_layout` (`media-io/audio-io.h`). -/
def SPEAKERS_UNKNOWN : Nat := 0
/-- Mono. -/
def SPEAKERS_MONO : Nat := 1
/-- Stereo. -/
def SPEAKERS_STEREO : Nat := 2
/-- Layout 2.1. -/
def SPEAKERS_2POINT1 : Nat := 3
/-- Layout 4.0. -/
def SPEAKERS_4POINT0 : Nat := 4
/-- Layout 4.1. -/
def SPEAKERS_4POINT1 : Nat := 5
/-- Layout 5.1. -/
def SPEAKERS_5POINT1 : Nat := 6
/-- Layout 7.1. -/
def SPEAKERS_7POINT1 : Nat := 8

/-- `AUDIO_FORMAT_FLOAT` of `enum audio_format` (`media-io/audio-io.h`). -/
def AUDIO_FORMAT_FLOAT : Nat := 4

/-- `KSDATAFORMAT_SUBTYPE_IEEE_FLOAT`, by the first field of the GUID. -/
def KSDATAFORMAT_SUBTYPE_IEEE_FLOAT : Nat := 3

/-- `AUDCLNT_STREAMFLAGS_EVENTCALLBACK`. -/
def AUDCLNT_STREAMFLAGS_EVENTCALLBACK : Nat := 0x00040000

/-- `AUDCLNT_STREAMFLAGS_LOOPBACK`. -/
def AUDCLNT_STREAMFLAGS_LOOPBACK : Nat := 0x00020000

/-- `sizeof(WAVEFORMATEXTENSIBLE)`. -/
def sizeof_WAVEFORMATEXTENSIBLE : Nat := 40

/-- `sizeof(WAVEFORMATEX)`. -/
def sizeof_WAVEFORMATEX : Nat := 18

/-- `sizeof(audio_format)`, an `enum`. -/
def sizeof_audio_format : Nat := 4

/-- `RECONNECT_INTERVAL`. -/
def RECONNECT_INTERVAL : Nat := 3000

/-- `WASAPISource::_InitDevice`. -/
def _InitDevice (p : Platform) (isDefaultDevice : Bool) (type : SourceType)
    (device_id : String) : Except Thrown (Option IMMDevice) :=
  if isDefaultDevice then
    let input := decide (type = SourceType.Input)
    let r := p.GetDefaultAudioEndpoint
      (if input then EDataFlow.eCapture else EDataFlow.eRender)
      (if input then ERole.eCommunications else ERole.eConsole)
    if FAILED r.1 then
      Except.error (Thrown.hrError "Failed GetDefaultAudioEndpoint" r.1)
    else Except.ok r.2
  else
    if !p.os_utf8_to_wcs_ptr device_id then
      Except.error (Thrown.message "Failed to widen device id string")
    else
      let r := p.GetDevice device_id
      if FAILED r.1 then
        Except.error (Thrown.hrError "Failed to enumerate device" r.1)
      else Except.ok r.2

/-- Modelled from the spec: `GetWASAPIAudioDevices(devices, input, name)` of
`enum-wasapi.cpp`, which is not among the sources.  §4.1 of the spec: a lookup
by name among all eligible endpoints of the matching direction. -/
def GetWASAPIAudioDevices (p : Platform) (input : Bool) (device_name : String) :
    List AudioDeviceInfo :=
  (p.endpoints.filter (fun e => e.input == input && e.info.name == device_name)).map
    Endpoint.info

/-- What `InitDevice` hands back: the device and the two strings it takes by
reference. -/
structure ResolvedDevice where
  device : Option IMMDevice
  device_id : String
  device_name : String
  deriving DecidableEq, Repr

/-- `WASAPISource::InitDevice`. -/
def InitDevice (p : Platform) (isDefaultDevice : Bool) (type : SourceType)
    (device_id : String) (device_name : String) : Except Thrown ResolvedDevice :=
  match _InitDevice p isDefaultDevice type device_id with
  | Except.error e => Except.error e
  | Except.ok device =>
    let device_name := if device_name = "" then p.GetDeviceName device else device_name
    if device.isSome then
      Except.ok { device := device, device_id := device_id, device_name := device_name }
    else if device_name ≠ "" then
      match GetWASAPIAudioDevices p (decide (type = SourceType.Input)) device_name with
      | d :: _ =>
        Except.ok { device := d.device, device_id := d.id, device_name := device_name }
      | [] =>
        Except.ok { device := device, device_id := device_id, device_name := device_name }
    else
      Except.ok { device := device, device_id := device_id, device_name := device_name }

/-- `GetSpeakerChannelMask`. -/
def GetSpeakerChannelMask (layout : Nat) : Nat :=
  if layout = SPEAKERS_STEREO then KSAUDIO_SPEAKER_STEREO
  else if layout = SPEAKERS_2POINT1 then KSAUDIO_SPEAKER_2POINT1
  else if layout = SPEAKERS_4POINT0 then KSAUDIO_SPEAKER_SURROUND
  else if layout = SPEAKERS_4POINT1 then OBS_KSAUDIO_SPEAKER_4POINT1
  else if layout = SPEAKERS_5POINT1 then KSAUDIO_SPEAKER_5POINT1_SURROUND
  else if layout = SPEAKERS_7POINT1 then KSAUDIO_SPEAKER_7POINT1_SURROUND
  else layout

/-- `ConvertSpeakerLayout`. -/
def ConvertSpeakerLayout (layout : Nat) (channels : Nat) : Nat :=
  if layout = KSAUDIO_SPEAKER_2POINT1 then SPEAKERS_2POINT1
  else if layout = KSAUDIO_SPEAKER_SURROUND then SPEAKERS_4POINT0
  else if layout = OBS_KSAUDIO_SPEAKER_4POINT1 then SPEAKERS_4POINT1
  else if layout = KSAUDIO_SPEAKER_5POINT1_SURROUND then SPEAKERS_5POINT1
  else if layout = KSAUDIO_SPEAKER_7POINT1_SURROUND then SPEAKERS_7POINT1
  else channels

/-- The three values `InitFormat` writes through its reference parameters. -/
structure NegotiatedFormat where
  speakers : Nat
  format : Nat
  sampleRate : Nat
  deriving DecidableEq, Repr

/-- `WASAPISource::InitFormat`. -/
def InitFormat (wfex : WAVEFORMATEXTENSIBLE) : NegotiatedFormat :=
  let layout :=
    if wfex.Format.wFormatTag = WAVE_FORMAT_EXTENSIBLE then wfex.dwChannelMask else 0
  { speakers := ConvertSpeakerLayout layout wfex.Format.nChannels
    format := AUDIO_FORMAT_FLOAT
    sampleRate := wfex.Format.nSamplesPerSec }

/-- The format `InitClient` builds for process loopback (lines 728-747). -/
def processLoopbackFormat (p : Platform) : WAVEFORMATEXTENSIBLE :=
  let nChannels := p.hostChannels % 2 ^ 16
  let nSamplesPerSec := p.hostSamplesPerSec
  let wBitsPerSample := 32
  let nBlockAlign := (nChannels * wBitsPerSample / 8) % 2 ^ 16
  { Format :=
      { wFormatTag := WAVE_FORMAT_EXTENSIBLE
        nChannels := nChannels
        nSamplesPerSec := nSamplesPerSec
        nAvgBytesPerSec := (nSamplesPerSec * nBlockAlign) % 2 ^ 32
        nBlockAlign := nBlockAlign
        wBitsPerSample := wBitsPerSample
        cbSize := (sizeof_WAVEFORMATEXTENSIBLE - sizeof_audio_format) % 2 ^ 16 }
    wValidBitsPerSample := wBitsPerSample
    dwChannelMask := GetSpeakerChannelMask p.hostSpeakers
    SubFormat := KSDATAFORMAT_SUBTYPE_IEEE_FLOAT }

/-- How a call that may throw ends, with the values written through reference
parameters before the end. -/
structure Attempt (ρ α : Type) where
  refs : ρ
  result : Except Thrown α

/-- `WASAPISource::InitClient`; `cur` holds the values behind the three
reference parameters on entry.  A null `device` on a device session is
dereferenced. -/
def InitClient (p : Platform) (device : Option IMMDevice) (type : SourceType)
    (process_id : Nat) (activate_audio_interface_async : Bool) (cur : NegotiatedFormat) :
    Except Fault (Attempt NegotiatedFormat IAudioClient) :=
  let finish (client : IAudioClient) (pFormat : WAVEFORMATEXTENSIBLE) :
      Attempt NegotiatedFormat IAudioClient :=
    let flags :=
      if type ≠ SourceType.Input then
        AUDCLNT_STREAMFLAGS_EVENTCALLBACK ||| AUDCLNT_STREAMFLAGS_LOOPBACK
      else AUDCLNT_STREAMFLAGS_EVENTCALLBACK
    let res := p.client_Initialize client flags pFormat
    if FAILED res then
      { refs := InitFormat pFormat
        result := Except.error (Thrown.hrError "Failed to initialize audio client" res) }
    else { refs := InitFormat pFormat, result := Except.ok client }
  if type = SourceType.ProcessOutput then
    if !activate_audio_interface_async then
      Except.ok { refs := cur
                  result := Except.error
                    (Thrown.message "ActivateAudioInterfaceAsync is not available") }
    else if !p.createEvent then
      Except.ok { refs := cur
                  result := Except.error (Thrown.message "Could not create receive signal") }
    else
      let res := p.ActivateAudioInterfaceAsync process_id
      if FAILED res then
        Except.ok { refs := cur
                    result := Except.error
                      (Thrown.hrError "Failed to get activate audio client" res) }
      else
        let r := p.GetActivateResult process_id
        if FAILED r.1 then
          Except.ok { refs := cur
                      result := Except.error (Thrown.hrError "Async activation failed" r.1) }
        else Except.ok (finish r.2 (processLoopbackFormat p))
  else
    match device with
    | none => Except.error Fault.nullDeref
    | some dev =>
      let r := p.Activate dev
      if FAILED r.1 then
        Except.ok { refs := cur
                    result := Except.error
                      (Thrown.hrError "Failed to activate client context" r.1) }
      else
        let m := p.GetMixFormat r.2
        if FAILED m.1 then
          Except.ok { refs := cur
                      result := Except.error (Thrown.hrError "Failed to get mix format" m.1) }
        else Except.ok (finish r.2 m.2)

/-- `WASAPISource::ClearBuffer`: `none` when it returns, the exception
otherwise.  A null `device` is dereferenced. -/
def ClearBuffer (p : Platform) (device : Option IMMDevice) :
    Except Fault (Option Thrown) :=
  match device with
  | none => Except.error Fault.nullDeref
  | some dev =>
    let a := p.clearBuffer dev
    if FAILED a.activate then
      Except.ok (some (Thrown.hrError "Failed to activate client context" a.activate))
    else if FAILED a.getMixFormat then
      Except.ok (some (Thrown.hrError "Failed to get mix format" a.getMixFormat))
    else if FAILED a.clientInit then
      Except.ok (some (Thrown.hrError "Failed to initialize audio client" a.clientInit))
    else if FAILED a.getBufferSize then
      Except.ok (some (Thrown.hrError "Failed to get buffer size" a.getBufferSize))
    else if FAILED a.getService then
      Except.ok (some (Thrown.hrError "Failed to get render client" a.getService))
    else if FAILED a.getBuffer then
      Except.ok (some (Thrown.hrError "Failed to get buffer" a.getBuffer))
    else Except.ok none

/-- `WASAPISource::InitCapture`. -/
def InitCapture (p : Platform) (client : IAudioClient) :
    Except Thrown IAudioCaptureClient :=
  let r := p.GetService client
  if FAILED r.1 then
    Except.error (Thrown.hrError "Failed to create capture context" r.1)
  else
    let res := p.SetEventHandle client
    if FAILED res then
      Except.error (Thrown.hrError "Failed to set event handle" res)
    else
      let res := p.Start client
      if FAILED res then
        Except.error (Thrown.hrError "Failed to start capture client" res)
      else Except.ok r.2

/-- `rtwq_put_waiting_work_item(sig, 0, item, nullptr)` with result `hr`. -/
def rtwq_put_waiting_work_item (hr : Int) (sig : Signal) (item : WorkItem)
    (s : WASAPISource) : WASAPISource :=
  let s1 := { s with log := s.log ++ [Effect.putWaitingWorkItem sig item hr] }
  if FAILED hr then s1
  else
    match item with
    | WorkItem.sampleReady => { s1 with sampleReadyWaiting := s1.sampleReadyWaiting + 1 }
    | WorkItem.restart => { s1 with restartWaiting := s1.restartWaiting + 1 }
    | WorkItem.startCapture => s1

/-- Lines 912-939 of `Initialize`: find the target process or resolve the
device.  The session is returned as the block leaves it, also when it
throws. -/
def resolveTarget (p : Platform) (s : WASAPISource) :
    Attempt WASAPISource (Option IMMDevice) :=
  if s.sourceType = SourceType.ProcessOutput then
    let s1 := { s with device_name := "[VIRTUAL_AUDIO_DEVICE_PROCESS_LOOPBACK]" }
    if s1.session.length = 0 then
      let s2 := { s1 with
        hwnd := p.ms_find_window s1.priority s1.window_class s1.title s1.executable }
      if s2.hwnd = 0 then
        { refs := s2, result := Except.error (Thrown.hrError "Failed to find window" 0) }
      else
        let r := p.GetWindowThreadProcessId s2.hwnd
        if r.1 = 0 then
          { refs := { s2 with hwnd := 0 }
            result := Except.error (Thrown.hrError "Failed to get process id of window" 0) }
        else
          { refs := { s2 with process_id := r.2 }, result := Except.ok none }
    else
      let s2 := { s1 with process_id := p.getPID s1.session }
      if s2.process_id = 0 then
        { refs := s2
          result := Except.error (Thrown.hrError "Failed to get process id of session" 0) }
      else { refs := s2, result := Except.ok none }
  else
    match InitDevice p s.isDefaultDevice s.sourceType s.device_id s.device_name with
    | Except.error e => { refs := s, result := Except.error e }
    | Except.ok r =>
      { refs := { s with device_id := r.device_id, device_name := p.GetDeviceName r.device }
        result := Except.ok r.device }

/-- Lines 954-970 of `Initialize`: queue the two waiting work items; on a
failure drop the pair and throw. -/
def queueWaitingItems (p : Platform) (s : WASAPISource) : WASAPISource × Option Thrown :=
  if s.rtwq_supported then
    let s1 := rtwq_put_waiting_work_item p.putWaitingSampleReady Signal.receive
      WorkItem.sampleReady s
    if FAILED p.putWaitingSampleReady then
      ({ s1 with capture := none, client := none },
       some (Thrown.hrError "RtwqPutWaitingWorkItem sampleReadyAsyncResult failed"
         p.putWaitingSampleReady))
    else
      let s2 := rtwq_put_waiting_work_item p.putWaitingRestart Signal.restart
        WorkItem.restart s1
      if FAILED p.putWaitingRestart then
        ({ s2 with capture := none, client := none },
         some (Thrown.hrError "RtwqPutWaitingWorkItem restartAsyncResult failed"
           p.putWaitingRestart))
      else (s2, none)
  else (s, none)

/-- `WASAPISource::Initialize`: the session as the call leaves it, with the
exception if it threw. -/
def Initialize (p : Platform) (s : WASAPISource) :
    Except Fault (WASAPISource × Option Thrown) :=
  let t := resolveTarget p s
  match t.result with
  | Except.error e => Except.ok (t.refs, some e)
  | Except.ok device =>
    let s1 := ResetEvent Signal.receive t.refs
    match InitClient p device s1.sourceType s1.process_id s1.activate_audio_interface_async
        { speakers := s1.speakers, format := s1.format, sampleRate := s1.sampleRate } with
    | Except.error f => Except.error f
    | Except.ok a =>
      let s2 := { s1 with
        speakers := a.refs.speakers, format := a.refs.format,
        sampleRate := a.refs.sampleRate }
      match a.result with
      | Except.error e => Except.ok (s2, some e)
      | Except.ok temp_client =>
        let cleared :=
          if s2.sourceType = SourceType.DeviceOutput then ClearBuffer p device
          else Except.ok none
        match cleared with
        | Except.error f => Except.error f
        | Except.ok (some e) => Except.ok (s2, some e)
        | Except.ok none =>
          match InitCapture p temp_client with
          | Except.error e => Except.ok (s2, some e)
          | Except.ok temp_capture =>
            let s3 := { s2 with client := some temp_client, capture := some temp_capture }
            Except.ok (queueWaitingItems p s3)

/-- `WASAPISource::TryInitialize`. -/
def TryInitialize (p : Platform) (s : WASAPISource) : Except Fault (WASAPISource × Bool) :=
  match Initialize p s with
  | Except.error f => Except.error f
  | Except.ok (s1, none) => Except.ok ({ s1 with previouslyFailed := false }, true)
  | Except.ok (s1, some _) => Except.ok ({ s1 with previouslyFailed := true }, false)

/-! ## Lifecycle: capture thread and work-queue callbacks -/

/-- Whether an event is signalled. -/
def signalled (s : WASAPISource) : Signal → Bool
  | Signal.idle => s.idleSignal
  | Signal.stop => s.stopSignal
  | Signal.receive => s.receiveSignal
  | Signal.restart => s.restartSignal
  | Signal.exit => s.exitSignal
  | Signal.init => s.initSignal
  | Signal.reconnect => s.reconnectSignal

/-- A satisfied wait takes an auto-reset event back to non-signalled (the
second argument of `CreateEvent` in the constructor is `false` for the
receive, init and reconnect events); manual-reset events stay signalled.
No `ResetEvent` call is made, so nothing is logged. -/
def consume (sig : Signal) (s : WASAPISource) : WASAPISource :=
  match sig with
  | Signal.receive => { s with receiveSignal := false }
  | Signal.init => { s with initSignal := false }
  | Signal.reconnect => { s with reconnectSignal := false }
  | _ => s

/-- Return value of a wait: `WAIT_OBJECT_0 + index` or `WAIT_TIMEOUT`. -/
inductive WaitResult where
  | object (index : Nat)
  | timeout
  deriving DecidableEq, Repr

/-- The lowest index of a signalled event among `sigs`, counted from `base`,
with the session after the wait. -/
def firstSignalled (s : WASAPISource) (base : Nat) :
    List Signal → Option (Nat × WASAPISource)
  | [] => none
  | sig :: rest =>
    if signalled s sig then some (base, consume sig s)
    else firstSignalled s (base + 1) rest

/-- `WaitForMultipleObjects(n, sigs, false, timeout)`: `none` when no event is
signalled and the timeout is `INFINITE` (the caller stays blocked). -/
def WaitForMultipleObjects (sigs : List Signal) (finite : Bool) (s : WASAPISource) :
    Option (WaitResult × WASAPISource) :=
  match firstSignalled s 0 sigs with
  | some (i, s1) => some (WaitResult.object i, s1)
  | none => if finite then some (WaitResult.timeout, s) else none

/-- The variables of `CaptureThread` that live across iterations: which
signal set is waited on (`sigs == active_sigs`) and `exit`. -/
structure CaptureThreadState where
  active : Bool := false
  exit : Bool := false
  deriving DecidableEq, Repr

/-- How a step of the model ends. -/
inductive StepResult (α : Type) where
  | blocked
  | fault (f : Fault)
  | next (a : α)
  deriving Repr

/-- `inactive_sigs` of `CaptureThread`. -/
def inactive_sigs : List Signal := [Signal.exit, Signal.stop, Signal.init]

/-- `active_sigs` of `CaptureThread`. -/
def active_sigs : List Signal :=
  [Signal.exit, Signal.stop, Signal.receive, Signal.restart]

/-- Lines 1217-1233 of `CaptureThread`: what follows the inner loop once
`stop` is set, with the values of `exit`, `idle` and `reconnect`. -/
def captureThreadUnwind (exit idle reconnect : Bool) (s : WASAPISource) :
    CaptureThreadState × WASAPISource :=
  let s1 :=
    if s.client.isSome then
      { s with log := s.log ++ [Effect.clientStop], capture := none, client := none }
    else s
  let s2 :=
    if idle then SetEvent Signal.idle s1
    else if reconnect then SetEvent Signal.reconnect s1
    else s1
  ({ active := false, exit := exit }, s2)

/-- One iteration of the inner loop of `CaptureThread` (lines 1151-1215),
followed by lines 1217-1233 when the iteration sets `stop`.  `p` answers an
initialization attempt and `replies` a drain pass, if the iteration makes
one. -/
def CaptureThreadStep (p : Platform) (replies : List CaptureReply)
    (t : CaptureThreadState) (s : WASAPISource) :
    StepResult (CaptureThreadState × WASAPISource) :=
  if t.exit then StepResult.blocked
  else
    let sigs := if t.active then active_sigs else inactive_sigs
    let finite := t.active && decide (s.sourceType ≠ SourceType.Input)
    match WaitForMultipleObjects sigs finite s with
    | none => StepResult.blocked
    | some (ret, s0) =>
      if ret = WaitResult.object 0 then
        StepResult.next (captureThreadUnwind true true false s0)
      else if ret = WaitResult.object 1 then
        StepResult.next (captureThreadUnwind false true false s0)
      else if ret = WaitResult.object 2 ∨ ret = WaitResult.timeout then
        if !t.active then
          match TryInitialize p s0 with
          | Except.error f => StepResult.fault f
          | Except.ok (s1, true) => StepResult.next ({ t with active := true }, s1)
          | Except.ok (s1, false) =>
            StepResult.next
              (captureThreadUnwind false false true
                { s1 with reconnectDuration := RECONNECT_INTERVAL })
        else
          match ProcessCaptureData s0 replies with
          | Except.error f => StepResult.fault f
          | Except.ok (s1, true) => StepResult.next (t, s1)
          | Except.ok (s1, false) =>
            StepResult.next
              (captureThreadUnwind false false true
                { s1 with reconnectDuration := RECONNECT_INTERVAL })
      else
        StepResult.next
          (captureThreadUnwind false false true
            (ResetEvent Signal.restart { s0 with reconnectDuration := 0 }))

/-- `WASAPISource::OnStartCapture`. -/
def OnStartCapture (p : Platform) (s : WASAPISource) : Except Fault WASAPISource :=
  if s.stopSignal then Except.ok (SetEvent Signal.idle s)
  else
    match TryInitialize p s with
    | Except.error f => Except.error f
    | Except.ok (s1, true) => Except.ok s1
    | Except.ok (s1, false) =>
      Except.ok (SetEvent Signal.reconnect { s1 with reconnectDuration := RECONNECT_INTERVAL })

/-- The flags `stop` and `reconnect` of `OnSampleReady`, with the session. -/
structure SampleReadyVars where
  stop : Bool
  reconnect : Bool
  s : WASAPISource

/-- Lines 1305-1313 of `OnSampleReady`: the restart check. -/
def restartCheck (p : Platform) (v : SampleReadyVars) : SampleReadyVars :=
  if v.s.restartSignal then
    { stop := true
      reconnect := true
      s := rtwq_put_waiting_work_item p.putWaitingRestart Signal.restart WorkItem.restart
             (ResetEvent Signal.restart { v.s with reconnectDuration := 0 }) }
  else v

/-- Lines 1315-1318 of `OnSampleReady`: the stop check. -/
def stopCheck (v : SampleReadyVars) : SampleReadyVars :=
  if v.s.stopSignal then { v with stop := true, reconnect := false } else v

/-- Lines 1320-1330 of `OnSampleReady`: requeue the sample-ready work item
unless stopping. -/
def requeueCheck (p : Platform) (v : SampleReadyVars) : SampleReadyVars :=
  if !v.stop then
    let s3 := rtwq_put_waiting_work_item p.putWaitingSampleReady Signal.receive
      WorkItem.sampleReady v.s
    if FAILED p.putWaitingSampleReady then
      { stop := true, reconnect := true
        s := { s3 with reconnectDuration := RECONNECT_INTERVAL } }
    else { v with s := s3 }
  else v

/-- Lines 1305-1330 of `OnSampleReady`: the three checks in program order. -/
def sampleReadyChecks (p : Platform) (v : SampleReadyVars) : SampleReadyVars :=
  requeueCheck p (stopCheck (restartCheck p v))

/-- Lines 1332-1345 of `OnSampleReady`: the teardown; `client->Stop()` is
called through the pointer without a test. -/
def sampleReadyUnwind (v : SampleReadyVars) : Except Fault WASAPISource :=
  if v.stop then
    match v.s.client with
    | none => Except.error Fault.nullDeref
    | some _ =>
      let s1 := { v.s with
        log := v.s.log ++ [Effect.clientStop], capture := none, client := none }
      if v.reconnect then Except.ok (SetEvent Signal.reconnect s1)
      else Except.ok (SetEvent Signal.idle s1)
  else Except.ok v.s

/-- `WASAPISource::OnSampleReady`. -/
def OnSampleReady (p : Platform) (replies : List CaptureReply) (s : WASAPISource) :
    Except Fault WASAPISource :=
  match ProcessCaptureData s replies with
  | Except.error f => Except.error f
  | Except.ok (s1, drained) =>
    let v0 : SampleReadyVars :=
      if !drained then
        { stop := true, reconnect := true
          s := { s1 with reconnectDuration := RECONNECT_INTERVAL } }
      else { stop := false, reconnect := false, s := s1 }
    sampleReadyUnwind (sampleReadyChecks p v0)

/-- `WASAPISource::Start`; `hr` is the result of `rtwq_put_work_item`, which
the program ignores: the work item is queued when the call succeeds. -/
def Start (hr : Int) (s : WASAPISource) : WASAPISource :=
  if s.rtwq_supported then
    let s1 := { s with log := s.log ++ [Effect.putWorkItem WorkItem.startCapture] }
    if FAILED hr then s1
    else { s1 with startCaptureQueued := s1.startCaptureQueued + 1 }
  else SetEvent Signal.init s

/-- Lines 1019-1022 of `ReconnectThread`: the timed wait on the stop event,
made only for a positive `reconnectDuration`.  It returns when the event is
set or the time is up. -/
def reconnectWait (s : WASAPISource) : WASAPISource :=
  if s.reconnectDuration > 0 then
    { s with log := s.log ++ [Effect.waitSignal Signal.stop (some s.reconnectDuration)] }
  else s

/-- One iteration of the loop of `WASAPISource::ReconnectThread`; `exit` is
the loop variable, `hr` answers the `rtwq_put_work_item` of `Start`. -/
def ReconnectThreadStep (hr : Int) (exit : Bool) (s : WASAPISource) :
    StepResult (Bool × WASAPISource) :=
  if exit then StepResult.blocked
  else
    match WaitForMultipleObjects [Signal.exit, Signal.reconnect] false s with
    | none => StepResult.blocked
    | some (ret, s0) =>
      if ret = WaitResult.object 0 then StepResult.next (true, s0)
      else StepResult.next (false, Start hr (reconnectWait s0))

/-- `WASAPISource::OnRestart`. -/
def OnRestart (s : WASAPISource) : WASAPISource :=
  SetEvent Signal.receive s

/-- The reserved device id. -/
def does_not_exist : String := "does_not_exist"

/-- `WASAPISource::Stop`, as the sequence of calls the stopping thread makes;
each wait is recorded where it is made and taken to return. -/
def Stop (s : WASAPISource) : WASAPISource :=
  if s.device_id = does_not_exist then s
  else
    let s1 := SetEvent Signal.stop s
    let s2 := if s1.rtwq_supported then SetEvent Signal.receive s1 else s1
    let s3 := { s2 with log := s2.log ++ [Effect.waitSignal Signal.idle none] }
    let s4 := SetEvent Signal.exit s3
    let s5 := { s4 with log := s4.log ++ [Effect.waitThread ThreadId.reconnect] }
    if s5.rtwq_supported then
      { s5 with log := s5.log ++ [Effect.unlockWorkQueue] }
    else
      { s5 with log := s5.log ++ [Effect.waitThread ThreadId.capture] }

/-- `WASAPISource::~WASAPISource`, up to the closing of the trace file. -/
def Destroy (s : WASAPISource) : WASAPISource :=
  let s1 :=
    if s.notifyRegistered then
      { s with log := s.log ++ [Effect.unregisterNotify] }
    else s
  Stop s1

/-- What the platform answers to the constructor, in program order. -/
structure ConstructorAnswers where
  LoadLibrary : Bool := true
  GetProcAddress : Bool := true
  CreateEvent : Signal → Bool := fun _ => true
  CreateReconnectThread : Bool := true
  newNotify : Bool := true
  CoCreateInstance : Int := 0
  RegisterEndpointNotificationCallback : Int := 0
  rtwq_module : Bool := true
  win10 : Bool := true
  createStartCapture : Int := 0
  createSampleReady : Int := 0
  createRestart : Int := 0
  RtwqLockSharedWorkQueue : Int := 0
  CreateCaptureThread : Bool := true
  putStartCapture : Int := 0

/-- The seven `CreateEvent` calls of the constructor with the text thrown when
one fails, in program order. -/
def constructorEvents : List (Signal × String) :=
  [(Signal.idle, "Could not create idle signal"),
   (Signal.stop, "Could not create stop signal"),
   (Signal.receive, "Could not create receive signal"),
   (Signal.restart, "Could not create restart signal"),
   (Signal.exit, "Could not create exit signal"),
   (Signal.init, "Could not create init signal"),
   (Signal.reconnect, "Could not create reconnect signal")]

/-- Lines 349-375 of the constructor: create the events one after the other,
throwing at the first that fails. -/
def createEvents (a : ConstructorAnswers) (s : WASAPISource) :
    List (Signal × String) → Except Thrown WASAPISource
  | [] => Except.ok s
  | (sig, msg) :: rest =>
    if a.CreateEvent sig then
      createEvents a { s with log := s.log ++ [Effect.createEvent sig] } rest
    else Except.error (Thrown.message msg)

/-- Lines 404-465 of the constructor: whether the work queue is used.  Any
failure of the four setup calls is caught and turns the work queue off. -/
def rtwqSetup (a : ConstructorAnswers) : Bool :=
  (if a.win10 then a.rtwq_module else false) &&
  !(FAILED a.createStartCapture || FAILED a.createSampleReady ||
    FAILED a.createRestart || FAILED a.RtwqLockSharedWorkQueue)

/-- `WASAPISource::WASAPISource`: the session as constructed, or what the
constructor throws. -/
def WASAPISource_constructor (a : ConstructorAnswers) (build : String → WindowStrings)
    (settings : obs_data) (type : SourceType) : Except Thrown WASAPISource :=
  let s0 : WASAPISource :=
    { sourceType := type
      activate_audio_interface_async := a.LoadLibrary && a.GetProcAddress }
  let s1 := UpdateSettings (BuildUpdateParams build type settings) s0
  if s1.device_id = does_not_exist then Except.ok s1
  else
    match createEvents a s1 constructorEvents with
    | Except.error e => Except.error e
    | Except.ok s2 =>
      if !a.CreateReconnectThread then
        Except.error (Thrown.message "Failed to create reconnect thread")
      else
        let s3 := { s2 with
          reconnectThread := true
          log := s2.log ++ [Effect.createThread ThreadId.reconnect] }
        if !a.newNotify then
          Except.error (Thrown.message "Could not create WASAPINotify")
        else if FAILED a.CoCreateInstance then
          Except.error (Thrown.hrError "Failed to create enumerator" a.CoCreateInstance)
        else if FAILED a.RegisterEndpointNotificationCallback then
          Except.error (Thrown.hrError "Failed to register endpoint callback"
            a.RegisterEndpointNotificationCallback)
        else
          let s4 := { s3 with
            notifyRegistered := true
            log := s3.log ++ [Effect.registerNotify]
            rtwq_supported := rtwqSetup a }
          if !s4.rtwq_supported then
            if !a.CreateCaptureThread then
              Except.error (Thrown.message "Failed to create capture thread")
            else
              Except.ok (Start a.putStartCapture
                { s4 with
                  captureThread := true
                  log := s4.log ++ [Effect.createThread ThreadId.capture] })
          else Except.ok (Start a.putStartCapture s4)

/-! ## The session with its threads and work queue -/

/-- The session together with the loop variables of its two threads. -/
structure System where
  s : WASAPISource
  t : CaptureThreadState := {}
  reconnectExit : Bool := false

/-- One step of the session: an iteration of the capture thread or of the
reconnect thread, the dispatch of a pending work item, or a call from outside
(`Update`, `SetDefaultDevice`, one of the `SetEvent` calls of `Stop`, the audio
engine signalling the receive event).  A pending work item is dispatched by
taking it off the queue; a waiting item needs its event, which is consumed if
it is the auto-reset receive event. -/
inductive Step : System → System → Prop where
  | captureThread (p : Platform) (replies : List CaptureReply) (sys : System)
      (t' : CaptureThreadState) (s' : WASAPISource) :
      sys.s.captureThread = true →
      CaptureThreadStep p replies sys.t sys.s = StepResult.next (t', s') →
      Step sys { sys with t := t', s := s' }
  | reconnectThread (hr : Int) (sys : System) (e' : Bool) (s' : WASAPISource) :
      sys.s.reconnectThread = true →
      ReconnectThreadStep hr sys.reconnectExit sys.s = StepResult.next (e', s') →
      Step sys { sys with reconnectExit := e', s := s' }
  | startCapture (p : Platform) (sys : System) (s' : WASAPISource) :
      sys.s.rtwq_supported = true → 0 < sys.s.startCaptureQueued →
      OnStartCapture p
          { sys.s with startCaptureQueued := sys.s.startCaptureQueued - 1 } =
        Except.ok s' →
      Step sys { sys with s := s' }
  | sampleReady (p : Platform) (replies : List CaptureReply) (sys : System)
      (s' : WASAPISource) :
      sys.s.rtwq_supported = true → 0 < sys.s.sampleReadyWaiting →
      sys.s.receiveSignal = true →
      OnSampleReady p replies
          { sys.s with sampleReadyWaiting := sys.s.sampleReadyWaiting - 1,
                       receiveSignal := false } =
        Except.ok s' →
      Step sys { sys with s := s' }
  | restart (sys : System) :
      sys.s.rtwq_supported = true → 0 < sys.s.restartWaiting →
      sys.s.restartSignal = true →
      Step sys
        { sys with s := OnRestart { sys.s with restartWaiting := sys.s.restartWaiting - 1 } }
  | update (build : String → WindowStrings) (settings : obs_data) (sys : System) :
      Step sys { sys with s := Update build settings sys.s }
  | defaultDevice (flow : EDataFlow) (role : ERole) (id : Option String) (sys : System) :
      Step sys { sys with s := SetDefaultDevice flow role id sys.s }
  | stopCall (sig : Signal) (sys : System) :
      sig = Signal.stop ∨ sig = Signal.receive ∨ sig = Signal.exit →
      Step sys { sys with s := SetEvent sig sys.s }
  | dataReady (sys : System) :
      Step sys { sys with s := { sys.s with receiveSignal := true } }

/-- The states a constructed session can be in. -/
inductive Reachable : System → Prop where
  | constructed (a : ConstructorAnswers) (build : String → WindowStrings)
      (settings : obs_data) (type : SourceType) (s : WASAPISource) :
      WASAPISource_constructor a build settings type = Except.ok s →
      Reachable { s := s }
  | step (x y : System) : Reachable x → Step x y → Reachable y

/-- Neither interface is held. -/
def pairAbsent (s : WASAPISource) : Prop :=
  s.client = none ∧ s.capture = none

/-- Both interfaces are held. -/
def pairHeld (s : WASAPISource) : Prop :=
  s.client.isSome = true ∧ s.capture.isSome = true

/-- The members of the session that decide which steps are enabled and who
owns the client/capture pair, read off a session. -/
structure Core where
  rtwq : Bool
  captureThread : Bool
  reconnectThread : Bool
  stop : Bool
  exit : Bool
  idle : Bool
  init : Bool
  reconnect : Bool
  queued : Nat
  client : Option IAudioClient
  capture : Option IAudioCaptureClient
  previouslyFailed : Bool
  deriving DecidableEq, Repr

/-- The `Core` of a session. -/
def core (s : WASAPISource) : Core :=
  { rtwq := s.rtwq_supported
    captureThread := s.captureThread
    reconnectThread := s.reconnectThread
    stop := s.stopSignal
    exit := s.exitSignal
    idle := s.idleSignal
    init := s.initSignal
    reconnect := s.reconnectSignal
    queued := s.startCaptureQueued
    client := s.client
    capture := s.capture
    previouslyFailed := s.previouslyFailed }

/-- The ownership invariant of the session, on its `Core` and the capture
thread's loop variables.  `pair`: the two interfaces are held together or not
at all.  `strategy`: the capture thread runs only when the work queue is off.
Capture-thread strategy: the pair is held exactly while the thread waits on
its active set; at most one of "init set", "reconnect set" and "active" holds;
idle is set only once stop or exit is.  Work-queue strategy: at most one of
"a start item is queued", "reconnect set" and "pair held" holds, a single
start item is queued at a time, and idle excludes all three. -/
structure Inv (c : Core) (t : CaptureThreadState) : Prop where
  pair : (c.client = none ∧ c.capture = none) ∨
    (c.client.isSome = true ∧ c.capture.isSome = true)
  strategy : c.captureThread = true → c.rtwq = false
  inactive : c.rtwq = false → t.active = false → c.client = none
  active : c.rtwq = false → t.active = true →
    c.client.isSome = true ∧ c.init = false ∧ c.reconnect = false
  t_init : c.rtwq = false → c.init = true → c.reconnect = false
  t_idle : c.rtwq = false → c.idle = true →
    t.active = false ∧ (c.stop = true ∨ c.exit = true)
  q_queued : c.rtwq = true → 0 < c.queued →
    c.queued = 1 ∧ c.client = none ∧ c.reconnect = false ∧ c.idle = false
  q_reconnect : c.rtwq = true → c.reconnect = true → c.client = none ∧ c.idle = false
  q_idle : c.rtwq = true → c.idle = true → c.client = none

/-! ## Source registration and the process-id lookup cache -/

/-- Modelled from the spec: the process-id lookup cache `AppDevicesCache`,
whose source is not among the sources.  §9 of the spec describes it as a
reference-counted process-wide registry with explicit acquire and release; the
model keeps the count of references. -/
structure AppDevicesCache where
  refs : Int := 0
  deriving DecidableEq, Repr

/-- Modelled from the spec: `AppDevicesCache::addRef`, the acquire of §9: one
reference more. -/
def AppDevicesCache.addRef (c : AppDevicesCache) : AppDevicesCache :=
  { c with refs := c.refs + 1 }

/-- Modelled from the spec: `AppDevicesCache::releaseRef`, the release of §9:
one reference less. -/
def AppDevicesCache.releaseRef (c : AppDevicesCache) : AppDevicesCache :=
  { c with refs := c.refs - 1 }

/-- How `CreateWASAPISource` ends: it returns the new session, returns
`nullptr`, or lets an exception it does not catch pass through. -/
inductive Created where
  | session (s : WASAPISource)
  | null
  | thrown (e : Thrown)
  deriving DecidableEq, Repr

/-- `CreateWASAPISource`, with the cache it acts on.  The `try` block returns
the new session; a thrown string is caught and control falls through to
`addRef` and `return nullptr`; an `HRError` is not caught here. -/
def CreateWASAPISource (a : ConstructorAnswers) (build : String → WindowStrings)
    (settings : obs_data) (type : SourceType) (cache : AppDevicesCache) :
    Created × AppDevicesCache :=
  match WASAPISource_constructor a build settings type with
  | Except.ok s => (Created.session s, cache)
  | Except.error (Thrown.message _) => (Created.null, cache.addRef)
  | Except.error (Thrown.hrError str hr) => (Created.thrown (Thrown.hrError str hr), cache)

/-- `DestroyWASAPISource`: release the cache, then delete the session. -/
def DestroyWASAPISource (obj : WASAPISource) (cache : AppDevicesCache) :
    WASAPISource × AppDevicesCache :=
  let cache1 := cache.releaseRef
  (Destroy obj, cache1)

/-! ## The media-control library patch -/

/-- `patterndata` of `patchMediaCrash`. -/
def patterndata : List Nat :=
  [0x83, 0xF9, 0x08, 0xB8, 0x04, 0x00, 0x00,
   0x00, 0x41, 0xB8, 0x01, 0x00, 0x00, 0x00,
   0x00, 0x00, 0x00, 0x00, 0x83, 0x00, 0x00,
   0x00, 0x44, 0x00, 0x00, 0x00, 0x0F, 0x00,
   0x00, 0x00, 0x00, 0x00, 0xC7]

/-- `patternsten` of `patchMediaCrash`: a non-zero byte marks a wildcard. -/
def patternsten : List Nat :=
  [0x00, 0x00, 0x00, 0x00, 0x00, 0x00, 0x00,
   0x00, 0x00, 0x00, 0x00, 0x00, 0x00, 0x00,
   0x01, 0x01, 0x01, 0x01, 0x00, 0x01, 0x01,
   0x01, 0x00, 0x01, 0x01, 0x01, 0x00, 0x01,
   0x01, 0x01, 0x01, 0x01, 0x00]

/-- `patchdata` of `patchMediaCrash`. -/
def patchdata : List Nat :=
  [0x83, 0xF9, 0x08, 0xB8, 0x04, 0x00, 0x00,
   0x00, 0x41, 0xB8, 0x01, 0x00, 0x00, 0x00,
   0x00, 0x00, 0x00, 0x00, 0x83, 0x00, 0x00,
   0x00, 0x44, 0x00, 0x00, 0x00, 0x90, 0x90,
   0x90, 0x90, 0x90, 0x90, 0xC7]

/-- `patchsten` of `patchMediaCrash`: a zero byte marks a byte to write. -/
def patchsten : List Nat :=
  [0x00, 0x00, 0x00, 0x00, 0x00, 0x00, 0x00,
   0x00, 0x00, 0x00, 0x00, 0x00, 0x00, 0x00,
   0x01, 0x01, 0x01, 0x01, 0x00, 0x01, 0x01,
   0x01, 0x00, 0x01, 0x01, 0x01, 0x00, 0x00,
   0x00, 0x00, 0x00, 0x00, 0x00]

/-- `sizeof(patterndata)`. -/
def sizeof_patterndata : Nat := 33

/-- A read through the module's base pointer at a byte index that is not in
the image. -/
inductive ReadFault where
  | outside (index : Nat)
  deriving DecidableEq, Repr

/-- The read `*((uint8_t *)module_info.lpBaseOfDll + index)`; the image is the
list of its `SizeOfImage` bytes. -/
def readByte (image : List Nat) (index : Nat) : Except ReadFault Nat :=
  match image[index]? with
  | some b => Except.ok b
  | none => Except.error (ReadFault.outside index)

/-- The inner loop of the search of `patchMediaCrash` from `pattern_offset`
on, over the pattern bytes paired with their stencil bytes: whether
`found_memory` is set when the loop ends.  The memory byte is read before the
stencil is looked at. -/
def matchPattern (image : List Nat) (offset : Nat) :
    Nat → List (Nat × Nat) → Except ReadFault Bool
  | _, [] => Except.ok true
  | pattern_offset, (pattern_byte, pattern_stencil_byte) :: rest =>
    match readByte image (offset + pattern_offset) with
    | Except.error e => Except.error e
    | Except.ok memory_byte =>
      if pattern_stencil_byte ≠ 0 ∨ pattern_byte = memory_byte then
        matchPattern image offset (pattern_offset + 1) rest
      else Except.ok false

/-- The outer loop of the search with `remaining` iterations to go from
`offset`: the offset `found_memory` points at, or `none` for `nullptr`. -/
def searchPattern (image : List Nat) : Nat → Nat → Except ReadFault (Option Nat)
  | 0, _ => Except.ok none
  | remaining + 1, offset =>
    match matchPattern image offset 0 (patterndata.zip patternsten) with
    | Except.error e => Except.error e
    | Except.ok true => Except.ok (some offset)
    | Except.ok false => searchPattern image remaining (offset + 1)

/-- The search of `patchMediaCrash` (lines 1472-1490).  The loop bound
`module_info.SizeOfImage - sizeof(patterndata)` is computed in `size_t`, an
unsigned 64-bit type. -/
def findPattern (image : List Nat) : Except ReadFault (Option Nat) :=
  searchPattern image (sub64 image.length sizeof_patterndata) 0

/-- The patch loop of `patchMediaCrash` (lines 1497-1502) from `patch_offset`
on, over the patch bytes paired with their stencil bytes. -/
def applyPatch (image : List Nat) (found_memory : Nat) :
    Nat → List (Nat × Nat) → List Nat
  | _, [] => image
  | patch_offset, (data, stencil) :: rest =>
    applyPatch (if stencil = 0 then image.set (found_memory + patch_offset) data else image)
      found_memory (patch_offset + 1) rest

/-- `patchMediaCrash`: the image of the media-control library as the call
leaves it.  `needed` is `isMediaCrashPatchNeeded()`, `module` the image when
the library and its module information are obtained, `unlocked` the result of
the first `VirtualProtect`. -/
def patchMediaCrash (needed : Bool) (module : Option (List Nat)) (unlocked : Bool) :
    Except ReadFault (Option (List Nat)) :=
  if !needed then Except.ok module
  else
    match module with
    | none => Except.ok none
    | some image =>
      match findPattern image with
      | Except.error e => Except.error e
      | Except.ok none => Except.ok (some image)
      | Except.ok (some found_memory) =>
        if unlocked then
          Except.ok (some (applyPatch image found_memory 0 (patchdata.zip patchsten)))
        else Except.ok (some image)

/-! ## Fixtures -/

/-- `E_NOTFOUND` (`0x80070490`) as a signed 32-bit value. -/
def E_NOTFOUND : Int := -2147023728

/-- `AUDCLNT_E_DEVICE_INVALIDATED` (`0x88890004`) as a signed 32-bit value. -/
def AUDCLNT_E_DEVICE_INVALIDATED : Int := -2004287484

/-- A platform on which every call succeeds: one window (handle 1, process
4242), one capture endpoint and one render endpoint, a stereo 48 kHz host
mix. -/
def nominalPlatform : Platform where
  ms_find_window := fun _ _ _ _ => 1
  GetWindowThreadProcessId := fun _ => (1, 4242)
  getPID := fun _ => 4242
  GetDefaultAudioEndpoint := fun flow _ =>
    (0, some ⟨if flow = EDataFlow.eCapture then 10 else 20⟩)
  os_utf8_to_wcs_ptr := fun _ => true
  GetDevice := fun _ => (0, some ⟨10⟩)
  GetDeviceName := fun _ => "Microphone"
  endpoints :=
    [{ input := true, info := { device := some ⟨10⟩, name := "Microphone", id := "mic-new" } },
     { input := false, info := { device := some ⟨20⟩, name := "Speakers", id := "spk-1" } }]
  hostSpeakers := SPEAKERS_STEREO
  hostChannels := 2
  hostSamplesPerSec := 48000
  createEvent := true
  ActivateAudioInterfaceAsync := fun _ => 0
  GetActivateResult := fun _ => (0, ⟨100⟩)
  Activate := fun _ => (0, ⟨100⟩)
  GetMixFormat := fun _ =>
    (0, { Format := { wFormatTag := WAVE_FORMAT_EXTENSIBLE, nChannels := 2,
                      nSamplesPerSec := 48000, nAvgBytesPerSec := 384000,
                      nBlockAlign := 8, wBitsPerSample := 32, cbSize := 22 }
          wValidBitsPerSample := 32
          dwChannelMask := KSAUDIO_SPEAKER_STEREO
          SubFormat := KSDATAFORMAT_SUBTYPE_IEEE_FLOAT })
  client_Initialize := fun _ _ _ => 0
  clearBuffer := fun _ => {}
  GetService := fun _ => (0, ⟨200⟩)
  SetEventHandle := fun _ => 0
  Start := fun _ => 0
  putWaitingSampleReady := 0
  putWaitingRestart := 0

/-- The nominal platform after the configured endpoint id has gone stale:
`GetDevice` fails with `E_NOTFOUND`, while the endpoint is still listed under
its name with a new id. -/
def stalePlatform : Platform :=
  { nominalPlatform with GetDevice := fun _ => (E_NOTFOUND, none) }

/-- A ProcessOutput session matching a window by executable, as constructed. -/
def processSession : WASAPISource :=
  { sourceType := SourceType.ProcessOutput, executable := "game.exe",
    activate_audio_interface_async := true }

/-- An Input session bound to a stale endpoint id whose name is known. -/
def staleSession : WASAPISource :=
  { sourceType := SourceType.Input, device_id := "mic-old", device_name := "Microphone" }

/-- A session in the work-queue strategy that holds its pair while a restart
request is pending. -/
def restartPendingSession : WASAPISource :=
  { sourceType := SourceType.Input, device_id := "mic-1", rtwq_supported := true,
    client := some ⟨100⟩, capture := some ⟨200⟩, sampleRate := 48000,
    restartSignal := true, sampleReadyWaiting := 0, restartWaiting := 1 }

/-- A ProcessOutput session configured with an opaque session token, as
constructed. -/
def tokenSession : WASAPISource :=
  { sourceType := SourceType.ProcessOutput, device_id := "\x7bsession-1\x7d",
    session := "\x7bsession-1\x7d", activate_audio_interface_async := true }

/-- An extensible six-channel format that carries the stereo channel mask. -/
def stereoMaskSixChannels : WAVEFORMATEXTENSIBLE :=
  { Format := { wFormatTag := WAVE_FORMAT_EXTENSIBLE, nChannels := 6,
                nSamplesPerSec := 48000, nAvgBytesPerSec := 1152000,
                nBlockAlign := 24, wBitsPerSample := 32, cbSize := 22 }
    wValidBitsPerSample := 32
    dwChannelMask := KSAUDIO_SPEAKER_STEREO
    SubFormat := KSDATAFORMAT_SUBTYPE_IEEE_FLOAT }

/-- A session in the capture-thread strategy waiting to reconnect after a
failure, on which `Stop` has just set the stop event. -/
def stoppedWhileReconnecting : WASAPISource :=
  { sourceType := SourceType.Input, device_id := "mic-1", reconnectThread := true,
    captureThread := true, previouslyFailed := true,
    reconnectDuration := RECONNECT_INTERVAL, reconnectSignal := true, stopSignal := true }

/-- A session in the work-queue strategy that holds its pair, woken by `Stop`:
the stop and receive events are set and a packet is pending. -/
def stoppedWhileCapturing : WASAPISource :=
  { sourceType := SourceType.Input, device_id := "mic-1", rtwq_supported := true,
    reconnectThread := true, client := some ⟨100⟩, capture := some ⟨200⟩,
    speakers := 2, format := 4, sampleRate := 48000, useDeviceTiming := true,
    restartWaiting := 1, stopSignal := true }

/-- The settings of a device session: `ms_build_window_strings` is not
called for an Input session, so any function serves. -/
def noWindowStrings : String → WindowStrings :=
  fun _ => ⟨none, none, none⟩

/-- `E_FAIL` (`0x80004005`) as a signed 32-bit value. -/
def E_FAIL : Int := -2147467259

/-- The nominal platform on which the shared work queue takes the sample-ready
item and refuses the restart item. -/
def halfQueuedPlatform : Platform :=
  { nominalPlatform with putWaitingRestart := E_FAIL }

/-- A 36-byte image that holds the pattern at offset 1, with bytes of its own
at the wildcard positions. -/
def mediaImage : List Nat :=
  [0xCC,
   0x83, 0xF9, 0x08, 0xB8, 0x04, 0x00, 0x00,
   0x00, 0x41, 0xB8, 0x01, 0x00, 0x00, 0x00,
   0x11, 0x22, 0x33, 0x44, 0x83, 0x7C, 0x24,
   0x30, 0x44, 0x8B, 0xC8, 0x01, 0x0F, 0x85,
   0xAA, 0xBB, 0xCC, 0xDD, 0xC7,
   0x05, 0x06]

/-- A session as left by the field initialisers of the class, with the
configuration taken from `params`. -/
def newSession (t : SourceType) (params : UpdateParams) : WASAPISource :=
  UpdateSettings params { sourceType := t }

/-! # Theorems -/

/-! ## Configuration update -/

theorem updateSettings_currentParams (s : WASAPISource) :
    UpdateSettings (currentParams s) s = s := by
  cases s; rfl

theorem currentParams_updateSettings (p : UpdateParams) (s : WASAPISource) :
    currentParams (UpdateSettings p s) = p := by
  cases p; rfl

theorem currentParams_SetEvent (sig : Signal) (s : WASAPISource) :
    currentParams (SetEvent sig s) = currentParams s := by
  cases sig <;> rfl

theorem needsRestart_currentParams (s : WASAPISource) :
    needsRestart s (currentParams s) = false := by
  unfold needsRestart currentParams
  split <;> simp

/-- C1: when the parameters derived from the settings equal the session's
current configuration, `Update` returns the session as it was: no event is
set (the restart signal and the log are unchanged) and no configuration field
changes.  This holds for every source type. -/
theorem update_same_params_is_identity (build : String → WindowStrings)
    (settings : obs_data) (s : WASAPISource)
    (h : BuildUpdateParams build s.sourceType settings = currentParams s) :
    Update build settings s = s ∧
    (Update build settings s).restartSignal = s.restartSignal ∧
    (Update build settings s).log = s.log ∧
    currentParams (Update build settings s) = currentParams s := by
  have hu : Update build settings s = s := by
    unfold Update
    simp only [h, needsRestart_currentParams, updateSettings_currentParams]
    simp
  rw [hu]
  exact ⟨rfl, rfl, rfl, rfl⟩

theorem update_same_params_is_identity_witness :
    BuildUpdateParams (fun _ => ⟨none, none, none⟩) SourceType.Input
        ⟨"mic-1", false, 2⟩ =
      currentParams (newSession SourceType.Input
        ⟨"mic-1", false, false, 2, "", "", "", ""⟩) ∧
    Update (fun _ => ⟨none, none, none⟩) ⟨"mic-1", false, 2⟩
        (newSession SourceType.Input ⟨"mic-1", false, false, 2, "", "", "", ""⟩) =
      newSession SourceType.Input ⟨"mic-1", false, false, 2, "", "", "", ""⟩ :=
  ⟨by decide,
   (update_same_params_is_identity (fun _ => ⟨none, none, none⟩) ⟨"mic-1", false, 2⟩
      (newSession SourceType.Input ⟨"mic-1", false, false, 2, "", "", "", ""⟩)
      (by decide)).1⟩

/-- C2: `Update` sets the restart signal, by exactly one `SetEvent` and no
other visible call, and stores the new parameters, whenever the device id
differs (Input and DeviceOutput sessions) or the priority, window class,
title, executable or session token differs (ProcessOutput sessions). -/
theorem update_changed_params_restarts_once (build : String → WindowStrings)
    (settings : obs_data) (s : WASAPISource)
    (h : (s.sourceType ≠ SourceType.ProcessOutput ∧
            (BuildUpdateParams build s.sourceType settings).device_id ≠ s.device_id) ∨
         (s.sourceType = SourceType.ProcessOutput ∧
            ((BuildUpdateParams build s.sourceType settings).priority ≠ s.priority ∨
             (BuildUpdateParams build s.sourceType settings).window_class ≠ s.window_class ∨
             (BuildUpdateParams build s.sourceType settings).title ≠ s.title ∨
             (BuildUpdateParams build s.sourceType settings).executable ≠ s.executable ∨
             (BuildUpdateParams build s.sourceType settings).session ≠ s.session))) :
    (Update build settings s).restartSignal = true ∧
    (Update build settings s).log = s.log ++ [Effect.setEvent Signal.restart] ∧
    currentParams (Update build settings s) =
      BuildUpdateParams build s.sourceType settings := by
  have hr : needsRestart s (BuildUpdateParams build s.sourceType settings) = true := by
    unfold needsRestart
    rcases h with ⟨ht, hd⟩ | ⟨ht, hp⟩
    · simp only [ht, if_false]
      simpa [bne_iff_ne] using fun e => hd e.symm
    · rw [if_pos ht]
      simp only [Bool.or_eq_true, bne_iff_ne]
      rcases hp with hp | hp | hp | hp | hp
      · exact Or.inl (Or.inl (Or.inl (Or.inl (fun e => hp e.symm))))
      · exact Or.inl (Or.inl (Or.inl (Or.inr (fun e => hp e.symm))))
      · exact Or.inl (Or.inl (Or.inr (fun e => hp e.symm)))
      · exact Or.inr (fun e => hp e.symm)
      · exact Or.inl (Or.inr (fun e => hp e.symm))
  unfold Update
  simp only [hr, if_true]
  refine ⟨rfl, rfl, ?_⟩
  rw [currentParams_SetEvent]
  exact currentParams_updateSettings _ _

theorem update_changed_params_restarts_once_witness :
    (Update (fun _ => ⟨none, none, none⟩) ⟨"mic-2", false, 2⟩
        (newSession SourceType.Input
          ⟨"mic-1", false, false, 2, "", "", "", ""⟩)).log =
      [Effect.setEvent Signal.restart] :=
  (update_changed_params_restarts_once (fun _ => ⟨none, none, none⟩)
      ⟨"mic-2", false, 2⟩
      (newSession SourceType.Input ⟨"mic-1", false, false, 2, "", "", "", ""⟩)
      (Or.inl ⟨by decide, by decide⟩)).2.1

/-! ## Default-device tracker -/

theorem setDefaultDevice_matching (flow : EDataFlow) (role : ERole)
    (id : Option String) (s : WASAPISource) (hd : s.isDefaultDevice = true)
    (hf : flow = expectedFlow s.sourceType) (hr : role = expectedRole s.sourceType) :
    SetDefaultDevice flow role id s =
      if s.default_id = id.getD "" then s
      else SetEvent Signal.restart { s with default_id := id.getD "" } := by
  unfold SetDefaultDevice
  subst hf hr
  cases id <;> simp [hd]

/-- C6: for a session bound to "default" and a notification whose flow and
role are the session's, `SetDefaultDevice` issues `SetEvent(restartSignal)`
(once, and nothing else) exactly when the reported id, null read as empty,
differs from the last-seen id, and returns the session untouched otherwise;
afterwards the last-seen id is the reported one.  So a non-empty id reported
while the last-seen id is empty signals one restart, and the same
notification delivered again changes nothing. -/
theorem setDefaultDevice_restart_iff_changed (flow : EDataFlow) (role : ERole)
    (id : Option String) (s : WASAPISource) (hd : s.isDefaultDevice = true)
    (hf : flow = expectedFlow s.sourceType) (hr : role = expectedRole s.sourceType) :
    ((SetDefaultDevice flow role id s).log = s.log ++ [Effect.setEvent Signal.restart] ↔
        id.getD "" ≠ s.default_id) ∧
    (id.getD "" ≠ s.default_id → (SetDefaultDevice flow role id s).restartSignal = true) ∧
    (id.getD "" = s.default_id → SetDefaultDevice flow role id s = s) ∧
    (SetDefaultDevice flow role id s).default_id = id.getD "" ∧
    (s.default_id = "" → id.getD "" ≠ "" →
        (SetDefaultDevice flow role id s).log = s.log ++ [Effect.setEvent Signal.restart]) ∧
    SetDefaultDevice flow role id (SetDefaultDevice flow role id s) =
      SetDefaultDevice flow role id s := by
  have key := setDefaultDevice_matching flow role id s hd hf hr
  by_cases hc : s.default_id = id.getD ""
  · rw [if_pos hc] at key
    have hself : s.log ≠ s.log ++ [Effect.setEvent Signal.restart] := by
      intro e
      have := congrArg List.length e
      simp at this
    refine ⟨?_, ?_, ?_, ?_, ?_, ?_⟩
    · rw [key]
      constructor
      · intro e; exact absurd e hself
      · intro e; exact absurd hc.symm e
    · intro e; exact absurd hc.symm e
    · intro _; exact key
    · rw [key]; exact hc
    · intro h0 h1; rw [h0] at hc; exact absurd hc.symm h1
    · rw [key, key]
  · rw [if_neg hc] at key
    have hne : id.getD "" ≠ s.default_id := fun e => hc e.symm
    refine ⟨?_, ?_, ?_, ?_, ?_, ?_⟩
    · rw [key]
      constructor
      · intro _; exact hne
      · intro _; rfl
    · intro _; rw [key]; rfl
    · intro e; exact absurd e hne
    · rw [key]; rfl
    · intro _ _; rw [key]; rfl
    · rw [key]
      have hd2 : (SetEvent Signal.restart { s with default_id := id.getD "" }).isDefaultDevice
          = true := hd
      have k2 := setDefaultDevice_matching flow role id
        (SetEvent Signal.restart { s with default_id := id.getD "" }) hd2 hf hr
      rw [k2]
      exact if_pos rfl

theorem setDefaultDevice_restart_iff_changed_witness :
    (SetDefaultDevice EDataFlow.eCapture ERole.eCommunications (some "mic-7")
        (newSession SourceType.Input
          ⟨"default", false, true, 0, "", "", "", ""⟩)).log =
      [Effect.setEvent Signal.restart] :=
  (setDefaultDevice_restart_iff_changed EDataFlow.eCapture ERole.eCommunications
      (some "mic-7")
      (newSession SourceType.Input ⟨"default", false, true, 0, "", "", "", ""⟩)
      rfl rfl rfl).2.2.2.2.1 rfl (by decide)

/-- C7: `SetDefaultDevice` returns the session untouched (no event set, the
last-seen default id kept) when the session is not bound to "default", and
also when it is but the notification's flow or role is not the session's:
capture and communications for an Input session, render and console for an
output session. -/
theorem setDefaultDevice_ignored (flow : EDataFlow) (role : ERole)
    (id : Option String) (s : WASAPISource)
    (h : s.isDefaultDevice = false ∨ flow ≠ expectedFlow s.sourceType ∨
         role ≠ expectedRole s.sourceType) :
    SetDefaultDevice flow role id s = s ∧
    (SetDefaultDevice flow role id s).restartSignal = s.restartSignal ∧
    (SetDefaultDevice flow role id s).log = s.log ∧
    (SetDefaultDevice flow role id s).default_id = s.default_id ∧
    expectedFlow SourceType.Input = EDataFlow.eCapture ∧
    expectedRole SourceType.Input = ERole.eCommunications ∧
    expectedFlow SourceType.DeviceOutput = EDataFlow.eRender ∧
    expectedRole SourceType.DeviceOutput = ERole.eConsole ∧
    expectedFlow SourceType.ProcessOutput = EDataFlow.eRender ∧
    expectedRole SourceType.ProcessOutput = ERole.eConsole := by
  have hu : SetDefaultDevice flow role id s = s := by
    unfold SetDefaultDevice
    rcases h with h | h | h
    · simp [h]
    · by_cases hd : s.isDefaultDevice = true <;> simp [hd, h]
    · by_cases hd : s.isDefaultDevice = true <;> simp [hd, h]
  rw [hu]
  exact ⟨rfl, rfl, rfl, rfl, rfl, rfl, rfl, rfl, rfl, rfl⟩

theorem setDefaultDevice_ignored_witness :
    SetDefaultDevice EDataFlow.eRender ERole.eConsole (some "spk-1")
        (newSession SourceType.Input ⟨"default", false, true, 0, "", "", "", ""⟩) =
      newSession SourceType.Input ⟨"default", false, true, 0, "", "", "", ""⟩ :=
  (setDefaultDevice_ignored EDataFlow.eRender ERole.eConsole (some "spk-1")
      (newSession SourceType.Input ⟨"default", false, true, 0, "", "", "", ""⟩)
      (Or.inr (Or.inl (by decide)))).1

/-! ## Capture dispatcher -/

theorem pcd_cons_fetch (s : WASAPISource) (c : IAudioCaptureClient)
    (hc : s.capture = some c) (r : CaptureReply) (rest : List CaptureReply)
    (hf : fetches s r = true) :
    ProcessCaptureData s (r :: rest) = ProcessCaptureData (deliverPacket s r) rest := by
  simp only [fetches, windowOk, Bool.and_eq_true, Bool.not_eq_true', bne_iff_ne,
    Bool.and_eq_false_imp, decide_eq_true_eq, Bool.not_eq_true, Bool.not_eq_false,
    ne_eq] at hf
  obtain ⟨⟨⟨hw, hs⟩, hz⟩, hb⟩ := hf
  have hw2 : ¬ (s.sourceType = SourceType.ProcessOutput ∧ IsWindow s.hwnd r.windowAlive = false) := by
    rintro ⟨h1, h2⟩
    have := hw h1
    simp [h2] at this
  rw [ProcessCaptureData, if_neg hw2, hc]
  simp [hs, hz, hb]

theorem pcd_cons_stop (s : WASAPISource) (c : IAudioCaptureClient)
    (hc : s.capture = some c) (r : CaptureReply) (rest : List CaptureReply)
    (hf : fetches s r = false) :
    ProcessCaptureData s (r :: rest) = Except.ok (s, caughtUp s r) := by
  rw [ProcessCaptureData]
  by_cases hw : s.sourceType = SourceType.ProcessOutput ∧ IsWindow s.hwnd r.windowAlive = false
  · rw [if_pos hw]
    simp [caughtUp, windowOk, hw.1, hw.2]
  · rw [if_neg hw, hc]
    have hwo : windowOk s r = true := by
      simp only [windowOk, Bool.not_eq_true', Bool.and_eq_false_imp, decide_eq_true_eq,
        Bool.not_eq_false']
      intro h1
      by_contra h2
      exact hw ⟨h1, by simpa using h2⟩
    simp only [fetches, hwo, Bool.true_and] at hf
    simp only [caughtUp, hwo, Bool.true_and]
    by_cases hs : FAILED r.sizeResult = true
    · simp [hs]
    · by_cases hz : r.captureSize = 0
      · simp [hs, hz]
      · by_cases hb : FAILED r.bufferResult = true
        · simp [hs, hz, hb]
        · simp [hs, hz, hb] at hf

theorem deliverPacket_capture (s : WASAPISource) (r : CaptureReply) :
    (deliverPacket s r).capture = s.capture := by
  unfold deliverPacket; split <;> rfl

theorem deliverPacket_fetches (s : WASAPISource) (r : CaptureReply) :
    fetches (deliverPacket s r) = fetches s := by
  funext x
  unfold fetches windowOk deliverPacket; split <;> rfl

theorem deliverPacket_caughtUp (s : WASAPISource) (r : CaptureReply) :
    caughtUp (deliverPacket s r) = caughtUp s := by
  funext x
  unfold caughtUp windowOk deliverPacket; split <;> rfl

theorem deliverPacket_packetCalls (s : WASAPISource) (r : CaptureReply) :
    packetCalls (deliverPacket s r) = packetCalls s := by
  funext x
  unfold packetCalls deliverPacket; split <;> rfl

theorem deliverPacket_rest (s : WASAPISource) (r : CaptureReply) :
    deliverPacket s r =
      { s with framesProcessed := (deliverPacket s r).framesProcessed,
               log := (deliverPacket s r).log } := by
  unfold deliverPacket; split <;> rfl

/-- One drain pass, for every list of answers: with no answer that stops the
loop the model runs out of answers; otherwise the pass returns at the first
answer `r` that does not fetch a packet, with result `caughtUp s r`, after
`deliverPacket` for each answer before `r`, in order. -/
theorem pcd_pass (replies : List CaptureReply) :
    ∀ (s : WASAPISource) (c : IAudioCaptureClient), s.capture = some c →
      (replies.dropWhile (fetches s) = [] →
        ProcessCaptureData s replies = Except.error Fault.starved) ∧
      (∀ r post, replies.dropWhile (fetches s) = r :: post →
        ProcessCaptureData s replies =
          Except.ok ((replies.takeWhile (fetches s)).foldl deliverPacket s, caughtUp s r)) := by
  induction replies with
  | nil =>
    intro s c _
    refine ⟨fun _ => rfl, ?_⟩
    intro r post h
    simp at h
  | cons a rest ih =>
    intro s c hc
    by_cases hf : fetches s a = true
    · have hstep := pcd_cons_fetch s c hc a rest hf
      have hc1 : (deliverPacket s a).capture = some c := by
        rw [deliverPacket_capture]; exact hc
      have ih1 := ih (deliverPacket s a) c hc1
      rw [deliverPacket_fetches, deliverPacket_caughtUp] at ih1
      have hd : (a :: rest).dropWhile (fetches s) = rest.dropWhile (fetches s) := by
        simp [List.dropWhile, hf]
      have ht : (a :: rest).takeWhile (fetches s) = a :: rest.takeWhile (fetches s) := by
        simp [List.takeWhile, hf]
      rw [hd, ht, hstep, List.foldl_cons]
      exact ih1
    · have hf2 : fetches s a = false := by simpa using hf
      have hd : (a :: rest).dropWhile (fetches s) = a :: rest := by
        simp [List.dropWhile, hf2]
      have ht : (a :: rest).takeWhile (fetches s) = [] := by
        simp [List.takeWhile, hf2]
      rw [hd, ht]
      refine ⟨fun h => by simp at h, ?_⟩
      intro r post h
      injection h with h1 h2
      subst h1
      exact pcd_cons_stop s c hc a rest hf2

/-- The calls of a run of deliveries, timestamps blanked, and what the
deliveries leave alone. -/
theorem deliverAll_calls (pkts : List CaptureReply) :
    ∀ s : WASAPISource,
      (∃ L, (pkts.foldl deliverPacket s).log = s.log ++ L ∧
        L.map unstamped = pkts.flatMap (packetCalls s)) ∧
      pkts.foldl deliverPacket s =
        { s with framesProcessed := (pkts.foldl deliverPacket s).framesProcessed,
                 log := (pkts.foldl deliverPacket s).log } := by
  induction pkts with
  | nil =>
    intro s
    exact ⟨⟨[], by simp, by simp⟩, rfl⟩
  | cons a rest ih =>
    intro s
    obtain ⟨⟨L, h1, h2⟩, h3⟩ := ih (deliverPacket s a)
    rw [deliverPacket_packetCalls] at h2
    rw [List.foldl_cons]
    constructor
    · have hl : ∃ L0, (deliverPacket s a).log = s.log ++ L0 ∧
          L0.map unstamped = packetCalls s a := by
        unfold deliverPacket packetCalls
        split
        · exact ⟨_, rfl, by simp [unstamped]⟩
        · exact ⟨_, rfl, by simp [unstamped]⟩
      obtain ⟨L0, h4, h5⟩ := hl
      refine ⟨L0 ++ L, ?_, ?_⟩
      · rw [h1, h4, List.append_assoc]
      · rw [List.map_append, h5, h2, List.flatMap_cons]
    · have e := congrArg
        (fun x : WASAPISource =>
          { x with framesProcessed :=
                     (rest.foldl deliverPacket (deliverPacket s a)).framesProcessed,
                   log := (rest.foldl deliverPacket (deliverPacket s a)).log })
        (deliverPacket_rest s a)
      exact h3.trans e

theorem pcd_split (pre : List CaptureReply) (r : CaptureReply) (post : List CaptureReply) :
    ∀ (s : WASAPISource) (c : IAudioCaptureClient), s.capture = some c →
      (∀ x ∈ pre, fetches s x = true) → fetches s r = false →
      ProcessCaptureData s (pre ++ r :: post) =
        Except.ok (pre.foldl deliverPacket s, caughtUp s r) := by
  induction pre with
  | nil =>
    intro s c hc _ hr
    exact pcd_cons_stop s c hc r post hr
  | cons a rest ih =>
    intro s c hc hall hr
    have ha : fetches s a = true := hall a (List.mem_cons_self a rest)
    have hc1 : (deliverPacket s a).capture = some c := by
      rw [deliverPacket_capture]; exact hc
    rw [List.cons_append, pcd_cons_fetch s c hc a _ ha, List.foldl_cons]
    have ih1 := ih (deliverPacket s a) c hc1
    rw [deliverPacket_fetches, deliverPacket_caughtUp] at ih1
    exact ih1 (fun x hx => hall x (List.mem_cons_of_mem a hx)) hr

theorem pcd_all_fetch (pre : List CaptureReply) :
    ∀ (s : WASAPISource) (c : IAudioCaptureClient), s.capture = some c →
      (∀ x ∈ pre, fetches s x = true) →
      ProcessCaptureData s pre = Except.error Fault.starved := by
  induction pre with
  | nil => intro s c _ _; rfl
  | cons a rest ih =>
    intro s c hc hall
    have ha : fetches s a = true := hall a (List.mem_cons_self a rest)
    have hc1 : (deliverPacket s a).capture = some c := by
      rw [deliverPacket_capture]; exact hc
    rw [pcd_cons_fetch s c hc a _ ha]
    have ih1 := ih (deliverPacket s a) c hc1
    rw [deliverPacket_fetches] at ih1
    exact ih1 (fun x hx => hall x (List.mem_cons_of_mem a hx))

theorem caughtUp_iff (s : WASAPISource) (r : CaptureReply) :
    caughtUp s r = true ↔ windowOk s r = true ∧ 0 ≤ r.sizeResult ∧ r.captureSize = 0 := by
  simp [caughtUp, FAILED, and_assoc]

/-- C8: one drain pass on a session that holds a capture interface, for every
list of answers of the platform.  Write the answers as the packets `pre` that
are fetched, the first answer `r` that does not fetch a packet, and the
answers `post` that would follow.  The pass returns (it is the model that runs
out of answers when every answer fetches a packet); `post` is never
consulted; the calls added to the log are, for each packet of `pre` in order,
one frame for the sink carrying the packet's frame count and the session's
speaker layout, sample rate and sample format, followed by one release of
that buffer; nothing but `framesProcessed` and the log changes.  The result is
`true` exactly when `r` passed the window check and was a successful size
query answering 0, and `false` when `r` is a failed size query or a failed
buffer fetch, whatever the error code. -/
theorem drain_pass_one_frame_per_packet (s : WASAPISource) (c : IAudioCaptureClient)
    (hc : s.capture = some c) (pre : List CaptureReply)
    (hpre : ∀ x ∈ pre, fetches s x = true) :
    ProcessCaptureData s pre = Except.error Fault.starved ∧
    ∀ (r : CaptureReply) (post : List CaptureReply), fetches s r = false →
      ∃ (s' : WASAPISource) (b : Bool) (L : List Effect),
        ProcessCaptureData s (pre ++ r :: post) = Except.ok (s', b) ∧
        s'.log = s.log ++ L ∧
        L.map unstamped = pre.flatMap (packetCalls s) ∧
        (audioFrames L).length = pre.length ∧
        s' = { s with framesProcessed := s'.framesProcessed, log := s'.log } ∧
        (b = true ↔ windowOk s r = true ∧ 0 ≤ r.sizeResult ∧ r.captureSize = 0) ∧
        (r.sizeResult < 0 → b = false) ∧
        (r.captureSize ≠ 0 → r.bufferResult < 0 → b = false) := by
  refine ⟨pcd_all_fetch pre s c hc hpre, ?_⟩
  intro r post hr
  obtain ⟨⟨L, h1, h2⟩, h3⟩ := deliverAll_calls pre s
  refine ⟨pre.foldl deliverPacket s, caughtUp s r, L, pcd_split pre r post s c hc hpre hr,
    h1, h2, ?_, h3, caughtUp_iff s r, ?_, ?_⟩
  · have hlen : ∀ (l : List Effect), (audioFrames l).length = (audioFrames (l.map unstamped)).length := by
      intro l
      induction l with
      | nil => rfl
      | cons e t ih => cases e <;> simp [audioFrames, unstamped, ih]
    rw [hlen, h2]
    clear h1 h2 h3 hpre
    induction pre with
    | nil => rfl
    | cons a t ih =>
      rw [List.flatMap_cons]
      simp only [packetCalls, List.cons_append, List.nil_append, audioFrames,
        List.length_cons]
      rw [← ih]
      rfl
  · intro h
    simp [caughtUp, FAILED, h]
  · intro hz _
    simp [caughtUp, hz]

theorem drain_pass_one_frame_per_packet_witness :
    ∃ (s' : WASAPISource) (b : Bool),
      ProcessCaptureData
          { sourceType := SourceType.Input, capture := some ⟨1⟩, client := some ⟨1⟩,
            speakers := 2, format := 4, sampleRate := 48000, useDeviceTiming := true }
          ([{ captureSize := 480, frames := 480, ts := 7 }] ++
            ({ captureSize := 0 } : CaptureReply) :: []) = Except.ok (s', b) ∧
      (audioFrames s'.log).length = 1 ∧ b = true :=
  match (drain_pass_one_frame_per_packet
      { sourceType := SourceType.Input, capture := some ⟨1⟩, client := some ⟨1⟩,
        speakers := 2, format := 4, sampleRate := 48000, useDeviceTiming := true }
      ⟨1⟩ rfl [{ captureSize := 480, frames := 480, ts := 7 }] (by decide)).2
      { captureSize := 0 } [] (by decide) with
  | ⟨s', b, L, h1, h2, _, h4, _, h6, _, _⟩ =>
    ⟨s', b, h1, by rw [h2]; exact h4, h6.2 (by decide)⟩

theorem audioFrames_append (l1 l2 : List Effect) :
    audioFrames (l1 ++ l2) = audioFrames l1 ++ audioFrames l2 := by
  induction l1 with
  | nil => rfl
  | cons e t ih => cases e <;> simp [audioFrames, ih]

theorem sub64_int (a b : Nat) :
    ((sub64 a b : Nat) : Int) = ((a : Int) - (b : Int)) % 2 ^ 64 := by
  unfold sub64
  omega

theorem sub64_exact (a b : Nat) (ha : a < 2 ^ 64) (hb : b ≤ a) : sub64 a b = a - b := by
  unfold sub64
  omega

/-- The frames of a run of deliveries on a device session (Input or
DeviceOutput): the counter is not touched and each frame is stamped from the
packet alone. -/
theorem deliverAll_device (pkts : List CaptureReply) :
    ∀ s : WASAPISource, s.sourceType ≠ SourceType.ProcessOutput →
      (pkts.foldl deliverPacket s).framesProcessed = s.framesProcessed ∧
      ∃ D, audioFrames (pkts.foldl deliverPacket s).log = audioFrames s.log ++ D ∧
        List.Forall₂
          (fun (d : obs_source_audio) (p : CaptureReply) =>
            d.frames = p.frames ∧
            d.timestamp =
              if s.useDeviceTiming then mul64 p.ts 100
              else sub64 (p.now % 2 ^ 64) (util_mul_div64 p.frames 1000000000 s.sampleRate))
          D pkts := by
  induction pkts with
  | nil =>
    intro s _
    exact ⟨rfl, [], by simp, List.Forall₂.nil⟩
  | cons a rest ih =>
    intro s ht
    have e : deliverPacket s a =
        { s with log := s.log ++
            [Effect.outputAudio
               { frames := a.frames, speakers := s.speakers,
                 samples_per_sec := s.sampleRate, format := s.format,
                 timestamp :=
                   if s.useDeviceTiming then mul64 a.ts 100
                   else sub64 (a.now % 2 ^ 64)
                     (util_mul_div64 a.frames 1000000000 s.sampleRate) },
             Effect.releaseBuffer a.frames] } := by
      unfold deliverPacket
      rw [if_neg ht]
      cases hu : s.useDeviceTiming <;> simp
    have ht1 : (deliverPacket s a).sourceType ≠ SourceType.ProcessOutput := by
      rw [e]; exact ht
    obtain ⟨h1, D, h2, h3⟩ := ih (deliverPacket s a) ht1
    rw [List.foldl_cons]
    refine ⟨?_, ?_⟩
    · rw [h1, e]
    · refine ⟨{ frames := a.frames, speakers := s.speakers,
                 samples_per_sec := s.sampleRate, format := s.format,
                 timestamp :=
                   if s.useDeviceTiming then mul64 a.ts 100
                   else sub64 (a.now % 2 ^ 64)
                     (util_mul_div64 a.frames 1000000000 s.sampleRate) } :: D, ?_,
          List.Forall₂.cons ⟨rfl, rfl⟩ ?_⟩
      · rw [h2, e]
        simp [audioFrames_append, audioFrames]
      · rw [e] at h3
        exact h3

/-- C5: on an Input or DeviceOutput session with a positive sample rate, every
frame a drain pass delivers carries the frame count `f` of its packet and is
stamped as follows.  Device timing enabled: the device timestamp times 100,
in unsigned 64-bit arithmetic (so exactly `ts * 100` when that fits 64 bits).
Device timing disabled: the host clock reading of that delivery minus
`floor(f * 10^9 / rate)`, in unsigned 64-bit arithmetic (so exactly the
difference when the clock reading is a 64-bit value no smaller than the
duration).  `framesProcessed` is not modified. -/
theorem device_frame_timestamps (s : WASAPISource) (c : IAudioCaptureClient)
    (ht : s.sourceType ≠ SourceType.ProcessOutput) (hc : s.capture = some c)
    (_hrate : 0 < s.sampleRate)
    (pre : List CaptureReply) (hpre : ∀ x ∈ pre, fetches s x = true)
    (r : CaptureReply) (post : List CaptureReply) (hr : fetches s r = false) :
    ∃ (s' : WASAPISource) (b : Bool) (D : List obs_source_audio),
      ProcessCaptureData s (pre ++ r :: post) = Except.ok (s', b) ∧
      s'.framesProcessed = s.framesProcessed ∧
      audioFrames s'.log = audioFrames s.log ++ D ∧
      List.Forall₂
        (fun (d : obs_source_audio) (p : CaptureReply) =>
          d.frames = p.frames ∧
          (s.useDeviceTiming = true →
            d.timestamp = (p.ts * 100) % 2 ^ 64 ∧
            (p.ts * 100 < 2 ^ 64 → d.timestamp = p.ts * 100)) ∧
          (s.useDeviceTiming = false →
            (d.timestamp : Int) =
              ((p.now : Int) - ((p.frames * 10 ^ 9 / s.sampleRate : Nat) : Int)) % 2 ^ 64 ∧
            (p.now < 2 ^ 64 → p.frames * 10 ^ 9 / s.sampleRate ≤ p.now →
              d.timestamp = p.now - p.frames * 10 ^ 9 / s.sampleRate)))
        D pre := by
  obtain ⟨h1, D, h2, h3⟩ := deliverAll_device pre s ht
  refine ⟨pre.foldl deliverPacket s, caughtUp s r, D,
    pcd_split pre r post s c hc hpre hr, h1, h2, ?_⟩
  refine List.Forall₂.imp ?_ h3
  intro d p ⟨hf, hts⟩
  refine ⟨hf, ?_, ?_⟩
  · intro hu
    rw [hu] at hts
    simp only [if_true, mul64] at hts
    exact ⟨hts, fun hlt => by rw [hts]; exact Nat.mod_eq_of_lt hlt⟩
  · intro hu
    rw [hu] at hts
    simp only [Bool.false_eq_true, if_false, util_mul_div64] at hts
    have h9 : (10 : Nat) ^ 9 = 1000000000 := by norm_num
    rw [h9]
    generalize p.frames * 1000000000 / s.sampleRate = q at hts ⊢
    constructor
    · rw [hts, sub64_int]
      omega
    · intro hn hq
      rw [hts]
      have hq2 : q % 2 ^ 64 = q := Nat.mod_eq_of_lt (by omega)
      rw [Nat.mod_eq_of_lt hn, hq2]
      exact sub64_exact _ _ hn hq

theorem device_frame_timestamps_witness :
    ∃ (s' : WASAPISource) (b : Bool) (d : obs_source_audio),
      ProcessCaptureData
          { sourceType := SourceType.Input, capture := some ⟨1⟩, client := some ⟨1⟩,
            speakers := 2, format := 4, sampleRate := 48000, useDeviceTiming := false }
          ([{ captureSize := 480, frames := 480, ts := 7, now := 10000000000 }] ++
            ({ captureSize := 0 } : CaptureReply) :: []) = Except.ok (s', b) ∧
      audioFrames s'.log = [] ++ [d] ∧
      d.timestamp = 10000000000 - 480 * 10 ^ 9 / 48000 := by
  obtain ⟨s', b, D, h1, _, h3, h4⟩ := device_frame_timestamps
    { sourceType := SourceType.Input, capture := some ⟨1⟩, client := some ⟨1⟩,
      speakers := 2, format := 4, sampleRate := 48000, useDeviceTiming := false }
    ⟨1⟩ (by decide) rfl (by decide)
    [{ captureSize := 480, frames := 480, ts := 7, now := 10000000000 }] (by decide)
    { captureSize := 0 } [] (by decide)
  cases h4 with
  | cons hd tl =>
    cases tl
    exact ⟨s', b, _, h1, h3, (hd.2.2 rfl).2 (by decide) (by decide)⟩

theorem deliverAll_fetches (pkts : List CaptureReply) (s : WASAPISource) :
    fetches (pkts.foldl deliverPacket s) = fetches s := by
  have h := (deliverAll_calls pkts s).2
  funext x
  rw [h]
  rfl

theorem deliverAll_capture (pkts : List CaptureReply) (s : WASAPISource) :
    (pkts.foldl deliverPacket s).capture = s.capture := by
  have h := (deliverAll_calls pkts s).2
  rw [h]

theorem deliverAll_sourceType (pkts : List CaptureReply) (s : WASAPISource) :
    (pkts.foldl deliverPacket s).sourceType = s.sourceType := by
  have h := (deliverAll_calls pkts s).2
  rw [h]

theorem mul_div_mono (a b r : Nat) (h : a ≤ b) :
    a * 1000000000 / r ≤ b * 1000000000 / r :=
  Nat.div_le_div_right (Nat.mul_le_mul_right _ h)

/-- The frames of a run of deliveries on a ProcessOutput session while
neither the frame counter nor the timestamp outgrows 64 bits. -/
theorem deliverAll_process (pkts : List CaptureReply) :
    ∀ s : WASAPISource, s.sourceType = SourceType.ProcessOutput →
      s.framesProcessed + (pkts.map CaptureReply.frames).sum < 2 ^ 64 →
      (s.framesProcessed + (pkts.map CaptureReply.frames).sum) * 1000000000 / s.sampleRate
        < 2 ^ 64 →
      (pkts.foldl deliverPacket s).framesProcessed =
        s.framesProcessed + (pkts.map CaptureReply.frames).sum ∧
      ∃ D, audioFrames (pkts.foldl deliverPacket s).log = audioFrames s.log ++ D ∧
        D.map obs_source_audio.frames = pkts.map CaptureReply.frames ∧
        (∀ (i : Nat) (d : obs_source_audio), D[i]? = some d →
          d.timestamp =
            (s.framesProcessed + ((pkts.map CaptureReply.frames).take i).sum) * 1000000000 /
              s.sampleRate) ∧
        (∀ d ∈ D, s.framesProcessed * 1000000000 / s.sampleRate ≤ d.timestamp) ∧
        List.Pairwise (fun a b => a ≤ b) (D.map obs_source_audio.timestamp) := by
  induction pkts with
  | nil =>
    intro s _ _ _
    refine ⟨by simp, [], by simp, rfl, ?_, ?_, ?_⟩
    · intro i d h; simp at h
    · intro d h; simp at h
    · simp
  | cons a rest ih =>
    intro s ht hsum hts
    simp only [List.map_cons, List.sum_cons] at hsum hts
    have hfp : add64 s.framesProcessed a.frames = s.framesProcessed + a.frames := by
      unfold add64
      exact Nat.mod_eq_of_lt (by omega)
    have hstamp : util_mul_div64 s.framesProcessed 1000000000 s.sampleRate =
        s.framesProcessed * 1000000000 / s.sampleRate := by
      unfold util_mul_div64
      apply Nat.mod_eq_of_lt
      exact lt_of_le_of_lt (mul_div_mono _ _ _ (by omega)) hts
    have e : deliverPacket s a =
        { s with
          framesProcessed := s.framesProcessed + a.frames
          log := s.log ++
            [Effect.outputAudio
               { frames := a.frames, speakers := s.speakers,
                 samples_per_sec := s.sampleRate, format := s.format,
                 timestamp := s.framesProcessed * 1000000000 / s.sampleRate },
             Effect.releaseBuffer a.frames] } := by
      unfold deliverPacket
      rw [if_pos ht, hfp, hstamp]
    have ht1 : (deliverPacket s a).sourceType = SourceType.ProcessOutput := by
      rw [e]; exact ht
    have hfp1 : (deliverPacket s a).framesProcessed = s.framesProcessed + a.frames := by
      rw [e]
    have hrate1 : (deliverPacket s a).sampleRate = s.sampleRate := by
      rw [e]
    have ih1 := ih (deliverPacket s a) ht1
    rw [hfp1, hrate1] at ih1
    obtain ⟨h1, D, h2, h3, h4, h5, h6⟩ :=
      ih1 (by omega) (by rw [Nat.add_assoc]; exact hts)
    rw [List.foldl_cons]
    refine ⟨?_, ?_⟩
    · rw [h1]; simp only [List.map_cons, List.sum_cons]; omega
    · refine ⟨{ frames := a.frames, speakers := s.speakers,
                 samples_per_sec := s.sampleRate, format := s.format,
                 timestamp := s.framesProcessed * 1000000000 / s.sampleRate } :: D,
          ?_, ?_, ?_, ?_, ?_⟩
      · rw [h2, e]
        simp [audioFrames_append, audioFrames]
      · simp [h3]
      · intro i d hd
        cases i with
        | zero =>
          simp only [List.getElem?_cons_zero, Option.some.injEq] at hd
          subst hd
          simp
        | succ j =>
          simp only [List.getElem?_cons_succ] at hd
          rw [h4 j d hd]
          simp only [List.map_cons, List.take_succ_cons, List.sum_cons]
          rw [Nat.add_assoc]
      · intro d hd
        rcases List.mem_cons.mp hd with hd | hd
        · subst hd; exact le_refl _
        · exact le_trans (mul_div_mono _ _ _ (by omega)) (h5 d hd)
      · simp only [List.map_cons, List.pairwise_cons]
        refine ⟨?_, h6⟩
        intro t htm
        obtain ⟨d, hd, rfl⟩ := List.mem_map.mp htm
        exact le_trans (mul_div_mono _ _ _ (by omega)) (h5 d hd)

/-- Several passes in a row, each with an answer that stops the loop, deliver
the fetched packets of all passes in order. -/
theorem drainPasses_eq (passes : List (List CaptureReply)) :
    ∀ (s : WASAPISource) (c : IAudioCaptureClient), s.capture = some c →
      (∀ p ∈ passes, ∃ x ∈ p, fetches s x = false) →
      drainPasses s passes =
        Except.ok
          ((passes.flatMap (fun p => p.takeWhile (fetches s))).foldl deliverPacket s) := by
  induction passes with
  | nil => intro s c _ _; rfl
  | cons p ps ih =>
    intro s c hc hterm
    have hne : p.dropWhile (fetches s) ≠ [] := by
      intro h
      obtain ⟨x, hx, hfx⟩ := hterm p (List.mem_cons_self p ps)
      have := (List.dropWhile_eq_nil_iff.mp h) x hx
      rw [hfx] at this
      exact absurd this (by decide)
    obtain ⟨r, post, hd⟩ := List.exists_cons_of_ne_nil hne
    have hp := (pcd_pass p s c hc).2 r post hd
    have hc1 : ((p.takeWhile (fetches s)).foldl deliverPacket s).capture = some c := by
      rw [deliverAll_capture]; exact hc
    have ih1 := ih ((p.takeWhile (fetches s)).foldl deliverPacket s) c hc1
    rw [deliverAll_fetches] at ih1
    rw [drainPasses, hp]
    simp only []
    rw [ih1 (fun q hq => hterm q (List.mem_cons_of_mem p hq)), List.flatMap_cons,
      List.foldl_append]

/-- C3 (amended): a ProcessOutput session holding a capture interface, with
`framesProcessed = 0` and a positive sample rate `r`, runs any number of drain
passes, each of which ends.  Let `f1..fN` be the frame counts of the packets
fetched, in order, and assume that the total `f1 + ... + fN` and
`floor((f1 + ... + fN) * 10^9 / r)` are below `2^64`.  Then the passes hand
the sink exactly N frames, the i-th with frame count `fi` and timestamp
`floor((f1 + ... + f(i-1)) * 10^9 / r)`; the timestamps are non-decreasing;
and `framesProcessed` is `f1 + ... + fN` afterwards. -/
theorem processOutput_timestamps_are_prefix_sums (s : WASAPISource)
    (c : IAudioCaptureClient) (ht : s.sourceType = SourceType.ProcessOutput)
    (hc : s.capture = some c) (h0 : s.framesProcessed = 0) (_hrate : 0 < s.sampleRate)
    (passes : List (List CaptureReply))
    (hterm : ∀ p ∈ passes, ∃ x ∈ p, fetches s x = false)
    (hsum : (passes.flatMap (fetchedFrames s)).sum < 2 ^ 64)
    (hts : (passes.flatMap (fetchedFrames s)).sum * 10 ^ 9 / s.sampleRate < 2 ^ 64) :
    ∃ (s' : WASAPISource) (D : List obs_source_audio),
      drainPasses s passes = Except.ok s' ∧
      audioFrames s'.log = audioFrames s.log ++ D ∧
      D.map obs_source_audio.frames = passes.flatMap (fetchedFrames s) ∧
      (∀ (i : Nat) (d : obs_source_audio), D[i]? = some d →
        d.timestamp =
          ((passes.flatMap (fetchedFrames s)).take i).sum * 10 ^ 9 / s.sampleRate) ∧
      List.Pairwise (fun a b => a ≤ b) (D.map obs_source_audio.timestamp) ∧
      s'.framesProcessed = (passes.flatMap (fetchedFrames s)).sum := by
  have h9 : (10 : Nat) ^ 9 = 1000000000 := by norm_num
  have hfs : passes.flatMap (fetchedFrames s) =
      (passes.flatMap (fun p => p.takeWhile (fetches s))).map CaptureReply.frames := by
    rw [List.map_flatMap]
    rfl
  rw [h9] at hts
  rw [hfs] at hsum hts
  simp only [h9, hfs]
  obtain ⟨h1, D, h2, h3, h4, _, h6⟩ :=
    deliverAll_process (passes.flatMap (fun p => p.takeWhile (fetches s))) s ht
      (by rw [h0, Nat.zero_add]; exact hsum) (by rw [h0, Nat.zero_add]; exact hts)
  rw [h0, Nat.zero_add] at h1
  refine ⟨_, D, drainPasses_eq passes s c hc hterm, h2, h3, ?_, h6, h1⟩
  intro i d hd
  have := h4 i d hd
  rw [h0, Nat.zero_add] at this
  exact this

/-- C3 as stated fails once 64 bits are outgrown: on a ProcessOutput session
at sample rate 1, six packets of `2^32 - 1` frames are fetched in one pass;
the sixth frame's timestamp is not `floor((f1 + ... + f5) * 10^9 / 1)`, and it
is smaller than the fifth frame's timestamp. -/
theorem processOutput_timestamp_wraps :
    ∃ s' : WASAPISource,
      ProcessCaptureData
          { sourceType := SourceType.ProcessOutput, capture := some ⟨1⟩,
            client := some ⟨1⟩, hwnd := 1, sampleRate := 1, framesProcessed := 0 }
          (List.replicate 6 { captureSize := 4294967295, frames := 4294967295 } ++
            [{ captureSize := 0 }]) = Except.ok (s', true) ∧
      (audioFrames s'.log).map obs_source_audio.frames =
        List.replicate 6 4294967295 ∧
      (audioFrames s'.log).map obs_source_audio.timestamp =
        [0, 4294967295000000000, 8589934590000000000, 12884901885000000000,
         17179869180000000000, 3028092401290448384] ∧
      (3028092401290448384 : Nat) ≠ (5 * 4294967295) * 10 ^ 9 / 1 ∧
      ¬ List.Pairwise (fun a b => a ≤ b)
          ((audioFrames s'.log).map obs_source_audio.timestamp) := by
  refine ⟨_, rfl, by decide, by decide, by decide, by decide⟩

theorem processOutput_timestamps_are_prefix_sums_witness :
    ∃ (s' : WASAPISource),
      drainPasses
          { sourceType := SourceType.ProcessOutput, capture := some ⟨1⟩,
            client := some ⟨1⟩, hwnd := 1, sampleRate := 48000, framesProcessed := 0 }
          [[{ captureSize := 480, frames := 480 }, { captureSize := 0 }],
           [{ captureSize := 960, frames := 960 }, { captureSize := 480, frames := 480 },
            { sizeResult := -1 }]] = Except.ok s' ∧
      s'.framesProcessed = 1920 := by
  obtain ⟨s', D, h1, _, _, _, _, h6⟩ := processOutput_timestamps_are_prefix_sums
    { sourceType := SourceType.ProcessOutput, capture := some ⟨1⟩,
      client := some ⟨1⟩, hwnd := 1, sampleRate := 48000, framesProcessed := 0 }
    ⟨1⟩ rfl rfl rfl (by decide)
    [[{ captureSize := 480, frames := 480 }, { captureSize := 0 }],
     [{ captureSize := 960, frames := 960 }, { captureSize := 480, frames := 480 },
      { sizeResult := -1 }]]
    (by decide) (by decide) (by decide)
  exact ⟨s', h1, h6⟩

theorem resolveTarget_kept (p : Platform) (s : WASAPISource) :
    (resolveTarget p s).refs.framesProcessed = s.framesProcessed ∧
    (resolveTarget p s).refs.client = s.client ∧
    (resolveTarget p s).refs.capture = s.capture := by
  unfold resolveTarget
  dsimp only
  split_ifs
  · exact ⟨rfl, rfl, rfl⟩
  · exact ⟨rfl, rfl, rfl⟩
  · exact ⟨rfl, rfl, rfl⟩
  · exact ⟨rfl, rfl, rfl⟩
  · exact ⟨rfl, rfl, rfl⟩
  · split <;> exact ⟨rfl, rfl, rfl⟩

theorem rtwq_put_kept (hr : Int) (sig : Signal) (item : WorkItem) (s : WASAPISource) :
    (rtwq_put_waiting_work_item hr sig item s).framesProcessed = s.framesProcessed ∧
    (rtwq_put_waiting_work_item hr sig item s).client = s.client ∧
    (rtwq_put_waiting_work_item hr sig item s).capture = s.capture := by
  unfold rtwq_put_waiting_work_item
  split
  · exact ⟨rfl, rfl, rfl⟩
  · cases item <;> exact ⟨rfl, rfl, rfl⟩

theorem queueWaitingItems_kept (p : Platform) (s : WASAPISource) :
    (queueWaitingItems p s).1.framesProcessed = s.framesProcessed ∧
    ((queueWaitingItems p s).2 = none →
      (queueWaitingItems p s).1.client = s.client ∧
      (queueWaitingItems p s).1.capture = s.capture) ∧
    ((queueWaitingItems p s).2 ≠ none →
      (queueWaitingItems p s).1.client = none ∧
      (queueWaitingItems p s).1.capture = none) := by
  unfold queueWaitingItems
  split
  · split
    · refine ⟨(rtwq_put_kept _ _ _ _).1, fun h => by simp at h, fun _ => ⟨rfl, rfl⟩⟩
    · split
      · refine ⟨?_, fun h => by simp at h, fun _ => ⟨rfl, rfl⟩⟩
        exact (rtwq_put_kept _ _ _ _).1.trans (rtwq_put_kept _ _ _ _).1
      · refine ⟨?_, fun _ => ⟨?_, ?_⟩, fun h => by simp at h⟩
        · exact (rtwq_put_kept _ _ _ _).1.trans (rtwq_put_kept _ _ _ _).1
        · exact (rtwq_put_kept _ _ _ _).2.1.trans (rtwq_put_kept _ _ _ _).2.1
        · exact (rtwq_put_kept _ _ _ _).2.2.trans (rtwq_put_kept _ _ _ _).2.2
  · exact ⟨rfl, fun _ => ⟨rfl, rfl⟩, fun h => by simp at h⟩

theorem queueWaitingItems_result (p : Platform) (x s' : WASAPISource) (e : Option Thrown)
    (hx : queueWaitingItems p x = (s', e)) :
    s'.framesProcessed = x.framesProcessed ∧
    (e = none → s'.client = x.client ∧ s'.capture = x.capture) ∧
    (e ≠ none → s'.client = none ∧ s'.capture = none) := by
  have h := queueWaitingItems_kept p x
  rw [hx] at h
  exact h

/-- What an initialization attempt does to the frame counter and the
client/capture pair: the counter is kept; when the attempt completes both
interfaces are held; when it throws the pair is as before or dropped. -/
theorem Initialize_kept (p : Platform) (s s' : WASAPISource) (e : Option Thrown)
    (h : Initialize p s = Except.ok (s', e)) :
    s'.framesProcessed = s.framesProcessed ∧
    (e = none → s'.client.isSome = true ∧ s'.capture.isSome = true) ∧
    (e ≠ none →
      (s'.client = s.client ∧ s'.capture = s.capture) ∨
      (s'.client = none ∧ s'.capture = none)) := by
  obtain ⟨r1, r2, r3⟩ := resolveTarget_kept p s
  unfold Initialize at h
  simp only [] at h
  split at h
  · injection h with h
    injection h with h1 h2
    subst h1 h2
    exact ⟨r1, fun h => by simp at h, fun _ => Or.inl ⟨r2, r3⟩⟩
  · split at h
    · simp at h
    · split at h
      · injection h with h
        injection h with h1 h2
        subst h1 h2
        exact ⟨r1, fun h => by simp at h, fun _ => Or.inl ⟨r2, r3⟩⟩
      · split at h
        · simp at h
        · injection h with h
          injection h with h1 h2
          subst h1 h2
          exact ⟨r1, fun h => by simp at h, fun _ => Or.inl ⟨r2, r3⟩⟩
        · split at h
          · injection h with h
            injection h with h1 h2
            subst h1 h2
            exact ⟨r1, fun h => by simp at h, fun _ => Or.inl ⟨r2, r3⟩⟩
          · injection h with h
            obtain ⟨q1, q2, q3⟩ := queueWaitingItems_result p _ s' e h
            refine ⟨q1.trans r1, ?_, fun hne => Or.inr (q3 hne)⟩
            intro he
            obtain ⟨q4, q5⟩ := q2 he
            rw [q4, q5]
            exact ⟨rfl, rfl⟩

theorem resolveTarget_sourceType (p : Platform) (s : WASAPISource) :
    (resolveTarget p s).refs.sourceType = s.sourceType := by
  unfold resolveTarget
  dsimp only
  split_ifs
  · rfl
  · rfl
  · rfl
  · rfl
  · rfl
  · split <;> rfl

theorem queueWaitingItems_sourceType (p : Platform) (x s' : WASAPISource)
    (e : Option Thrown) (hx : queueWaitingItems p x = (s', e)) :
    s'.sourceType = x.sourceType := by
  have hp : ∀ (hr : Int) (sig : Signal) (item : WorkItem) (y : WASAPISource),
      (rtwq_put_waiting_work_item hr sig item y).sourceType = y.sourceType := by
    intro hr sig item y
    unfold rtwq_put_waiting_work_item
    split
    · rfl
    · cases item <;> rfl
  have h : (queueWaitingItems p x).1.sourceType = x.sourceType := by
    unfold queueWaitingItems
    split
    · split
      · exact hp _ _ _ _
      · split
        · exact (hp _ _ _ _).trans (hp _ _ _ _)
        · exact (hp _ _ _ _).trans (hp _ _ _ _)
    · rfl
  rw [hx] at h
  exact h

/-- An initialization attempt never changes the kind of the session. -/
theorem Initialize_sourceType (p : Platform) (s s' : WASAPISource) (e : Option Thrown)
    (h : Initialize p s = Except.ok (s', e)) : s'.sourceType = s.sourceType := by
  have r1 := resolveTarget_sourceType p s
  unfold Initialize at h
  simp only [] at h
  split at h
  · injection h with h
    injection h with h1 h2
    subst h1 h2
    exact r1
  · split at h
    · simp at h
    · split at h
      · injection h with h
        injection h with h1 h2
        subst h1 h2
        exact r1
      · split at h
        · simp at h
        · injection h with h
          injection h with h1 h2
          subst h1 h2
          exact r1
        · split at h
          · injection h with h
            injection h with h1 h2
            subst h1 h2
            exact r1
          · injection h with h
            exact (queueWaitingItems_sourceType p _ s' e h).trans r1

theorem TryInitialize_result (p : Platform) (s s1 : WASAPISource) (b : Bool)
    (h : TryInitialize p s = Except.ok (s1, b)) :
    ∃ (s0 : WASAPISource) (e : Option Thrown),
      Initialize p s = Except.ok (s0, e) ∧ b = e.isNone ∧
      s1 = { s0 with previouslyFailed := !b } := by
  unfold TryInitialize at h
  split at h
  · simp at h
  · rename_i s0 heq
    injection h with h
    injection h with h1 h2
    subst h1 h2
    exact ⟨s0, none, heq, rfl, rfl⟩
  · rename_i s0 e heq
    injection h with h
    injection h with h1 h2
    subst h1 h2
    exact ⟨s0, some e, heq, rfl, rfl⟩

/-- A failed attempt that starts with no pair ends with no pair. -/
theorem TryInitialize_failed_pair (p : Platform) (s s1 : WASAPISource)
    (h : TryInitialize p s = Except.ok (s1, false))
    (hc : s.client = none) (hcap : s.capture = none) :
    s1.client = none ∧ s1.capture = none := by
  obtain ⟨s0, e, hi, hb, hs⟩ := TryInitialize_result p s s1 false h
  have hne : e ≠ none := by
    intro he
    rw [he] at hb
    simp at hb
  obtain ⟨_, _, k⟩ := Initialize_kept p s s0 e hi
  rw [hs]
  rcases k hne with ⟨k1, k2⟩ | ⟨k1, k2⟩
  · exact ⟨k1.trans hc, k2.trans hcap⟩
  · exact ⟨k1, k2⟩

/-- A drain pass changes nothing but `framesProcessed` and the log. -/
theorem pcd_kept (replies : List CaptureReply) :
    ∀ (s s1 : WASAPISource) (b : Bool),
      ProcessCaptureData s replies = Except.ok (s1, b) →
      s1 = { s with framesProcessed := s1.framesProcessed, log := s1.log } := by
  induction replies with
  | nil => intro s s1 b h; simp [ProcessCaptureData] at h
  | cons a rest ih =>
    intro s s1 b h
    rw [ProcessCaptureData] at h
    split at h
    · injection h with h; injection h with h1 h2; subst h1; rfl
    · split at h
      · simp at h
      · split at h
        · injection h with h; injection h with h1 h2; subst h1; rfl
        · split at h
          · injection h with h; injection h with h1 h2; subst h1; rfl
          · split at h
            · injection h with h; injection h with h1 h2; subst h1; rfl
            · have k := ih (deliverPacket s a) s1 b h
              have e := congrArg
                (fun x : WASAPISource =>
                  { x with framesProcessed := s1.framesProcessed, log := s1.log })
                (deliverPacket_rest s a)
              exact k.trans e

theorem wait_inactive_init (s : WASAPISource) (f : Bool) (he : s.exitSignal = false)
    (hs : s.stopSignal = false) (hi : s.initSignal = true) :
    WaitForMultipleObjects inactive_sigs f s =
      some (WaitResult.object 2, { s with initSignal := false }) := by
  simp [WaitForMultipleObjects, inactive_sigs, firstSignalled, signalled, consume, he, hs, hi]

theorem wait_active_drain (s : WASAPISource) (he : s.exitSignal = false)
    (hs : s.stopSignal = false)
    (hr : s.receiveSignal = true ∨
          (s.restartSignal = false ∧ s.sourceType ≠ SourceType.Input)) :
    ∃ w, WaitForMultipleObjects active_sigs (decide (s.sourceType ≠ SourceType.Input)) s =
        some (w, { s with receiveSignal := false }) ∧
      (w = WaitResult.object 2 ∨ w = WaitResult.timeout) := by
  by_cases hrc : s.receiveSignal = true
  · refine ⟨WaitResult.object 2, ?_, Or.inl rfl⟩
    simp [WaitForMultipleObjects, active_sigs, firstSignalled, signalled, consume, he, hs, hrc]
  · have hrc2 : s.receiveSignal = false := by simpa using hrc
    rcases hr with hr | ⟨hr1, hr2⟩
    · exact absurd hr hrc
    · refine ⟨WaitResult.timeout, ?_, Or.inr rfl⟩
      have hself : { s with receiveSignal := false } = s := by
        cases s; simp_all
      rw [hself]
      simp [WaitForMultipleObjects, active_sigs, firstSignalled, signalled, he, hs, hrc2, hr1, hr2]

theorem captureThreadUnwind_reconnect (s : WASAPISource)
    (h : s.client.isSome = true ∨ s.capture = none) :
    (captureThreadUnwind false false true s).1.active = false ∧
    (captureThreadUnwind false false true s).2.client = none ∧
    (captureThreadUnwind false false true s).2.capture = none ∧
    (captureThreadUnwind false false true s).2.reconnectSignal = true ∧
    (captureThreadUnwind false false true s).2.reconnectDuration = s.reconnectDuration := by
  cases hcl : s.client with
  | none =>
    have hcap : s.capture = none := by
      rcases h with h | h
      · rw [hcl] at h; simp at h
      · exact h
    simp [captureThreadUnwind, hcl, hcap, SetEvent]
  | some c =>
    simp [captureThreadUnwind, hcl, SetEvent]

theorem rtwq_put_signals (hr : Int) (sig : Signal) (item : WorkItem) (s : WASAPISource) :
    (rtwq_put_waiting_work_item hr sig item s).stopSignal = s.stopSignal ∧
    (rtwq_put_waiting_work_item hr sig item s).restartSignal = s.restartSignal ∧
    (rtwq_put_waiting_work_item hr sig item s).reconnectDuration = s.reconnectDuration := by
  unfold rtwq_put_waiting_work_item
  split
  · exact ⟨rfl, rfl, rfl⟩
  · cases item <;> exact ⟨rfl, rfl, rfl⟩

/-- The checks of `OnSampleReady` after a failed drain pass, stop not set and
no restart pending: nothing changes. -/
theorem sampleReadyChecks_plain (p : Platform) (s : WASAPISource)
    (hr : s.restartSignal = false) (hs : s.stopSignal = false) :
    sampleReadyChecks p { stop := true, reconnect := true, s := s } =
      { stop := true, reconnect := true, s := s } := by
  simp [sampleReadyChecks, restartCheck, stopCheck, requeueCheck, hr, hs]

/-- The checks of `OnSampleReady` with stop not set and a restart pending:
the delay is zeroed, the restart event reset and its work item requeued. -/
theorem sampleReadyChecks_restart (p : Platform) (stop reconnect : Bool) (s : WASAPISource)
    (hr : s.restartSignal = true) (hs : s.stopSignal = false) :
    sampleReadyChecks p { stop := stop, reconnect := reconnect, s := s } =
      { stop := true, reconnect := true
        s := rtwq_put_waiting_work_item p.putWaitingRestart Signal.restart WorkItem.restart
               (ResetEvent Signal.restart { s with reconnectDuration := 0 }) } := by
  have h1 := (rtwq_put_signals p.putWaitingRestart Signal.restart WorkItem.restart
    (ResetEvent Signal.restart { s with reconnectDuration := 0 })).1
  have h2 : (ResetEvent Signal.restart { s with reconnectDuration := 0 }).stopSignal = false := hs
  have h3 := h1.trans h2
  have e1 : restartCheck p { stop := stop, reconnect := reconnect, s := s } =
      { stop := true, reconnect := true
        s := rtwq_put_waiting_work_item p.putWaitingRestart Signal.restart WorkItem.restart
               (ResetEvent Signal.restart { s with reconnectDuration := 0 }) } := by
    unfold restartCheck
    rw [if_pos hr]
  rw [sampleReadyChecks, e1]
  have e2 : ∀ v : SampleReadyVars, v.s.stopSignal = false → stopCheck v = v := by
    intro v hv
    unfold stopCheck
    rw [if_neg (by rw [hv]; simp)]
  rw [e2 _ h3]
  unfold requeueCheck
  simp

/-- C10 (amended): after a failed initialization attempt or a failed drain
pass with neither exit nor stop observed, the session holds no client/capture
pair, the reconnect event is set and `reconnectDuration` is
`RECONNECT_INTERVAL` = 3000, in these four situations, whatever the other
events are: (1) the capture thread, waiting on its inactive set with no pair
held, is woken by the init event and `TryInitialize` fails; (2) the capture
thread, holding the pair, is woken by the receive event or by its poll timeout
and the drain pass returns false; (3) `OnStartCapture` runs with no pair held
and `TryInitialize` fails; (4) `OnSampleReady` holds the pair and its drain
pass returns false while the restart event is not set.  In situation (4) with
the restart event set the outcome is the same except that
`reconnectDuration` is 0 and the restart event has been reset. -/
theorem failure_signals_reconnect (p : Platform) (replies : List CaptureReply)
    (s s1 : WASAPISource) :
    RECONNECT_INTERVAL = 3000 ∧
    (∀ t : CaptureThreadState, t.exit = false → t.active = false →
      s.exitSignal = false → s.stopSignal = false → s.initSignal = true →
      s.client = none → s.capture = none →
      TryInitialize p { s with initSignal := false } = Except.ok (s1, false) →
      ∃ t' s', CaptureThreadStep p replies t s = StepResult.next (t', s') ∧
        t'.active = false ∧ s'.client = none ∧ s'.capture = none ∧
        s'.reconnectSignal = true ∧ s'.reconnectDuration = RECONNECT_INTERVAL) ∧
    (∀ (t : CaptureThreadState) (c : IAudioClient), t.exit = false → t.active = true →
      s.exitSignal = false → s.stopSignal = false →
      (s.receiveSignal = true ∨
        (s.restartSignal = false ∧ s.sourceType ≠ SourceType.Input)) →
      s.client = some c →
      ProcessCaptureData { s with receiveSignal := false } replies = Except.ok (s1, false) →
      ∃ t' s', CaptureThreadStep p replies t s = StepResult.next (t', s') ∧
        t'.active = false ∧ s'.client = none ∧ s'.capture = none ∧
        s'.reconnectSignal = true ∧ s'.reconnectDuration = RECONNECT_INTERVAL) ∧
    (s.stopSignal = false → s.client = none → s.capture = none →
      TryInitialize p s = Except.ok (s1, false) →
      ∃ s', OnStartCapture p s = Except.ok s' ∧
        s'.client = none ∧ s'.capture = none ∧
        s'.reconnectSignal = true ∧ s'.reconnectDuration = RECONNECT_INTERVAL) ∧
    (∀ c : IAudioClient, s.stopSignal = false → s.client = some c →
      ProcessCaptureData s replies = Except.ok (s1, false) →
      ∃ s', OnSampleReady p replies s = Except.ok s' ∧
        s'.client = none ∧ s'.capture = none ∧ s'.reconnectSignal = true ∧
        s'.restartSignal = false ∧
        s'.reconnectDuration = if s.restartSignal then 0 else RECONNECT_INTERVAL) := by
  refine ⟨rfl, ?_, ?_, ?_, ?_⟩
  · intro t hte hta he hs hi hc hcap htry
    obtain ⟨k1, k2⟩ := TryInitialize_failed_pair p _ s1 htry hc hcap
    have hu := captureThreadUnwind_reconnect
      { s1 with reconnectDuration := RECONNECT_INTERVAL } (Or.inr k2)
    refine ⟨_, _, ?_, hu.1, hu.2.1, hu.2.2.1, hu.2.2.2.1, hu.2.2.2.2⟩
    unfold CaptureThreadStep
    simp [hte, hta, wait_inactive_init s false he hs hi, htry]
  · intro t c hte hta he hs hr hc hdrain
    have hk := pcd_kept replies _ s1 false hdrain
    have hc1 : s1.client = some c := by rw [hk]; exact hc
    have hu := captureThreadUnwind_reconnect
      { s1 with reconnectDuration := RECONNECT_INTERVAL }
      (Or.inl (by show s1.client.isSome = true; rw [hc1]; rfl))
    refine ⟨_, _, ?_, hu.1, hu.2.1, hu.2.2.1, hu.2.2.2.1, hu.2.2.2.2⟩
    obtain ⟨w, hw, hw2⟩ := wait_active_drain s he hs hr
    unfold CaptureThreadStep
    simp only [hte, hta, Bool.false_eq_true, if_false, if_true, Bool.true_and, hw]
    rcases hw2 with rfl | rfl
    · simp [hdrain]
    · simp [hdrain]
  · intro hs hc hcap htry
    obtain ⟨k1, k2⟩ := TryInitialize_failed_pair p s s1 htry hc hcap
    refine ⟨SetEvent Signal.reconnect { s1 with reconnectDuration := RECONNECT_INTERVAL },
      ?_, k1, k2, rfl, rfl⟩
    unfold OnStartCapture
    simp [hs, htry]
  · intro c hs hc hdrain
    have hk := pcd_kept replies s s1 false hdrain
    have hc1 : s1.client = some c := by rw [hk]; exact hc
    have hs1 : s1.stopSignal = false := by rw [hk]; exact hs
    have hr1 : s1.restartSignal = s.restartSignal := by rw [hk]
    unfold OnSampleReady
    simp only [hdrain, Bool.not_false, if_true]
    cases hrs : s.restartSignal
    · rw [hrs] at hr1
      rw [sampleReadyChecks_plain p { s1 with reconnectDuration := RECONNECT_INTERVAL }
        hr1 hs1]
      unfold sampleReadyUnwind
      simp only [if_true, hc1]
      exact ⟨_, rfl, rfl, rfl, rfl, hr1, rfl⟩
    · rw [hrs] at hr1
      rw [sampleReadyChecks_restart p true true
        { s1 with reconnectDuration := RECONNECT_INTERVAL } hr1 hs1]
      have hq := rtwq_put_kept p.putWaitingRestart Signal.restart WorkItem.restart
        (ResetEvent Signal.restart
          { s1 with reconnectDuration := 0 })
      have hg := rtwq_put_signals p.putWaitingRestart Signal.restart WorkItem.restart
        (ResetEvent Signal.restart
          { s1 with reconnectDuration := 0 })
      unfold sampleReadyUnwind
      simp only [if_true]
      have hcl : (rtwq_put_waiting_work_item p.putWaitingRestart Signal.restart
          WorkItem.restart
          (ResetEvent Signal.restart { s1 with reconnectDuration := 0 })).client = some c :=
        hq.2.1.trans hc1
      rw [hcl]
      exact ⟨_, rfl, rfl, rfl, rfl, hg.2.1, hg.2.2⟩

/-- C10 as stated fails in the work-queue strategy: `OnSampleReady` on a
session that holds its pair, with stop not set and the restart event set,
whose drain pass fails with `AUDCLNT_E_DEVICE_INVALIDATED`, drops the pair and
sets the reconnect event with `reconnectDuration` 0, not 3000. -/
theorem onSampleReady_failure_with_restart_pending :
    ProcessCaptureData restartPendingSession
        [{ sizeResult := AUDCLNT_E_DEVICE_INVALIDATED }] =
      Except.ok (restartPendingSession, false) ∧
    restartPendingSession.stopSignal = false ∧
    ∃ s', OnSampleReady nominalPlatform [{ sizeResult := AUDCLNT_E_DEVICE_INVALIDATED }]
        restartPendingSession = Except.ok s' ∧
      s'.client = none ∧ s'.capture = none ∧ s'.reconnectSignal = true ∧
      s'.reconnectDuration = 0 ∧ s'.reconnectDuration ≠ RECONNECT_INTERVAL := by
  refine ⟨rfl, rfl, _, rfl, rfl, rfl, rfl, rfl, by decide⟩

theorem failure_signals_reconnect_witness :
    ∃ s', OnSampleReady nominalPlatform [{ sizeResult := AUDCLNT_E_DEVICE_INVALIDATED }]
        { restartPendingSession with restartSignal := false } = Except.ok s' ∧
      s'.client = none ∧ s'.capture = none ∧ s'.reconnectSignal = true ∧
      s'.reconnectDuration = 3000 :=
  match (failure_signals_reconnect nominalPlatform
      [{ sizeResult := AUDCLNT_E_DEVICE_INVALIDATED }]
      { restartPendingSession with restartSignal := false }
      { restartPendingSession with restartSignal := false }).2.2.2.2 ⟨100⟩ rfl rfl rfl with
  | ⟨s', h1, h2, h3, h4, _, h6⟩ => ⟨s', h1, h2, h3, h4, h6⟩

/-! ## Endpoint resolver -/

/-- Whenever the direct lookup of the configured id fails, `InitDevice`
throws, whatever the known device name and the listed endpoints are. -/
theorem InitDevice_throws_on_failed_lookup (p : Platform) (type : SourceType)
    (device_id device_name : String) (hw : p.os_utf8_to_wcs_ptr device_id = true)
    (hf : FAILED (p.GetDevice device_id).1 = true) :
    InitDevice p false type device_id device_name =
      Except.error (Thrown.hrError "Failed to enumerate device" (p.GetDevice device_id).1) := by
  simp [InitDevice, _InitDevice, hw, hf]

/-- C9, the code at the failing input: the configured id "mic-old" no longer
resolves (`GetDevice` fails with `E_NOTFOUND`), the known name "Microphone" is
non-empty and a capture endpoint of that name is listed with id "mic-new".
`InitDevice` throws "Failed to enumerate device" instead of returning that
endpoint, and the initialization attempt fails with `device_id` still
"mic-old".  The lookup by name is reached only when the direct lookup
reports success without a device, and then it does adopt the first match. -/
theorem initDevice_stale_id_throws :
    GetWASAPIAudioDevices stalePlatform true "Microphone" =
      [{ device := some ⟨10⟩, name := "Microphone", id := "mic-new" }] ∧
    InitDevice stalePlatform false SourceType.Input "mic-old" "Microphone" =
      Except.error (Thrown.hrError "Failed to enumerate device" E_NOTFOUND) ∧
    (∃ s', TryInitialize stalePlatform staleSession = Except.ok (s', false) ∧
      s'.device_id = "mic-old" ∧ s'.client = none) ∧
    InitDevice { nominalPlatform with GetDevice := fun _ => (0, none) } false
        SourceType.Input "mic-old" "Microphone" =
      Except.ok { device := some ⟨10⟩, device_id := "mic-new", device_name := "Microphone" } := by
  refine ⟨rfl, rfl, ⟨_, rfl, rfl, rfl⟩, rfl⟩

/-! ## Frame counter across acquisitions -/

/-- C4 as stated fails: a ProcessOutput session is initialized, delivers one
packet of 480 frames (timestamp 0), is torn down by the capture thread and
initialized again; the second `Initialize` completes with `framesProcessed`
still 480, and the first frame delivered after it has timestamp
`480 * 10^9 / 48000 = 10000000`, not 0. -/
theorem initialize_keeps_frame_counter_example :
    ∃ s1 s2 s3 s4 : WASAPISource,
      Initialize nominalPlatform processSession = Except.ok (s1, none) ∧
      ProcessCaptureData s1
          [{ captureSize := 480, frames := 480 }, { captureSize := 0 }] =
        Except.ok (s2, true) ∧
      (captureThreadUnwind false false true s2).2.client = none ∧
      Initialize nominalPlatform (captureThreadUnwind false false true s2).2 =
        Except.ok (s3, none) ∧
      s3.framesProcessed = 480 ∧
      ProcessCaptureData s3
          [{ captureSize := 480, frames := 480 }, { captureSize := 0 }] =
        Except.ok (s4, true) ∧
      (audioFrames s4.log).map obs_source_audio.timestamp = [0, 10000000] := by
  refine ⟨_, _, _, _, rfl, rfl, rfl, rfl, rfl, rfl, by decide⟩

/-- C4 (amended): an initialization attempt, completed or not, leaves
`framesProcessed` as it was.  Hence on a ProcessOutput session the first frame
delivered after a completed `Initialize` has timestamp
`floor(n * 10^9 / rate)` (64-bit), where `n` is the value of `framesProcessed`
before the call and `rate` the sample rate just negotiated; it is 0 when `n`
is 0, as it is after construction. -/
theorem initialize_keeps_frame_counter (p : Platform) (s s' : WASAPISource)
    (e : Option Thrown) (h : Initialize p s = Except.ok (s', e)) :
    s'.framesProcessed = s.framesProcessed ∧
    (s.sourceType = SourceType.ProcessOutput → e = none → ∀ r : CaptureReply,
      ∃ d : obs_source_audio,
        (deliverPacket s' r).log = s'.log ++ [Effect.outputAudio d, Effect.releaseBuffer r.frames] ∧
        d.timestamp = (s.framesProcessed * 10 ^ 9 / s'.sampleRate) % 2 ^ 64 ∧
        (s.framesProcessed = 0 → d.timestamp = 0)) ∧
    (newSession s.sourceType (currentParams s)).framesProcessed = 0 := by
  have hk := (Initialize_kept p s s' e h).1
  refine ⟨hk, ?_, rfl⟩
  intro ht _ r
  have hty : s'.sourceType = SourceType.ProcessOutput :=
    (Initialize_sourceType p s s' e h).trans ht
  refine ⟨{ frames := r.frames, speakers := s'.speakers, samples_per_sec := s'.sampleRate,
            format := s'.format,
            timestamp := util_mul_div64 s'.framesProcessed 1000000000 s'.sampleRate },
    ?_, ?_, ?_⟩
  · unfold deliverPacket
    rw [if_pos hty]
  · simp only [util_mul_div64, hk]
    norm_num
  · intro h0
    simp [util_mul_div64, hk, h0]

theorem initialize_keeps_frame_counter_witness :
    ∃ s' : WASAPISource,
      Initialize nominalPlatform processSession = Except.ok (s', none) ∧
      s'.framesProcessed = processSession.framesProcessed :=
  ⟨_, rfl, (initialize_keeps_frame_counter nominalPlatform processSession _ none rfl).1⟩

/-! ## Format negotiation -/

/-- C18 as stated fails for the stereo mask: `ConvertSpeakerLayout` has no
case for it, so an extensible format with the stereo mask and six channels
yields the layout of value 6 (5.1), not stereo. -/
theorem initFormat_stereo_mask_six_channels :
    stereoMaskSixChannels.Format.wFormatTag = WAVE_FORMAT_EXTENSIBLE ∧
    stereoMaskSixChannels.dwChannelMask = KSAUDIO_SPEAKER_STEREO ∧
    (InitFormat stereoMaskSixChannels).speakers = 6 ∧
    (InitFormat stereoMaskSixChannels).speakers ≠ SPEAKERS_STEREO := by
  decide

/-- C18 (amended): `InitFormat` always gives the float sample format and the
format's samples-per-second.  For an extensible format whose channel mask is
the 2.1, quad (4.0), 4.1, 5.1 or 7.1 mask the speaker layout is the
corresponding one, for every channel count.  For every other mask, the stereo
mask included, and for every non-extensible format, the layout is the one
whose numeric value is the raw channel count; with the stereo mask that is
stereo exactly when the channel count is 2. -/
theorem initFormat_mapping (wfex : WAVEFORMATEXTENSIBLE) :
    (InitFormat wfex).format = AUDIO_FORMAT_FLOAT ∧
    (InitFormat wfex).sampleRate = wfex.Format.nSamplesPerSec ∧
    (wfex.Format.wFormatTag = WAVE_FORMAT_EXTENSIBLE →
      (wfex.dwChannelMask = KSAUDIO_SPEAKER_2POINT1 →
        (InitFormat wfex).speakers = SPEAKERS_2POINT1) ∧
      (wfex.dwChannelMask = KSAUDIO_SPEAKER_SURROUND →
        (InitFormat wfex).speakers = SPEAKERS_4POINT0) ∧
      (wfex.dwChannelMask = OBS_KSAUDIO_SPEAKER_4POINT1 →
        (InitFormat wfex).speakers = SPEAKERS_4POINT1) ∧
      (wfex.dwChannelMask = KSAUDIO_SPEAKER_5POINT1_SURROUND →
        (InitFormat wfex).speakers = SPEAKERS_5POINT1) ∧
      (wfex.dwChannelMask = KSAUDIO_SPEAKER_7POINT1_SURROUND →
        (InitFormat wfex).speakers = SPEAKERS_7POINT1) ∧
      (wfex.dwChannelMask ≠ KSAUDIO_SPEAKER_2POINT1 →
        wfex.dwChannelMask ≠ KSAUDIO_SPEAKER_SURROUND →
        wfex.dwChannelMask ≠ OBS_KSAUDIO_SPEAKER_4POINT1 →
        wfex.dwChannelMask ≠ KSAUDIO_SPEAKER_5POINT1_SURROUND →
        wfex.dwChannelMask ≠ KSAUDIO_SPEAKER_7POINT1_SURROUND →
        (InitFormat wfex).speakers = wfex.Format.nChannels) ∧
      (wfex.dwChannelMask = KSAUDIO_SPEAKER_STEREO →
        (InitFormat wfex).speakers = wfex.Format.nChannels ∧
        ((InitFormat wfex).speakers = SPEAKERS_STEREO ↔ wfex.Format.nChannels = 2))) ∧
    (wfex.Format.wFormatTag ≠ WAVE_FORMAT_EXTENSIBLE →
      (InitFormat wfex).speakers = wfex.Format.nChannels) := by
  refine ⟨rfl, rfl, ?_, ?_⟩
  · intro ht
    have hs : (InitFormat wfex).speakers =
        ConvertSpeakerLayout wfex.dwChannelMask wfex.Format.nChannels := by
      simp [InitFormat, ht]
    rw [hs]
    refine ⟨?_, ?_, ?_, ?_, ?_, ?_, ?_⟩
    · intro h; rw [h]; rfl
    · intro h; rw [h]; rfl
    · intro h; rw [h]; rfl
    · intro h; rw [h]; rfl
    · intro h; rw [h]; rfl
    · intro h1 h2 h3 h4 h5
      simp [ConvertSpeakerLayout, h1, h2, h3, h4, h5]
    · intro h
      rw [h]
      exact ⟨rfl, by simp [ConvertSpeakerLayout, KSAUDIO_SPEAKER_STEREO,
        KSAUDIO_SPEAKER_2POINT1, KSAUDIO_SPEAKER_SURROUND, OBS_KSAUDIO_SPEAKER_4POINT1,
        SPEAKER_LOW_FREQUENCY, KSAUDIO_SPEAKER_5POINT1_SURROUND,
        KSAUDIO_SPEAKER_7POINT1_SURROUND, SPEAKERS_STEREO]⟩
  · intro ht
    simp [InitFormat, ht, ConvertSpeakerLayout, KSAUDIO_SPEAKER_2POINT1,
      KSAUDIO_SPEAKER_SURROUND, OBS_KSAUDIO_SPEAKER_4POINT1, SPEAKER_LOW_FREQUENCY,
      KSAUDIO_SPEAKER_5POINT1_SURROUND, KSAUDIO_SPEAKER_7POINT1_SURROUND]

/-! ## Process capture by session token -/

/-- A drain pass on a ProcessOutput session whose window handle is null
returns false at once, whatever the capture interface has to offer. -/
theorem pcd_null_window (s : WASAPISource) (r : CaptureReply) (rest : List CaptureReply)
    (ht : s.sourceType = SourceType.ProcessOutput) (hw : s.hwnd = 0) :
    ProcessCaptureData s (r :: rest) = Except.ok (s, false) := by
  rw [ProcessCaptureData, if_pos]
  exact ⟨ht, by simp [IsWindow, hw]⟩

/-- C20, the code at the failing input: a ProcessOutput session configured
with a session token is initialized on a platform where every call succeeds.
`Initialize` takes the session-token branch, binds process 4242 and leaves the
window handle null; the session holds its client and capture interface.  A
drain pass with a packet of 480 frames available and no capture-interface
error then delivers nothing and returns false. -/
theorem token_session_drain_aborts :
    ∃ s1 : WASAPISource,
      Initialize nominalPlatform tokenSession = Except.ok (s1, none) ∧
      s1.process_id = 4242 ∧ s1.hwnd = 0 ∧
      s1.client = some ⟨100⟩ ∧ s1.capture = some ⟨200⟩ ∧
      ProcessCaptureData s1
          [{ captureSize := 480, frames := 480 }, { captureSize := 0 }] =
        Except.ok (s1, false) ∧
      audioFrames s1.log = [] := by
  refine ⟨_, rfl, rfl, rfl, rfl, rfl, rfl, by decide⟩

/-! ## Initialization attempts -/

theorem lookup_some (r : Int × Option IMMDevice) (e : Thrown) (d : Option IMMDevice)
    (hr : FAILED r.1 = false → r.2.isSome = true)
    (h : (if FAILED r.1 = true then Except.error e else Except.ok r.2) = Except.ok d) :
    d.isSome = true := by
  by_cases hf : FAILED r.1 = true
  · rw [if_pos hf] at h; simp at h
  · rw [if_neg hf] at h
    injection h with h
    rw [← h]
    exact hr (by simpa using hf)

theorem _InitDevice_some (p : Platform) (isDefault : Bool) (type : SourceType)
    (id : String) (d : Option IMMDevice)
    (hdef : ∀ flow role, FAILED (p.GetDefaultAudioEndpoint flow role).1 = false →
      (p.GetDefaultAudioEndpoint flow role).2.isSome = true)
    (hdev : ∀ i, FAILED (p.GetDevice i).1 = false → (p.GetDevice i).2.isSome = true)
    (h : _InitDevice p isDefault type id = Except.ok d) : d.isSome = true := by
  unfold _InitDevice at h
  dsimp only at h
  by_cases h1 : isDefault = true
  · rw [if_pos h1] at h
    exact lookup_some _ _ _ (hdef _ _) h
  · rw [if_neg h1] at h
    by_cases h2 : (!p.os_utf8_to_wcs_ptr id) = true
    · rw [if_pos h2] at h; simp at h
    · rw [if_neg h2] at h
      exact lookup_some _ _ _ (hdev _) h

theorem InitDevice_some (p : Platform) (isDefault : Bool) (type : SourceType)
    (id name : String) (r : ResolvedDevice)
    (hdef : ∀ flow role, FAILED (p.GetDefaultAudioEndpoint flow role).1 = false →
      (p.GetDefaultAudioEndpoint flow role).2.isSome = true)
    (hdev : ∀ i, FAILED (p.GetDevice i).1 = false → (p.GetDevice i).2.isSome = true)
    (h : InitDevice p isDefault type id name = Except.ok r) : r.device.isSome = true := by
  unfold InitDevice at h
  split at h
  · simp at h
  · rename_i device hd
    have hs := _InitDevice_some p isDefault type id device hdef hdev hd
    simp only [hs, if_true] at h
    injection h with h
    rw [← h]
    exact hs

theorem resolveTarget_device (p : Platform) (s : WASAPISource) (d : Option IMMDevice)
    (hdef : ∀ flow role, FAILED (p.GetDefaultAudioEndpoint flow role).1 = false →
      (p.GetDefaultAudioEndpoint flow role).2.isSome = true)
    (hdev : ∀ i, FAILED (p.GetDevice i).1 = false → (p.GetDevice i).2.isSome = true)
    (ht : s.sourceType ≠ SourceType.ProcessOutput)
    (h : (resolveTarget p s).result = Except.ok d) : d.isSome = true := by
  unfold resolveTarget at h
  rw [if_neg ht] at h
  split at h
  · simp at h
  · rename_i r hr
    simp only [Except.ok.injEq] at h
    rw [← h]
    exact InitDevice_some p _ _ _ _ r hdef hdev hr

theorem InitClient_returns (p : Platform) (device : Option IMMDevice) (type : SourceType)
    (pid : Nat) (act : Bool) (cur : NegotiatedFormat)
    (h : type = SourceType.ProcessOutput ∨ device.isSome = true) :
    ∃ a, InitClient p device type pid act cur = Except.ok a := by
  unfold InitClient
  dsimp only
  by_cases ht : type = SourceType.ProcessOutput
  · rw [if_pos ht]
    split_ifs <;> exact ⟨_, rfl⟩
  · rw [if_neg ht]
    rcases h with h | h
    · exact absurd h ht
    · cases device with
      | none => simp at h
      | some dev =>
        dsimp only
        split_ifs <;> exact ⟨_, rfl⟩

theorem ClearBuffer_returns (p : Platform) (device : Option IMMDevice)
    (h : device.isSome = true) : ∃ r, ClearBuffer p device = Except.ok r := by
  cases device with
  | none => simp at h
  | some dev =>
    unfold ClearBuffer
    dsimp only
    split_ifs <;> exact ⟨_, rfl⟩

/-- `Initialize` returns, with or without an exception, on every platform
whose device lookups hand out a device whenever they report success. -/
theorem Initialize_returns (p : Platform) (s : WASAPISource)
    (hdef : ∀ flow role, FAILED (p.GetDefaultAudioEndpoint flow role).1 = false →
      (p.GetDefaultAudioEndpoint flow role).2.isSome = true)
    (hdev : ∀ i, FAILED (p.GetDevice i).1 = false → (p.GetDevice i).2.isSome = true) :
    ∃ s0 e, Initialize p s = Except.ok (s0, e) := by
  have hty := resolveTarget_sourceType p s
  unfold Initialize
  dsimp only
  split
  · exact ⟨_, _, rfl⟩
  · rename_i device hres
    have hdevice : s.sourceType ≠ SourceType.ProcessOutput → device.isSome = true :=
      fun ht => resolveTarget_device p s device hdef hdev ht hres
    have hty1 : (ResetEvent Signal.receive (resolveTarget p s).refs).sourceType =
        s.sourceType := hty
    have hcl : (ResetEvent Signal.receive (resolveTarget p s).refs).sourceType =
        SourceType.ProcessOutput ∨ device.isSome = true := by
      by_cases ht : s.sourceType = SourceType.ProcessOutput
      · exact Or.inl (hty1.trans ht)
      · exact Or.inr (hdevice ht)
    obtain ⟨a, ha⟩ := InitClient_returns p device _
      (ResetEvent Signal.receive (resolveTarget p s).refs).process_id
      (ResetEvent Signal.receive (resolveTarget p s).refs).activate_audio_interface_async
      { speakers := (ResetEvent Signal.receive (resolveTarget p s).refs).speakers
        format := (ResetEvent Signal.receive (resolveTarget p s).refs).format
        sampleRate := (ResetEvent Signal.receive (resolveTarget p s).refs).sampleRate } hcl
    rw [ha]
    dsimp only
    split
    · exact ⟨_, _, rfl⟩
    · by_cases hdo : (ResetEvent Signal.receive (resolveTarget p s).refs).sourceType =
          SourceType.DeviceOutput
      · have hsome : device.isSome = true :=
          hdevice (by rw [← hty1, hdo]; decide)
        obtain ⟨r, hr⟩ := ClearBuffer_returns p device hsome
        simp only [hdo, if_true, hr]
        cases r with
        | some e => exact ⟨_, _, rfl⟩
        | none =>
          dsimp only
          split
          · exact ⟨_, _, rfl⟩
          · exact ⟨_, _, rfl⟩
      · simp only [hdo, if_false]
        split
        · exact ⟨_, _, rfl⟩
        · exact ⟨_, _, rfl⟩

/-- C17: `TryInitialize`, entered with no client/capture pair held, turns
every outcome of `Initialize` into a boolean.  If `Initialize` completes it
returns true and the session holds both interfaces; if `Initialize` throws
anything, an `HRError` or a string, it returns false and the session holds
neither interface.  In both cases `previouslyFailed` is the negation of the
result.  `Initialize` does return or throw, so that `TryInitialize` returns,
on every platform whose device lookups hand out a device when they report
success. -/
theorem tryInitialize_never_throws (p : Platform) (s : WASAPISource)
    (hc : s.client = none) (hcap : s.capture = none) :
    (∀ s0 e, Initialize p s = Except.ok (s0, e) →
      ∃ s', TryInitialize p s = Except.ok (s', e.isNone) ∧
        s' = { s0 with previouslyFailed := !e.isNone } ∧
        s'.previouslyFailed = !e.isNone ∧
        (e.isNone = false → s'.client = none ∧ s'.capture = none) ∧
        (e.isNone = true → s'.client.isSome = true ∧ s'.capture.isSome = true)) ∧
    ((∀ flow role, FAILED (p.GetDefaultAudioEndpoint flow role).1 = false →
        (p.GetDefaultAudioEndpoint flow role).2.isSome = true) →
      (∀ i, FAILED (p.GetDevice i).1 = false → (p.GetDevice i).2.isSome = true) →
      ∃ s' b, TryInitialize p s = Except.ok (s', b)) := by
  have key : ∀ s0 e, Initialize p s = Except.ok (s0, e) →
      TryInitialize p s = Except.ok ({ s0 with previouslyFailed := !e.isNone }, e.isNone) := by
    intro s0 e h
    unfold TryInitialize
    rw [h]
    cases e <;> rfl
  refine ⟨?_, ?_⟩
  · intro s0 e h
    obtain ⟨_, k2, k3⟩ := Initialize_kept p s s0 e h
    refine ⟨_, key s0 e h, rfl, rfl, ?_, ?_⟩
    · intro he
      have hne : e ≠ none := by
        intro h0; rw [h0] at he; simp at he
      rcases k3 hne with ⟨a, b⟩ | ⟨a, b⟩
      · exact ⟨a.trans hc, b.trans hcap⟩
      · exact ⟨a, b⟩
    · intro he
      have h0 : e = none := by
        cases e with
        | none => rfl
        | some x => simp at he
      exact k2 h0
  · intro hdef hdev
    obtain ⟨s0, e, h⟩ := Initialize_returns p s hdef hdev
    exact ⟨_, _, key s0 e h⟩

theorem tryInitialize_never_throws_witness :
    ∃ s', TryInitialize stalePlatform staleSession = Except.ok (s', false) ∧
      s'.previouslyFailed = true ∧ s'.client = none ∧ s'.capture = none :=
  match (tryInitialize_never_throws stalePlatform staleSession rfl rfl).1
      _ (some (Thrown.hrError "Failed to enumerate device" E_NOTFOUND)) rfl with
  | ⟨s', h1, _, h3, h4, _⟩ => ⟨s', h1, h3, (h4 rfl).1, (h4 rfl).2⟩

/-! ## Restart and stop -/

theorem wait_active_restart (s : WASAPISource) (f : Bool) (he : s.exitSignal = false)
    (hs : s.stopSignal = false) (hrc : s.receiveSignal = false)
    (hr : s.restartSignal = true) :
    WaitForMultipleObjects active_sigs f s = some (WaitResult.object 3, s) := by
  simp [WaitForMultipleObjects, active_sigs, firstSignalled, signalled, consume, he, hs,
    hrc, hr]

theorem wait_stop_first (s : WASAPISource) (f : Bool) (third : Signal)
    (rest : List Signal) (he : s.exitSignal = false) (hs : s.stopSignal = true) :
    WaitForMultipleObjects (Signal.exit :: Signal.stop :: third :: rest) f s =
      some (WaitResult.object 1, s) := by
  simp [WaitForMultipleObjects, firstSignalled, signalled, consume, he, hs]

theorem wait_reconnect (s : WASAPISource) (he : s.exitSignal = false)
    (hr : s.reconnectSignal = true) :
    WaitForMultipleObjects [Signal.exit, Signal.reconnect] false s =
      some (WaitResult.object 1, { s with reconnectSignal := false }) := by
  simp [WaitForMultipleObjects, firstSignalled, signalled, consume, he, hr]

/-- The reconnect thread, woken by the reconnect event with a zero delay,
calls `Start` without waiting. -/
theorem reconnectThreadStep_zero (hr : Int) (s : WASAPISource)
    (he : s.exitSignal = false) (hrec : s.reconnectSignal = true)
    (hd : s.reconnectDuration = 0) :
    ReconnectThreadStep hr false s =
      StepResult.next (false, Start hr { s with reconnectSignal := false }) := by
  have hw : reconnectWait { s with reconnectSignal := false } =
      { s with reconnectSignal := false } := by
    unfold reconnectWait
    rw [if_neg]
    show ¬ s.reconnectDuration > 0
    rw [hd]; decide
  unfold ReconnectThreadStep
  simp [wait_reconnect s he hrec, hw]

/-- The capture thread, woken by the stop event, unwinds and signals idle
whatever else is signalled. -/
theorem captureThreadStep_stop (p : Platform) (replies : List CaptureReply)
    (t : CaptureThreadState) (s : WASAPISource) (hte : t.exit = false)
    (he : s.exitSignal = false) (hs : s.stopSignal = true) :
    CaptureThreadStep p replies t s =
      StepResult.next (captureThreadUnwind false true false s) := by
  unfold CaptureThreadStep
  cases hta : t.active
  · simp [hte, inactive_sigs, wait_stop_first s _ _ _ he hs]
  · simp [hte, active_sigs, wait_stop_first s _ _ _ he hs]

/-- The capture thread, woken by the exit event, unwinds, signals idle and
ends. -/
theorem captureThreadStep_exit (p : Platform) (replies : List CaptureReply)
    (t : CaptureThreadState) (s : WASAPISource) (hte : t.exit = false)
    (he : s.exitSignal = true) :
    CaptureThreadStep p replies t s =
      StepResult.next (captureThreadUnwind true true false s) := by
  unfold CaptureThreadStep
  cases hta : t.active
  · simp [hte, inactive_sigs, WaitForMultipleObjects, firstSignalled, signalled, consume, he]
  · simp [hte, active_sigs, WaitForMultipleObjects, firstSignalled, signalled, consume, he]

/-- C11: a restart request observed while the session holds its pair, with
neither stop nor exit set.  Capture thread (the wait returns the restart
event, the receive event not being set): the thread resets the restart event,
stops the client, drops both interfaces and sets the reconnect event, with
`reconnectDuration` 0.  `OnSampleReady` (after its drain pass, whatever the
pass returns): it resets the restart event, requeues the restart work item,
stops the client, drops both interfaces and sets the reconnect event, with
`reconnectDuration` 0.  In both cases the next iteration of the reconnect
thread calls `Start` without waiting. -/
theorem restart_reconnects_without_delay (p : Platform) (replies : List CaptureReply)
    (s : WASAPISource) (c : IAudioClient) (hc : s.client = some c)
    (hexit : s.exitSignal = false) (hstop : s.stopSignal = false)
    (hrs : s.restartSignal = true) :
    (∀ t : CaptureThreadState, t.exit = false → t.active = true →
      s.receiveSignal = false →
      ∃ t' s', CaptureThreadStep p replies t s = StepResult.next (t', s') ∧
        t'.active = false ∧ s'.client = none ∧ s'.capture = none ∧
        s'.restartSignal = false ∧ s'.reconnectDuration = 0 ∧
        s'.reconnectSignal = true ∧
        s'.log = s.log ++ [Effect.resetEvent Signal.restart, Effect.clientStop,
          Effect.setEvent Signal.reconnect] ∧
        ∀ hr, ReconnectThreadStep hr false s' =
          StepResult.next (false, Start hr { s' with reconnectSignal := false })) ∧
    (∀ (s1 : WASAPISource) (b : Bool),
      ProcessCaptureData s replies = Except.ok (s1, b) →
      ∃ s', OnSampleReady p replies s = Except.ok s' ∧
        s'.client = none ∧ s'.capture = none ∧
        s'.restartSignal = false ∧ s'.reconnectDuration = 0 ∧
        s'.reconnectSignal = true ∧
        s'.log = s1.log ++ [Effect.resetEvent Signal.restart,
          Effect.putWaitingWorkItem Signal.restart WorkItem.restart p.putWaitingRestart,
          Effect.clientStop, Effect.setEvent Signal.reconnect] ∧
        ∀ hr, ReconnectThreadStep hr false s' =
          StepResult.next (false, Start hr { s' with reconnectSignal := false })) := by
  constructor
  · intro t hte hta hrc
    have hstep : CaptureThreadStep p replies t s =
        StepResult.next (captureThreadUnwind false false true
          (ResetEvent Signal.restart { s with reconnectDuration := 0 })) := by
      unfold CaptureThreadStep
      simp [hte, hta, wait_active_restart s _ hexit hstop hrc hrs]
    have hun : captureThreadUnwind false false true
        (ResetEvent Signal.restart { s with reconnectDuration := 0 }) =
        ({ active := false, exit := false },
          SetEvent Signal.reconnect
            { ResetEvent Signal.restart { s with reconnectDuration := 0 } with
              log := (ResetEvent Signal.restart { s with reconnectDuration := 0 }).log ++
                [Effect.clientStop]
              capture := none, client := none }) := by
      have hc2 : (ResetEvent Signal.restart { s with reconnectDuration := 0 }).client
          = some c := hc
      simp [captureThreadUnwind, hc2]
    rw [hun] at hstep
    refine ⟨_, _, hstep, rfl, rfl, rfl, rfl, rfl, rfl, ?_, ?_⟩
    · simp [SetEvent, ResetEvent]
    · intro hr
      exact reconnectThreadStep_zero hr _ hexit rfl rfl
  · intro s1 b hdrain
    have hk := pcd_kept replies s s1 b hdrain
    have hc1 : s1.client = some c := by rw [hk]; exact hc
    have hs1 : s1.stopSignal = false := by rw [hk]; exact hstop
    have hr1 : s1.restartSignal = true := by rw [hk]; exact hrs
    have he1 : s1.exitSignal = false := by rw [hk]; exact hexit
    have hchecks : ∀ v0 : SampleReadyVars, v0.s.restartSignal = true →
        v0.s.stopSignal = false →
        sampleReadyChecks p v0 =
          { stop := true, reconnect := true
            s := rtwq_put_waiting_work_item p.putWaitingRestart Signal.restart
                   WorkItem.restart
                   (ResetEvent Signal.restart { v0.s with reconnectDuration := 0 }) } := by
      intro v0 h1 h2
      cases v0 with
      | mk st rc vs => exact sampleReadyChecks_restart p st rc vs h1 h2
    have hput : ∀ x : WASAPISource,
        (rtwq_put_waiting_work_item p.putWaitingRestart Signal.restart WorkItem.restart x).log
          = x.log ++ [Effect.putWaitingWorkItem Signal.restart WorkItem.restart
              p.putWaitingRestart] ∧
        (rtwq_put_waiting_work_item p.putWaitingRestart Signal.restart
          WorkItem.restart x).exitSignal = x.exitSignal := by
      intro x
      unfold rtwq_put_waiting_work_item
      split <;> exact ⟨rfl, rfl⟩
    unfold OnSampleReady
    simp only [hdrain]
    cases b
    · simp only [Bool.not_false, if_true]
      rw [hchecks _ hr1 hs1]
      have hq := rtwq_put_kept p.putWaitingRestart Signal.restart WorkItem.restart
        (ResetEvent Signal.restart { s1 with reconnectDuration := 0 })
      have hg := rtwq_put_signals p.putWaitingRestart Signal.restart WorkItem.restart
        (ResetEvent Signal.restart { s1 with reconnectDuration := 0 })
      have hl := hput (ResetEvent Signal.restart { s1 with reconnectDuration := 0 })
      unfold sampleReadyUnwind
      simp only [if_true]
      have hcl : (rtwq_put_waiting_work_item p.putWaitingRestart Signal.restart
          WorkItem.restart
          (ResetEvent Signal.restart { s1 with reconnectDuration := 0 })).client = some c :=
        hq.2.1.trans hc1
      rw [hcl]
      refine ⟨_, rfl, rfl, rfl, hg.2.1, hg.2.2, rfl, ?_, ?_⟩
      · show (rtwq_put_waiting_work_item p.putWaitingRestart Signal.restart
          WorkItem.restart
          (ResetEvent Signal.restart { s1 with reconnectDuration := 0 })).log ++
            [Effect.clientStop] ++ [Effect.setEvent Signal.reconnect] = _
        rw [hl.1]
        simp [ResetEvent]
      · intro hr
        exact reconnectThreadStep_zero hr _ (hl.2.trans he1) rfl hg.2.2
    · simp only [Bool.not_true, Bool.false_eq_true, if_false]
      rw [hchecks _ hr1 hs1]
      have hq := rtwq_put_kept p.putWaitingRestart Signal.restart WorkItem.restart
        (ResetEvent Signal.restart { s1 with reconnectDuration := 0 })
      have hg := rtwq_put_signals p.putWaitingRestart Signal.restart WorkItem.restart
        (ResetEvent Signal.restart { s1 with reconnectDuration := 0 })
      have hl := hput (ResetEvent Signal.restart { s1 with reconnectDuration := 0 })
      unfold sampleReadyUnwind
      simp only [if_true]
      have hcl : (rtwq_put_waiting_work_item p.putWaitingRestart Signal.restart
          WorkItem.restart
          (ResetEvent Signal.restart { s1 with reconnectDuration := 0 })).client = some c :=
        hq.2.1.trans hc1
      rw [hcl]
      refine ⟨_, rfl, rfl, rfl, hg.2.1, hg.2.2, rfl, ?_, ?_⟩
      · show (rtwq_put_waiting_work_item p.putWaitingRestart Signal.restart
          WorkItem.restart
          (ResetEvent Signal.restart { s1 with reconnectDuration := 0 })).log ++
            [Effect.clientStop] ++ [Effect.setEvent Signal.reconnect] = _
        rw [hl.1]
        simp [ResetEvent]
      · intro hr
        exact reconnectThreadStep_zero hr _ (hl.2.trans he1) rfl hg.2.2

theorem restart_reconnects_without_delay_witness :
    ∃ s', OnSampleReady nominalPlatform [{ captureSize := 0 }] restartPendingSession =
        Except.ok s' ∧
      s'.client = none ∧ s'.reconnectDuration = 0 ∧ s'.reconnectSignal = true :=
  match (restart_reconnects_without_delay nominalPlatform [{ captureSize := 0 }]
      restartPendingSession ⟨100⟩ rfl rfl rfl rfl).2 restartPendingSession true rfl with
  | ⟨s', h1, h2, _, _, h5, h6, _⟩ => ⟨s', h1, h2, h5, h6⟩

theorem reconnectWait_frame (s : WASAPISource) :
    reconnectWait s = { s with log := (reconnectWait s).log } := by
  unfold reconnectWait
  split <;> rfl

theorem Start_frame (hr : Int) (s : WASAPISource) :
    Start hr s =
      { s with initSignal := (Start hr s).initSignal
               startCaptureQueued := (Start hr s).startCaptureQueued
               log := (Start hr s).log } := by
  unfold Start
  split
  · dsimp only
    split <;> rfl
  · rfl

theorem Start_thread (hr : Int) (s : WASAPISource) (h : s.rtwq_supported = false) :
    (Start hr s).initSignal = true := by
  unfold Start
  rw [if_neg (by rw [h]; decide)]
  rfl

theorem Start_queue (hr : Int) (s : WASAPISource) (h : s.rtwq_supported = true)
    (hf : FAILED hr = false) :
    (Start hr s).startCaptureQueued = s.startCaptureQueued + 1 := by
  unfold Start
  rw [if_pos h]
  dsimp only
  rw [if_neg (by rw [hf]; decide)]

/-- C12: the stop event is set while the session, holding no pair, waits to
reconnect (the reconnect event is set, exit is not).  The reconnect thread's
iteration ends by calling `Start` and leaves the stop event set.  Capture
thread strategy: the init event is then set, and the inactive capture
thread's next iteration returns on the stop event, which precedes the init
event in its wait set: it signals idle and does nothing else, whatever the
platform would answer to an initialization attempt.  Work-queue strategy:
once the start work item is queued, `OnStartCapture` finds the stop event set,
signals idle and does nothing else.  `TryInitialize` is not reached in either
case and the idle event, on which `Stop` waits, is set. -/
theorem stop_while_reconnecting_signals_idle (p : Platform) (replies : List CaptureReply)
    (hr : Int) (s : WASAPISource) (hstop : s.stopSignal = true)
    (hexit : s.exitSignal = false) (hrec : s.reconnectSignal = true)
    (hc : s.client = none) :
    ∃ s2, ReconnectThreadStep hr false s = StepResult.next (false, s2) ∧
      s2.stopSignal = true ∧ s2.exitSignal = false ∧ s2.client = none ∧
      (s.rtwq_supported = false →
        s2.initSignal = true ∧
        ∀ t : CaptureThreadState, t.exit = false → t.active = false →
          CaptureThreadStep p replies t s2 =
            StepResult.next ({ active := false, exit := false }, SetEvent Signal.idle s2)) ∧
      (s.rtwq_supported = true → FAILED hr = false →
        s2.startCaptureQueued = s.startCaptureQueued + 1 ∧
        OnStartCapture p { s2 with startCaptureQueued := s2.startCaptureQueued - 1 } =
          Except.ok (SetEvent Signal.idle
            { s2 with startCaptureQueued := s2.startCaptureQueued - 1 })) ∧
      (SetEvent Signal.idle s2).idleSignal = true ∧
      (SetEvent Signal.idle s2).previouslyFailed = s.previouslyFailed := by
  have hstep : ReconnectThreadStep hr false s =
      StepResult.next (false, Start hr (reconnectWait { s with reconnectSignal := false })) := by
    unfold ReconnectThreadStep
    simp [wait_reconnect s hexit hrec]
  have hw := reconnectWait_frame { s with reconnectSignal := false }
  have hs := Start_frame hr (reconnectWait { s with reconnectSignal := false })
  have m1 : (reconnectWait { s with reconnectSignal := false }).stopSignal = true := by
    rw [hw]; exact hstop
  have m2 : (reconnectWait { s with reconnectSignal := false }).exitSignal = false := by
    rw [hw]; exact hexit
  have m3 : (reconnectWait { s with reconnectSignal := false }).client = none := by
    rw [hw]; exact hc
  have m4 : (reconnectWait { s with reconnectSignal := false }).rtwq_supported =
      s.rtwq_supported := by rw [hw]
  have m5 : (reconnectWait { s with reconnectSignal := false }).startCaptureQueued =
      s.startCaptureQueued := by rw [hw]
  have m6 : (reconnectWait { s with reconnectSignal := false }).previouslyFailed =
      s.previouslyFailed := by rw [hw]
  have k1 : (Start hr (reconnectWait { s with reconnectSignal := false })).stopSignal = true := by
    rw [hs]; exact m1
  have k2 : (Start hr (reconnectWait { s with reconnectSignal := false })).exitSignal = false := by
    rw [hs]; exact m2
  have k3 : (Start hr (reconnectWait { s with reconnectSignal := false })).client = none := by
    rw [hs]; exact m3
  have k4 : (Start hr (reconnectWait { s with reconnectSignal := false })).previouslyFailed =
      s.previouslyFailed := by rw [hs]; exact m6
  refine ⟨_, hstep, k1, k2, k3, ?_, ?_, rfl, k4⟩
  · intro hrt
    refine ⟨Start_thread hr _ (m4.trans hrt), ?_⟩
    intro t hte hta
    rw [captureThreadStep_stop p replies t _ hte k2 k1]
    simp [captureThreadUnwind, k3]
  · intro hrt hf
    refine ⟨(Start_queue hr _ (m4.trans hrt) hf).trans (by rw [m5]), ?_⟩
    unfold OnStartCapture
    have hq : ({ Start hr (reconnectWait { s with reconnectSignal := false }) with
        startCaptureQueued :=
          (Start hr (reconnectWait { s with reconnectSignal := false })).startCaptureQueued - 1
        } : WASAPISource).stopSignal = true := k1
    rw [hq]
    rfl

theorem stop_while_reconnecting_signals_idle_witness :
    ∃ s2, ReconnectThreadStep 0 false stoppedWhileReconnecting =
        StepResult.next (false, s2) ∧
      CaptureThreadStep stalePlatform [] {} s2 =
        StepResult.next ({ active := false, exit := false }, SetEvent Signal.idle s2) :=
  match stop_while_reconnecting_signals_idle stalePlatform [] 0 stoppedWhileReconnecting
      rfl rfl rfl rfl with
  | ⟨s2, h1, _, _, _, h5, _⟩ => ⟨s2, h1, (h5 rfl).2 {} rfl rfl⟩

/-! ## Capture steps after stop -/

theorem audioFrames_setEvent (sig : Signal) (s : WASAPISource) :
    audioFrames (SetEvent sig s).log = audioFrames s.log := by
  cases sig <;> simp [SetEvent, audioFrames_append, audioFrames]

/-- The capture thread's unwind with `idle` set hands the sink nothing and
sets the idle event. -/
theorem captureThreadUnwind_idle (e : Bool) (s : WASAPISource) :
    (captureThreadUnwind e true false s).1 = { active := false, exit := e } ∧
    (captureThreadUnwind e true false s).2.idleSignal = true ∧
    audioFrames (captureThreadUnwind e true false s).2.log = audioFrames s.log := by
  by_cases h : s.client.isSome = true
  · refine ⟨rfl, ?_, ?_⟩
    · simp [captureThreadUnwind, h, SetEvent]
    · simp [captureThreadUnwind, h, audioFrames_setEvent, audioFrames_append, audioFrames]
  · refine ⟨rfl, ?_, ?_⟩
    · simp [captureThreadUnwind, h, SetEvent]
    · simp [captureThreadUnwind, h, audioFrames_setEvent]

theorem rtwq_put_frame (hr : Int) (sig : Signal) (item : WorkItem) (s : WASAPISource) :
    rtwq_put_waiting_work_item hr sig item s =
      { s with
        sampleReadyWaiting := (rtwq_put_waiting_work_item hr sig item s).sampleReadyWaiting
        restartWaiting := (rtwq_put_waiting_work_item hr sig item s).restartWaiting
        log := s.log ++ [Effect.putWaitingWorkItem sig item hr] } := by
  unfold rtwq_put_waiting_work_item
  split
  · rfl
  · cases item <;> rfl

/-- The restart check of `OnSampleReady` changes only `reconnectDuration`, the
restart event, the count of waiting restart items and the log, to which it
adds no frame. -/
theorem restartCheck_frame (p : Platform) (v : SampleReadyVars) :
    (restartCheck p v).s =
      { v.s with
        reconnectDuration := (restartCheck p v).s.reconnectDuration
        restartSignal := (restartCheck p v).s.restartSignal
        sampleReadyWaiting := (restartCheck p v).s.sampleReadyWaiting
        restartWaiting := (restartCheck p v).s.restartWaiting
        log := (restartCheck p v).s.log } ∧
    (restartCheck p v).s.sampleReadyWaiting = v.s.sampleReadyWaiting ∧
    audioFrames (restartCheck p v).s.log = audioFrames v.s.log := by
  unfold restartCheck
  split
  · dsimp only
    refine ⟨?_, ?_, ?_⟩
    · rw [rtwq_put_frame]
      rfl
    · unfold rtwq_put_waiting_work_item
      split <;> rfl
    · rw [rtwq_put_frame]
      simp [ResetEvent, audioFrames_append, audioFrames]
  · exact ⟨rfl, rfl, rfl⟩

/-- The checks of `OnSampleReady` with the stop event set: `stop` is set,
`reconnect` is cleared and the sample-ready item is not requeued. -/
theorem sampleReadyChecks_stop (p : Platform) (v : SampleReadyVars)
    (hs : v.s.stopSignal = true) :
    sampleReadyChecks p v = { stop := true, reconnect := false, s := (restartCheck p v).s } := by
  have h1 : (restartCheck p v).s.stopSignal = true := by
    rw [(restartCheck_frame p v).1]
    exact hs
  unfold sampleReadyChecks
  have e2 : stopCheck (restartCheck p v) =
      { stop := true, reconnect := false, s := (restartCheck p v).s } := by
    unfold stopCheck
    rw [if_pos h1]
  rw [e2]
  unfold requeueCheck
  rfl

/-- The teardown of `OnSampleReady` when the stop event is set and the client
is held: the client is stopped, the pair dropped and the idle event set; no
frame is added and the sample-ready item is not requeued. -/
theorem sampleReady_stop_unwind (p : Platform) (v : SampleReadyVars) (c : IAudioClient)
    (hs : v.s.stopSignal = true) (hc : v.s.client = some c) :
    ∃ s', sampleReadyUnwind (sampleReadyChecks p v) = Except.ok s' ∧
      audioFrames s'.log = audioFrames v.s.log ∧ s'.idleSignal = true ∧
      s'.client = none ∧ s'.capture = none ∧
      s'.reconnectSignal = v.s.reconnectSignal ∧
      s'.sampleReadyWaiting = v.s.sampleReadyWaiting := by
  obtain ⟨f1, f2, f3⟩ := restartCheck_frame p v
  have hcl : (restartCheck p v).s.client = some c := by
    rw [f1]
    exact hc
  have hrs : (restartCheck p v).s.reconnectSignal = v.s.reconnectSignal := by
    rw [f1]
  have e : sampleReadyUnwind { stop := true, reconnect := false, s := (restartCheck p v).s } =
      Except.ok (SetEvent Signal.idle
        { (restartCheck p v).s with
          log := (restartCheck p v).s.log ++ [Effect.clientStop]
          capture := none, client := none }) := by
    unfold sampleReadyUnwind
    dsimp only
    rw [hcl]
    rfl
  rw [sampleReadyChecks_stop p v hs, e]
  refine ⟨_, rfl, ?_, rfl, rfl, rfl, hrs, f2⟩
  rw [audioFrames_setEvent]
  simp [audioFrames_append, audioFrames, f3]

/-- C14 (counterexample): a session in the work-queue strategy that holds its
pair, with the stop event set and one packet of 480 frames pending.
`OnSampleReady` hands the packet to the sink before it looks at the stop
event; the capture thread, in the same state with the same packet pending,
hands the sink nothing. -/
theorem onSampleReady_delivers_after_stop :
    stoppedWhileCapturing.stopSignal = true ∧
    audioFrames stoppedWhileCapturing.log = [] ∧
    (∃ s', OnSampleReady nominalPlatform
        [{ captureSize := 480, frames := 480, ts := 7 }, { captureSize := 0 }]
        stoppedWhileCapturing = Except.ok s' ∧
      audioFrames s'.log =
        [{ frames := 480, speakers := 2, samples_per_sec := 48000, format := 4,
           timestamp := 700 }]) ∧
    (∃ t' s', CaptureThreadStep nominalPlatform
        [{ captureSize := 480, frames := 480, ts := 7 }, { captureSize := 0 }]
        { active := true }
        { stoppedWhileCapturing with
          rtwq_supported := false, captureThread := true, receiveSignal := true } =
        StepResult.next (t', s') ∧
      audioFrames s'.log = []) := by
  refine ⟨rfl, rfl, ⟨_, rfl, ?_⟩, ⟨_, _, rfl, ?_⟩⟩
  · decide
  · decide

/-- C14 (amended): a capture step that begins with the stop event set.
Capture thread: the iteration returns on the exit or the stop event, hands the
sink nothing, signals idle and leaves the thread waiting on its inactive set,
whatever data is pending.  `OnSampleReady` (client held): the callback first
makes its drain pass, so the sink receives what that pass fetches and nothing
more; it then stops the client, drops both interfaces and sets the idle event,
without requeueing its work item and without touching the reconnect event. -/
theorem stop_set_capture_step (p : Platform) (replies : List CaptureReply)
    (s : WASAPISource) (hstop : s.stopSignal = true) :
    (∀ t : CaptureThreadState, t.exit = false →
      ∃ s', CaptureThreadStep p replies t s =
          StepResult.next ({ active := false, exit := s.exitSignal }, s') ∧
        audioFrames s'.log = audioFrames s.log ∧ s'.idleSignal = true) ∧
    (∀ (c : IAudioClient) (s1 : WASAPISource) (b : Bool),
      s.client = some c → ProcessCaptureData s replies = Except.ok (s1, b) →
      ∃ s', OnSampleReady p replies s = Except.ok s' ∧
        audioFrames s'.log = audioFrames s1.log ∧ s'.idleSignal = true ∧
        s'.client = none ∧ s'.capture = none ∧
        s'.reconnectSignal = s.reconnectSignal ∧
        s'.sampleReadyWaiting = s.sampleReadyWaiting) := by
  refine ⟨?_, ?_⟩
  · intro t hte
    cases he : s.exitSignal with
    | true =>
      obtain ⟨u1, u2, u3⟩ := captureThreadUnwind_idle true s
      refine ⟨(captureThreadUnwind true true false s).2, ?_, u3, u2⟩
      rw [captureThreadStep_exit p replies t s hte he, ← u1]
    | false =>
      obtain ⟨u1, u2, u3⟩ := captureThreadUnwind_idle false s
      refine ⟨(captureThreadUnwind false true false s).2, ?_, u3, u2⟩
      rw [captureThreadStep_stop p replies t s hte he hstop, ← u1]
  · intro c s1 b hc hp
    have hk := pcd_kept replies s s1 b hp
    have hs1 : s1.stopSignal = true := by rw [hk]; exact hstop
    have hc1 : s1.client = some c := by rw [hk]; exact hc
    have hrs : s1.reconnectSignal = s.reconnectSignal := by rw [hk]
    have hw : s1.sampleReadyWaiting = s.sampleReadyWaiting := by rw [hk]
    have hon : ∀ v : SampleReadyVars,
        OnSampleReady p replies s =
          sampleReadyUnwind (sampleReadyChecks p
            (if !b then { stop := true, reconnect := true
                          s := { s1 with reconnectDuration := RECONNECT_INTERVAL } }
             else { stop := false, reconnect := false, s := s1 })) := by
      intro _
      unfold OnSampleReady
      rw [hp]
    rw [hon { stop := false, reconnect := false, s := s1 }]
    cases b with
    | true =>
      obtain ⟨s', k1, k2, k3, k4, k5, k6, k7⟩ :=
        sampleReady_stop_unwind p { stop := false, reconnect := false, s := s1 } c hs1 hc1
      exact ⟨s', k1, k2, k3, k4, k5, k6.trans hrs, k7.trans hw⟩
    | false =>
      obtain ⟨s', k1, k2, k3, k4, k5, k6, k7⟩ :=
        sampleReady_stop_unwind p
          { stop := true, reconnect := true
            s := { s1 with reconnectDuration := RECONNECT_INTERVAL } } c hs1 hc1
      exact ⟨s', k1, k2, k3, k4, k5, k6.trans hrs, k7.trans hw⟩

theorem stop_set_capture_step_witness :
    (∃ s', CaptureThreadStep nominalPlatform [{ captureSize := 0 }] { active := true }
        { stoppedWhileCapturing with rtwq_supported := false, captureThread := true } =
        StepResult.next ({ active := false, exit := false }, s') ∧
      audioFrames s'.log = [] ∧ s'.idleSignal = true) ∧
    (∃ s', OnSampleReady nominalPlatform [{ captureSize := 0 }] stoppedWhileCapturing =
        Except.ok s' ∧
      audioFrames s'.log = [] ∧ s'.idleSignal = true ∧ s'.client = none) :=
  match stop_set_capture_step nominalPlatform [{ captureSize := 0 }]
      { stoppedWhileCapturing with rtwq_supported := false, captureThread := true } rfl,
    stop_set_capture_step nominalPlatform [{ captureSize := 0 }] stoppedWhileCapturing rfl with
  | ⟨h1, _⟩, ⟨_, h2⟩ =>
    ⟨h1 { active := true } rfl,
     match h2 ⟨100⟩ stoppedWhileCapturing true rfl rfl with
     | ⟨s', k1, k2, k3, k4, _⟩ => ⟨s', k1, k2, k3, k4⟩⟩

/-! ## The reserved device id -/

theorem BuildUpdateParams_device_id (build : String → WindowStrings) (type : SourceType)
    (settings : obs_data) :
    (BuildUpdateParams build type settings).device_id = settings.device_id := by
  unfold BuildUpdateParams
  dsimp only
  split
  · split
    · rfl
    · split <;> split <;> split <;> rfl
  · rfl

theorem core_Update (build : String → WindowStrings) (settings : obs_data)
    (s : WASAPISource) : core (Update build settings s) = core s := by
  unfold Update
  dsimp only
  split <;> rfl

theorem core_SetDefaultDevice (flow : EDataFlow) (role : ERole) (id : Option String)
    (s : WASAPISource) : core (SetDefaultDevice flow role id s) = core s := by
  unfold SetDefaultDevice
  split
  · rfl
  · split
    · rfl
    · split <;> split <;> rfl

/-- A session on which no thread runs and the work queue is off keeps its
`Core`, but for the stop and exit events, whatever step is taken: the steps
that are left are calls from outside. -/
theorem idle_session_steps (x y : System) (h : Step x y)
    (hc : x.s.captureThread = false) (hr : x.s.reconnectThread = false)
    (hq : x.s.rtwq_supported = false) :
    { core y.s with stop := false, exit := false } =
      { core x.s with stop := false, exit := false } := by
  cases h with
  | captureThread p replies _ t' s' hg _ => rw [hc] at hg; cases hg
  | reconnectThread hr' _ e' s' hg _ => rw [hr] at hg; cases hg
  | startCapture p _ s' hg _ _ => rw [hq] at hg; cases hg
  | sampleReady p replies _ s' hg _ _ _ => rw [hq] at hg; cases hg
  | restart _ hg _ _ => rw [hq] at hg; cases hg
  | update build settings _ =>
    show { core (Update build settings x.s) with stop := false, exit := false } = _
    rw [core_Update]
  | defaultDevice flow role id _ =>
    show { core (SetDefaultDevice flow role id x.s) with stop := false, exit := false } = _
    rw [core_SetDefaultDevice]
  | stopCall sig _ hsig =>
    rcases hsig with h | h | h <;> subst h <;> rfl
  | dataReady _ => rfl

/-- C16: a session constructed with the device id `"does_not_exist"`.  The
constructor returns right after `UpdateSettings`: its log is empty (no event
or thread is created, no notification sink registered, nothing queued, `Start`
not called), no thread handle is valid and the work queue is off.  In every
state reached from it neither thread runs and the work queue stays off, so
the only steps that call `TryInitialize` (an iteration of the capture thread,
the dispatch of the start work item) are never enabled: no interface is ever
held, `previouslyFailed` is never written and none of the idle, init and
reconnect events is ever set.  `Stop` on any session whose device id is
`"does_not_exist"` returns the session as it is: nothing is set and no wait is
made. -/
theorem reserved_id_session_stays_idle (a : ConstructorAnswers)
    (build : String → WindowStrings) (settings : obs_data) (type : SourceType)
    (hid : settings.device_id = does_not_exist) :
    ∃ s, WASAPISource_constructor a build settings type = Except.ok s ∧
      s.log = [] ∧ s.reconnectThread = false ∧ s.captureThread = false ∧
      s.rtwq_supported = false ∧ s.notifyRegistered = false ∧
      s.startCaptureQueued = 0 ∧ s.sampleReadyWaiting = 0 ∧ s.restartWaiting = 0 ∧
      (∀ sys : System, Relation.ReflTransGen Step { s := s } sys →
        sys.s.captureThread = false ∧ sys.s.reconnectThread = false ∧
        sys.s.rtwq_supported = false ∧ sys.s.startCaptureQueued = 0 ∧
        sys.s.client = none ∧ sys.s.capture = none ∧ sys.s.previouslyFailed = false ∧
        sys.s.idleSignal = false ∧ sys.s.initSignal = false ∧
        sys.s.reconnectSignal = false) ∧
      (∀ x : WASAPISource, x.device_id = does_not_exist → Stop x = x) := by
  refine ⟨UpdateSettings (BuildUpdateParams build type settings)
    { sourceType := type
      activate_audio_interface_async := a.LoadLibrary && a.GetProcAddress }, ?_,
    rfl, rfl, rfl, rfl, rfl, rfl, rfl, rfl, ?_, ?_⟩
  · unfold WASAPISource_constructor
    dsimp only
    rw [if_pos]
    show (BuildUpdateParams build type settings).device_id = does_not_exist
    rw [BuildUpdateParams_device_id, hid]
  · intro sys hsys
    have key : { core sys.s with stop := false, exit := false } =
        { rtwq := false, captureThread := false, reconnectThread := false, stop := false,
          exit := false, idle := false, init := false, reconnect := false, queued := 0,
          client := none, capture := none, previouslyFailed := false } := by
      induction hsys with
      | refl => rfl
      | tail _ hstep ih =>
        have h1 := congrArg Core.captureThread ih
        have h2 := congrArg Core.reconnectThread ih
        have h3 := congrArg Core.rtwq ih
        exact (idle_session_steps _ _ hstep h1 h2 h3).trans ih
    exact ⟨congrArg Core.captureThread key, congrArg Core.reconnectThread key,
      congrArg Core.rtwq key, congrArg Core.queued key, congrArg Core.client key,
      congrArg Core.capture key, congrArg Core.previouslyFailed key,
      congrArg Core.idle key, congrArg Core.init key, congrArg Core.reconnect key⟩
  · intro x hx
    unfold Stop
    rw [if_pos hx]

theorem reserved_id_session_stays_idle_witness :
    ∃ s, WASAPISource_constructor {} noWindowStrings ⟨"does_not_exist", false, 0⟩
        SourceType.Input = Except.ok s ∧
      s.log = [] ∧ s.reconnectThread = false ∧ s.captureThread = false ∧ Stop s = s :=
  match reserved_id_session_stays_idle {} noWindowStrings ⟨"does_not_exist", false, 0⟩
      SourceType.Input rfl with
  | ⟨s, h1, h2, h3, h4, _, _, _, _, _, _, h11⟩ =>
    ⟨s, h1, h2, h3, h4,
     h11 s (by
       have e := congrArg (fun r => r.toOption.map WASAPISource.device_id) h1
       exact Option.some.inj e.symm)⟩

/-! ## Stop after a change of device -/

/-- C15 (the code at the failing input): an Input session constructed on the
default device with the work queue unavailable, so that the reconnect thread
and the capture thread both run, whose device id is then changed to
`"does_not_exist"` by `Update`.  `Stop` returns the session untouched: the stop
and exit events are not set and no wait is made, while both threads still
run; the destructor only unregisters the notification sink before it. -/
theorem stop_after_update_to_reserved_id :
    ∃ s0, WASAPISource_constructor { rtwq_module := false } noWindowStrings
        ⟨"default", false, 0⟩ SourceType.Input = Except.ok s0 ∧
      s0.reconnectThread = true ∧ s0.captureThread = true ∧ s0.rtwq_supported = false ∧
      (Update noWindowStrings ⟨"does_not_exist", false, 0⟩ s0).reconnectThread = true ∧
      (Update noWindowStrings ⟨"does_not_exist", false, 0⟩ s0).captureThread = true ∧
      Stop (Update noWindowStrings ⟨"does_not_exist", false, 0⟩ s0) =
        Update noWindowStrings ⟨"does_not_exist", false, 0⟩ s0 ∧
      (Stop (Update noWindowStrings ⟨"does_not_exist", false, 0⟩ s0)).stopSignal = false ∧
      (Stop (Update noWindowStrings ⟨"does_not_exist", false, 0⟩ s0)).exitSignal = false ∧
      Destroy (Update noWindowStrings ⟨"does_not_exist", false, 0⟩ s0) =
        { Update noWindowStrings ⟨"does_not_exist", false, 0⟩ s0 with
          log := (Update noWindowStrings ⟨"does_not_exist", false, 0⟩ s0).log ++
            [Effect.unregisterNotify] } := by
  refine ⟨_, rfl, rfl, rfl, rfl, rfl, ?_, rfl, rfl, ?_⟩
  · decide
  · decide

/-! ## Callbacks without a pair -/

/-- C19 (the code at the failing input): an Input session on the default
device in the work-queue strategy.  Its first initialization attempt acquires
both interfaces and queues the sample-ready item; queueing the restart item
fails, so `Initialize` drops both interfaces and throws, and `OnStartCapture`
signals reconnect.  The sample-ready item stays on the queue.  `Stop` then sets
the stop event and the receive event: the item is dispatched, and
`OnSampleReady` calls `ProcessCaptureData` with a null capture interface,
whatever the platform answers. -/
theorem stale_sample_ready_item_null_deref :
    ∃ s0 s1, WASAPISource_constructor {} noWindowStrings ⟨"default", false, 0⟩
        SourceType.Input = Except.ok s0 ∧
      s0.rtwq_supported = true ∧ s0.startCaptureQueued = 1 ∧
      OnStartCapture halfQueuedPlatform
        { s0 with startCaptureQueued := s0.startCaptureQueued - 1 } = Except.ok s1 ∧
      s1.client = none ∧ s1.capture = none ∧ s1.sampleReadyWaiting = 1 ∧
      s1.reconnectSignal = true ∧
      Reachable { s := SetEvent Signal.receive (SetEvent Signal.stop s1) } ∧
      (SetEvent Signal.receive (SetEvent Signal.stop s1)).rtwq_supported = true ∧
      0 < (SetEvent Signal.receive (SetEvent Signal.stop s1)).sampleReadyWaiting ∧
      (SetEvent Signal.receive (SetEvent Signal.stop s1)).receiveSignal = true ∧
      ∀ (p : Platform) (r : CaptureReply) (rest : List CaptureReply),
        OnSampleReady p (r :: rest)
          { SetEvent Signal.receive (SetEvent Signal.stop s1) with
            sampleReadyWaiting :=
              (SetEvent Signal.receive (SetEvent Signal.stop s1)).sampleReadyWaiting - 1
            receiveSignal := false } = Except.error Fault.nullDeref := by
  refine ⟨_, _, rfl, rfl, rfl, rfl, rfl, rfl, rfl, rfl, ?_, rfl, by decide, rfl, ?_⟩
  · exact Reachable.step _ _
      (Reachable.step _ _
        (Reachable.step _ _
          (Reachable.constructed {} noWindowStrings ⟨"default", false, 0⟩
            SourceType.Input _ rfl)
          (Step.startCapture halfQueuedPlatform _ _ rfl (by decide) rfl))
        (Step.stopCall Signal.stop _ (Or.inl rfl)))
      (Step.stopCall Signal.receive _ (Or.inr (Or.inl rfl)))
  · intro p r rest
    rfl

/-! ## The ownership invariant -/

theorem inv_stop (c : Core) (t : CaptureThreadState) (h : Inv c t) :
    Inv { c with stop := true } t := by
  obtain ⟨h1, h2, h3, h4, h5, h6, h7, h8, h9⟩ := h
  refine ⟨h1, h2, h3, h4, h5, ?_, h7, h8, h9⟩
  intro a b
  exact ⟨(h6 a b).1, Or.inl rfl⟩

theorem inv_exit (c : Core) (t : CaptureThreadState) (h : Inv c t) :
    Inv { c with exit := true } t := by
  obtain ⟨h1, h2, h3, h4, h5, h6, h7, h8, h9⟩ := h
  refine ⟨h1, h2, h3, h4, h5, ?_, h7, h8, h9⟩
  intro a b
  exact ⟨(h6 a b).1, Or.inr rfl⟩

theorem inv_unwind_idle (c : Core) (t : CaptureThreadState) (e : Bool) (h : Inv c t)
    (hr : c.rtwq = false) (hs : c.stop = true ∨ c.exit = true) :
    Inv { c with client := none, capture := none, idle := true }
      { active := false, exit := e } := by
  obtain ⟨h1, h2, h3, h4, h5, h6, h7, h8, h9⟩ := h
  constructor <;> simp_all

theorem inv_unwind_reconnect (c : Core) (t : CaptureThreadState) (h : Inv c t)
    (hr : c.rtwq = false) (hi : c.init = false) :
    Inv { c with client := none, capture := none, reconnect := true }
      { active := false, exit := false } := by
  obtain ⟨h1, h2, h3, h4, h5, h6, h7, h8, h9⟩ := h
  constructor <;> simp_all

theorem inv_init_ok (c : Core) (t : CaptureThreadState) (cl : Option IAudioClient)
    (cp : Option IAudioCaptureClient) (pf : Bool) (h : Inv c t)
    (hr : c.rtwq = false) (hs : c.stop = false) (he : c.exit = false)
    (hi : c.init = true) (hcl : cl.isSome = true) (hcp : cp.isSome = true) :
    Inv { c with init := false, client := cl, capture := cp, previouslyFailed := pf }
      { t with active := true } := by
  obtain ⟨h1, h2, h3, h4, h5, h6, h7, h8, h9⟩ := h
  constructor <;> simp_all

theorem inv_init_fail (c : Core) (t : CaptureThreadState) (pf : Bool) (h : Inv c t)
    (hr : c.rtwq = false) (hta : t.active = false) :
    Inv { c with init := false, client := none, capture := none, previouslyFailed := pf }
      t := by
  obtain ⟨h1, h2, h3, h4, h5, h6, h7, h8, h9⟩ := h
  constructor <;> simp_all

theorem inv_start (c : Core) (t : CaptureThreadState) (n : Nat) (h : Inv c t)
    (hrec : c.reconnect = true) (hn : n ≤ 1) :
    Inv (if c.rtwq then { c with reconnect := false, queued := c.queued + n }
         else { c with reconnect := false, init := true }) t := by
  obtain ⟨h1, h2, h3, h4, h5, h6, h7, h8, h9⟩ := h
  cases hr : c.rtwq with
  | true =>
    have hq : c.queued = 0 := by
      rcases Nat.eq_zero_or_pos c.queued with h0 | h0
      · exact h0
      · have := (h7 hr h0).2.2.1
        rw [hrec] at this
        cases this
    have h8' := h8 hr hrec
    constructor <;> simp_all
    omega
  | false =>
    have ha : t.active = false := by
      cases hta : t.active with
      | false => rfl
      | true =>
        have := (h4 hr hta).2.2
        rw [hrec] at this
        cases this
    constructor <;> simp_all

theorem inv_dequeue_idle (c : Core) (t : CaptureThreadState) (h : Inv c t)
    (hr : c.rtwq = true) (hq : 0 < c.queued) :
    Inv { c with queued := c.queued - 1, idle := true } t := by
  obtain ⟨h1, h2, h3, h4, h5, h6, h7, h8, h9⟩ := h
  have h7' := h7 hr hq
  constructor <;> simp_all

theorem inv_dequeue_ok (c : Core) (t : CaptureThreadState) (cl : Option IAudioClient)
    (cp : Option IAudioCaptureClient) (pf : Bool) (h : Inv c t)
    (hr : c.rtwq = true) (hq : 0 < c.queued)
    (hcl : cl.isSome = true) (hcp : cp.isSome = true) :
    Inv { c with queued := c.queued - 1, client := cl, capture := cp,
                 previouslyFailed := pf } t := by
  obtain ⟨h1, h2, h3, h4, h5, h6, h7, h8, h9⟩ := h
  have h7' := h7 hr hq
  constructor <;> simp_all

theorem inv_dequeue_fail (c : Core) (t : CaptureThreadState) (pf : Bool) (h : Inv c t)
    (hr : c.rtwq = true) (hq : 0 < c.queued) :
    Inv { c with queued := c.queued - 1, client := none, capture := none,
                 previouslyFailed := pf, reconnect := true } t := by
  obtain ⟨h1, h2, h3, h4, h5, h6, h7, h8, h9⟩ := h
  have h7' := h7 hr hq
  constructor <;> simp_all

theorem inv_teardown (c : Core) (t : CaptureThreadState) (r : Bool) (h : Inv c t)
    (hr : c.rtwq = true) (hcl : c.client.isSome = true) :
    Inv (if r then { c with client := none, capture := none, reconnect := true }
         else { c with client := none, capture := none, idle := true }) t := by
  obtain ⟨h1, h2, h3, h4, h5, h6, h7, h8, h9⟩ := h
  have hne : c.client ≠ none := by
    intro h0
    rw [h0] at hcl
    cases hcl
  have hq : c.queued = 0 := by
    rcases Nat.eq_zero_or_pos c.queued with h0 | h0
    · exact h0
    · exact absurd (h7 hr h0).2.1 hne
  have hrec : c.reconnect = false := by
    cases hx : c.reconnect with
    | false => rfl
    | true => exact absurd (h8 hr hx).1 hne
  have hidle : c.idle = false := by
    cases hx : c.idle with
    | false => rfl
    | true => exact absurd (h9 hr hx) hne
  cases r <;> constructor <;> simp_all

theorem core_pcd (replies : List CaptureReply) (s s1 : WASAPISource) (b : Bool)
    (h : ProcessCaptureData s replies = Except.ok (s1, b)) : core s1 = core s := by
  rw [pcd_kept replies s s1 b h]
  rfl

theorem core_resolveTarget (p : Platform) (s : WASAPISource) :
    core (resolveTarget p s).refs = core s := by
  unfold resolveTarget
  dsimp only
  split_ifs
  · rfl
  · rfl
  · rfl
  · rfl
  · rfl
  · split <;> rfl

theorem core_rtwq_put (hr : Int) (sig : Signal) (item : WorkItem) (s : WASAPISource) :
    core (rtwq_put_waiting_work_item hr sig item s) = core s := by
  rw [rtwq_put_frame]
  rfl

theorem core_queueWaitingItems (p : Platform) (s : WASAPISource) :
    core (queueWaitingItems p s).1 =
      { core s with client := (queueWaitingItems p s).1.client
                    capture := (queueWaitingItems p s).1.capture } := by
  have hp : ∀ (hr : Int) (sig : Signal) (item : WorkItem) (y : WASAPISource),
      { core (rtwq_put_waiting_work_item hr sig item y) with
        client := none, capture := none } =
      { core y with client := none, capture := none } := by
    intro hr sig item y
    rw [core_rtwq_put]
  unfold queueWaitingItems
  split
  · split
    · exact hp _ _ _ _
    · split
      · exact (hp _ _ _ _).trans (hp _ _ _ _)
      · dsimp only
        rw [← core_rtwq_put p.putWaitingSampleReady Signal.receive WorkItem.sampleReady s,
          ← core_rtwq_put p.putWaitingRestart Signal.restart WorkItem.restart
            (rtwq_put_waiting_work_item p.putWaitingSampleReady Signal.receive
              WorkItem.sampleReady s)]
        rfl
  · rfl

theorem core_queueWaitingItems_result (p : Platform) (x s' : WASAPISource)
    (e : Option Thrown) (hx : queueWaitingItems p x = (s', e)) :
    core s' = { core x with client := s'.client, capture := s'.capture } := by
  have k := core_queueWaitingItems p x
  rw [hx] at k
  exact k

/-- An initialization attempt changes nothing of the `Core` but the pair. -/
theorem core_Initialize (p : Platform) (s s' : WASAPISource) (e : Option Thrown)
    (h : Initialize p s = Except.ok (s', e)) :
    core s' = { core s with client := s'.client, capture := s'.capture } := by
  have r1 := core_resolveTarget p s
  unfold Initialize at h
  simp only [] at h
  split at h
  · injection h with h
    injection h with h1 h2
    subst h1 h2
    rw [← r1]
    rfl
  · split at h
    · simp at h
    · split at h
      · injection h with h
        injection h with h1 h2
        subst h1 h2
        rw [← r1]
        rfl
      · split at h
        · simp at h
        · injection h with h
          injection h with h1 h2
          subst h1 h2
          rw [← r1]
          rfl
        · split at h
          · injection h with h
            injection h with h1 h2
            subst h1 h2
            rw [← r1]
            rfl
          · injection h with h
            rw [core_queueWaitingItems_result p _ s' e h, ← r1]
            rfl

theorem core_TryInitialize (p : Platform) (s s1 : WASAPISource) (b : Bool)
    (h : TryInitialize p s = Except.ok (s1, b)) :
    core s1 =
      { core s with client := s1.client, capture := s1.capture, previouslyFailed := !b } := by
  obtain ⟨s0, e, hi, _, hs⟩ := TryInitialize_result p s s1 b h
  have k := core_Initialize p s s0 e hi
  rw [hs]
  show { core s0 with previouslyFailed := !b } = _
  rw [k]

/-- A completed attempt holds both interfaces. -/
theorem TryInitialize_ok_pair (p : Platform) (s s1 : WASAPISource)
    (h : TryInitialize p s = Except.ok (s1, true)) :
    s1.client.isSome = true ∧ s1.capture.isSome = true := by
  obtain ⟨s0, e, hi, hb, hs⟩ := TryInitialize_result p s s1 true h
  have he : e = none := by
    cases e with
    | none => rfl
    | some x => simp at hb
  obtain ⟨_, k, _⟩ := Initialize_kept p s s0 e hi
  rw [hs]
  exact k he

theorem core_unwind_idle (e : Bool) (x : WASAPISource)
    (hp : x.client = none → x.capture = none) :
    (captureThreadUnwind e true false x).1 = { active := false, exit := e } ∧
    core (captureThreadUnwind e true false x).2 =
      { core x with client := none, capture := none, idle := true } := by
  refine ⟨rfl, ?_⟩
  cases hcl : x.client with
  | none =>
    have hcap := hp hcl
    simp [captureThreadUnwind, hcl, core, SetEvent, hcap]
  | some c => simp [captureThreadUnwind, hcl, core, SetEvent]

theorem core_unwind_reconnect (x : WASAPISource)
    (hp : x.client = none → x.capture = none) :
    (captureThreadUnwind false false true x).1 = { active := false, exit := false } ∧
    core (captureThreadUnwind false false true x).2 =
      { core x with client := none, capture := none, reconnect := true } := by
  refine ⟨rfl, ?_⟩
  cases hcl : x.client with
  | none =>
    have hcap := hp hcl
    simp [captureThreadUnwind, hcl, core, SetEvent, hcap]
  | some c => simp [captureThreadUnwind, hcl, core, SetEvent]

/-- What a wait of the capture thread that returns tells about the events:
`a` is whether the thread waits on its active set. -/
theorem wait_capture (a f : Bool) (s s0 : WASAPISource) (ret : WaitResult)
    (hf : a = false → f = false)
    (h : WaitForMultipleObjects (if a then active_sigs else inactive_sigs) f s =
      some (ret, s0)) :
    (ret = WaitResult.object 0 → s0 = s ∧ s.exitSignal = true) ∧
    (ret = WaitResult.object 1 → s0 = s ∧ s.stopSignal = true) ∧
    (ret ≠ WaitResult.object 0 → ret ≠ WaitResult.object 1 →
      s.exitSignal = false ∧ s.stopSignal = false ∧
      (a = true → core s0 = core s) ∧
      (a = false → ret = WaitResult.object 2 ∧ s.initSignal = true ∧
        s0 = { s with initSignal := false })) := by
  cases a with
  | false =>
    have hf' := hf rfl
    subst hf'
    cases he : s.exitSignal <;> cases hs : s.stopSignal <;> cases hi : s.initSignal <;>
      simp [WaitForMultipleObjects, inactive_sigs, firstSignalled, signalled, consume,
        he, hs, hi] at h <;>
      obtain ⟨h1, h2⟩ := h <;> subst h1 <;> subst h2 <;> simp [he, hs, hi]
  | true =>
    cases he : s.exitSignal <;> cases hs : s.stopSignal <;> cases hrc : s.receiveSignal <;>
      cases hrs : s.restartSignal <;> cases f <;>
      simp [WaitForMultipleObjects, active_sigs, firstSignalled, signalled, consume,
        he, hs, hrc, hrs] at h <;>
      obtain ⟨h1, h2⟩ := h <;> subst h1 <;> subst h2 <;> simp [he, hs, core]

/-- An iteration of the capture thread keeps the ownership invariant. -/
theorem captureThread_inv (p : Platform) (replies : List CaptureReply)
    (t t' : CaptureThreadState) (s s' : WASAPISource) (hinv : Inv (core s) t)
    (hct : s.captureThread = true)
    (h : CaptureThreadStep p replies t s = StepResult.next (t', s')) :
    Inv (core s') t' := by
  have hrq : (core s).rtwq = false := hinv.strategy hct
  have hpair : s.client = none → s.capture = none := by
    intro hc
    rcases hinv.pair with h1 | h1
    · exact h1.2
    · have := h1.1
      rw [show (core s).client = s.client from rfl, hc] at this
      cases this
  unfold CaptureThreadStep at h
  split at h
  · cases h
  · simp only [] at h
    split at h
    · cases h
    · rename_i ret s0 hw
      have hf : t.active = false →
          (t.active && decide (s.sourceType ≠ SourceType.Input)) = false := by
        intro ha
        rw [ha]
        rfl
      obtain ⟨w0, w1, w2⟩ := wait_capture t.active _ s s0 ret hf hw
      split at h
      · rename_i hret
        obtain ⟨e0, hex⟩ := w0 hret
        subst e0
        injection h with h
        obtain ⟨u1, u2⟩ := core_unwind_idle true s0 hpair
        have ht : t' = { active := false, exit := true } := by rw [← u1, h]
        have hs : core s' = { core s0 with client := none, capture := none, idle := true } := by
          rw [← u2, h]
        rw [ht, hs]
        exact inv_unwind_idle _ t true hinv hrq (Or.inr hex)
      · split at h
        · rename_i hret
          obtain ⟨e0, hst⟩ := w1 hret
          subst e0
          injection h with h
          obtain ⟨u1, u2⟩ := core_unwind_idle false s0 hpair
          have ht : t' = { active := false, exit := false } := by rw [← u1, h]
          have hs : core s' =
              { core s0 with client := none, capture := none, idle := true } := by
            rw [← u2, h]
          rw [ht, hs]
          exact inv_unwind_idle _ t false hinv hrq (Or.inl hst)
        · rename_i hn0 hn1
          obtain ⟨hex, hst, wa, wi⟩ := w2 hn0 hn1
          split at h
          · split at h
            · rename_i hta
              have hta : t.active = false := by simpa using hta
              obtain ⟨_, hin, e0⟩ := wi hta
              subst e0
              split at h
              · cases h
              · rename_i s1 hti
                injection h with h
                injection h with h1 h2
                subst h1 h2
                obtain ⟨k1, k2⟩ := TryInitialize_ok_pair p _ _ hti
                rw [core_TryInitialize p _ _ true hti]
                exact inv_init_ok (core s) t _ _ _ hinv hrq hst hex hin k1 k2
              · rename_i s1 hti
                injection h with h
                have hcl : s.client = none := hinv.inactive hrq hta
                obtain ⟨k1, k2⟩ := TryInitialize_failed_pair p _ _ hti hcl (hpair hcl)
                obtain ⟨u1, u2⟩ := core_unwind_reconnect
                  { s1 with reconnectDuration := RECONNECT_INTERVAL } (fun _ => k2)
                have ht : t' = { active := false, exit := false } := by rw [← u1, h]
                have hs : core s' =
                    { core { s1 with reconnectDuration := RECONNECT_INTERVAL } with
                      client := none, capture := none, reconnect := true } := by
                  rw [← u2, h]
                have hc1 : core { s1 with reconnectDuration := RECONNECT_INTERVAL } =
                    { core s with init := false, client := none, capture := none,
                                  previouslyFailed := true } := by
                  show core s1 = _
                  rw [core_TryInitialize p _ _ false hti, k1, k2]
                  rfl
                rw [ht, hs, hc1]
                exact inv_unwind_reconnect _ t (inv_init_fail (core s) t true hinv hrq hta)
                  hrq rfl
            · rename_i hta
              have hta : t.active = true := by simpa using hta
              have hc0 := wa hta
              split at h
              · cases h
              · rename_i s1 hp
                injection h with h
                injection h with h1 h2
                subst h1 h2
                rw [core_pcd replies _ _ _ hp, hc0]
                exact hinv
              · rename_i s1 hp
                injection h with h
                have hc1 : core { s1 with reconnectDuration := RECONNECT_INTERVAL } = core s :=
                  (core_pcd replies _ _ _ hp).trans hc0
                have hp1 : ({ s1 with reconnectDuration := RECONNECT_INTERVAL } :
                    WASAPISource).client = none →
                    ({ s1 with reconnectDuration := RECONNECT_INTERVAL } :
                      WASAPISource).capture = none := by
                  intro hc
                  have e1 := congrArg Core.client hc1
                  have e2 := congrArg Core.capture hc1
                  exact e2.trans (hpair (e1.symm.trans hc))
                obtain ⟨u1, u2⟩ := core_unwind_reconnect _ hp1
                have ht : t' = { active := false, exit := false } := by rw [← u1, h]
                have hs : core s' =
                    { core { s1 with reconnectDuration := RECONNECT_INTERVAL } with
                      client := none, capture := none, reconnect := true } := by
                  rw [← u2, h]
                rw [ht, hs, hc1]
                exact inv_unwind_reconnect _ t hinv hrq (hinv.active hrq hta).2.1
          · rename_i hn2
            have hta : t.active = true := by
              cases hx : t.active with
              | true => rfl
              | false => exact absurd (Or.inl (wi hx).1) hn2
            have hc0 := wa hta
            injection h with h
            have hc1 : core (ResetEvent Signal.restart { s0 with reconnectDuration := 0 }) =
                core s := hc0
            have hp1 : (ResetEvent Signal.restart { s0 with reconnectDuration := 0 }).client =
                none →
                (ResetEvent Signal.restart { s0 with reconnectDuration := 0 }).capture =
                  none := by
              intro hc
              have e1 := congrArg Core.client hc1
              have e2 := congrArg Core.capture hc1
              exact e2.trans (hpair (e1.symm.trans hc))
            obtain ⟨u1, u2⟩ := core_unwind_reconnect _ hp1
            have ht : t' = { active := false, exit := false } := by rw [← u1, h]
            have hs : core s' =
                { core (ResetEvent Signal.restart { s0 with reconnectDuration := 0 }) with
                  client := none, capture := none, reconnect := true } := by
              rw [← u2, h]
            rw [ht, hs, hc1]
            exact inv_unwind_reconnect _ t hinv hrq (hinv.active hrq hta).2.1

theorem inv_started (c : Core) (n : Nat) (hn : n ≤ 1) (hcl : c.client = none)
    (hcap : c.capture = none) (hidle : c.idle = false) (hrec : c.reconnect = false)
    (hq : c.queued = 0) (hs : c.captureThread = true → c.rtwq = false) :
    Inv (if c.rtwq then { c with queued := c.queued + n } else { c with init := true })
      {} := by
  cases hr : c.rtwq with
  | true =>
    constructor <;> simp_all
    omega
  | false => constructor <;> simp_all

theorem core_Start (hr : Int) (y : WASAPISource) :
    core (Start hr y) =
      if (core y).rtwq then
        { core y with queued := (core y).queued + (if FAILED hr then 0 else 1) }
      else { core y with init := true } := by
  by_cases hx : y.rtwq_supported = true
  · have hx' : (core y).rtwq = true := hx
    rw [if_pos hx']
    unfold Start
    rw [if_pos hx]
    dsimp only
    by_cases hf : FAILED hr = true
    · rw [if_pos hf, if_pos hf]
      rfl
    · rw [if_neg hf, if_neg hf]
      rfl
  · have hx' : ¬ (core y).rtwq = true := hx
    rw [if_neg hx']
    unfold Start
    rw [if_neg hx]
    rfl

theorem core_reconnectWait (s : WASAPISource) : core (reconnectWait s) = core s := by
  rw [reconnectWait_frame]
  rfl

theorem wait_reconnect_cases (s s0 : WASAPISource) (ret : WaitResult)
    (h : WaitForMultipleObjects [Signal.exit, Signal.reconnect] false s = some (ret, s0)) :
    (ret = WaitResult.object 0 ∧ s0 = s) ∨
    (ret ≠ WaitResult.object 0 ∧ s.reconnectSignal = true ∧
      s0 = { s with reconnectSignal := false }) := by
  cases he : s.exitSignal <;> cases hr : s.reconnectSignal <;>
    simp [WaitForMultipleObjects, firstSignalled, signalled, consume, he, hr] at h <;>
    obtain ⟨h1, h2⟩ := h <;> subst h1 <;> subst h2 <;> simp

/-- An iteration of the reconnect thread keeps the ownership invariant. -/
theorem reconnectThread_inv (hr : Int) (e e' : Bool) (t : CaptureThreadState)
    (s s' : WASAPISource) (hinv : Inv (core s) t)
    (h : ReconnectThreadStep hr e s = StepResult.next (e', s')) :
    Inv (core s') t := by
  unfold ReconnectThreadStep at h
  split at h
  · cases h
  · split at h
    · cases h
    · rename_i ret s0 hw
      rcases wait_reconnect_cases s s0 ret hw with ⟨h1, h2⟩ | ⟨h1, h2, h3⟩
      · rw [if_pos h1] at h
        injection h with h
        injection h with _ h
        rw [← h, h2]
        exact hinv
      · rw [if_neg h1] at h
        injection h with h
        injection h with _ h
        rw [← h, core_Start, core_reconnectWait, h3]
        exact inv_start (core s) t _ hinv h2 (by split <;> decide)

/-- The dispatch of the start work item keeps the ownership invariant. -/
theorem onStartCapture_inv (p : Platform) (t : CaptureThreadState)
    (s s' : WASAPISource) (hinv : Inv (core s) t)
    (hr : s.rtwq_supported = true) (hq : 0 < s.startCaptureQueued)
    (h : OnStartCapture p { s with startCaptureQueued := s.startCaptureQueued - 1 } =
      Except.ok s') :
    Inv (core s') t := by
  have hq7 := hinv.q_queued hr hq
  have hcl : s.client = none := hq7.2.1
  have hcap : s.capture = none := by
    rcases hinv.pair with h1 | h1
    · exact h1.2
    · have := h1.1
      rw [show (core s).client = s.client from rfl, hcl] at this
      cases this
  unfold OnStartCapture at h
  split at h
  · injection h with h
    rw [← h]
    exact inv_dequeue_idle (core s) t hinv hr hq
  · split at h
    · cases h
    · rename_i s1 hti
      injection h with h
      subst h
      obtain ⟨k1, k2⟩ := TryInitialize_ok_pair p _ _ hti
      rw [core_TryInitialize p _ _ true hti]
      exact inv_dequeue_ok (core s) t _ _ _ hinv hr hq k1 k2
    · rename_i s1 hti
      injection h with h
      obtain ⟨k1, k2⟩ := TryInitialize_failed_pair p _ _ hti hcl hcap
      have hc1 : core s' =
          { core s with queued := (core s).queued - 1, client := none, capture := none,
                        previouslyFailed := true, reconnect := true } := by
        rw [← h]
        show { core s1 with reconnect := true } = _
        rw [core_TryInitialize p _ _ false hti, k1, k2]
        rfl
      rw [hc1]
      exact inv_dequeue_fail (core s) t true hinv hr hq

theorem core_sampleReadyChecks (p : Platform) (v : SampleReadyVars) :
    core (sampleReadyChecks p v).s = core v.s := by
  have h1 : core (restartCheck p v).s = core v.s := by
    rw [(restartCheck_frame p v).1]
    rfl
  have h2 : ∀ w : SampleReadyVars, core (stopCheck w).s = core w.s := by
    intro w
    unfold stopCheck
    split <;> rfl
  have h3 : ∀ w : SampleReadyVars, core (requeueCheck p w).s = core w.s := by
    intro w
    unfold requeueCheck
    split
    · dsimp only
      split
      · exact core_rtwq_put _ _ _ _
      · exact core_rtwq_put _ _ _ _
    · rfl
  unfold sampleReadyChecks
  rw [h3, h2, h1]

theorem sampleReadyUnwind_cases (v : SampleReadyVars) (s' : WASAPISource)
    (h : sampleReadyUnwind v = Except.ok s') :
    s' = v.s ∨
    (v.s.client.isSome = true ∧
      core s' =
        if v.reconnect then
          { core v.s with client := none, capture := none, reconnect := true }
        else { core v.s with client := none, capture := none, idle := true }) := by
  unfold sampleReadyUnwind at h
  split at h
  · split at h
    · cases h
    · rename_i c hc
      refine Or.inr ⟨by rw [hc]; rfl, ?_⟩
      dsimp only at h
      split at h
      · rename_i hrec
        injection h with h
        rw [if_pos hrec, ← h]
        rfl
      · rename_i hrec
        injection h with h
        rw [if_neg hrec, ← h]
        rfl
  · injection h with h
    exact Or.inl h.symm

/-- The dispatch of the sample-ready work item keeps the ownership
invariant. -/
theorem onSampleReady_inv (p : Platform) (replies : List CaptureReply)
    (t : CaptureThreadState) (s x s' : WASAPISource) (hinv : Inv (core s) t)
    (hr : s.rtwq_supported = true) (hx : core x = core s)
    (h : OnSampleReady p replies x = Except.ok s') :
    Inv (core s') t := by
  unfold OnSampleReady at h
  split at h
  · cases h
  · rename_i s1 drained hp
    dsimp only at h
    have hc1 : core s1 = core s := (core_pcd replies _ _ _ hp).trans hx
    have hv : ∀ v : SampleReadyVars, core v.s = core s →
        sampleReadyUnwind (sampleReadyChecks p v) = Except.ok s' → Inv (core s') t := by
      intro v hv hu
      have hk : core (sampleReadyChecks p v).s = core s :=
        (core_sampleReadyChecks p v).trans hv
      rcases sampleReadyUnwind_cases _ _ hu with h1 | ⟨h1, h2⟩
      · rw [h1, hk]
        exact hinv
      · rw [h2, hk]
        have hcl : (core s).client.isSome = true := by
          rw [← hk]
          exact h1
        exact inv_teardown (core s) t _ hinv hr hcl
    cases drained with
    | true => exact hv _ hc1 h
    | false => exact hv _ hc1 h

theorem createEvents_core (a : ConstructorAnswers) (l : List (Signal × String)) :
    ∀ s s2 : WASAPISource, createEvents a s l = Except.ok s2 → core s2 = core s := by
  induction l with
  | nil =>
    intro s s2 h
    injection h with h
    rw [h]
  | cons x rest ih =>
    intro s s2 h
    obtain ⟨sig, msg⟩ := x
    unfold createEvents at h
    split at h
    · have k := ih _ _ h
      exact k
    · cases h

/-- The session as constructed satisfies the ownership invariant. -/
theorem constructor_inv (a : ConstructorAnswers) (build : String → WindowStrings)
    (settings : obs_data) (type : SourceType) (s : WASAPISource)
    (h : WASAPISource_constructor a build settings type = Except.ok s) :
    Inv (core s) {} := by
  unfold WASAPISource_constructor at h
  dsimp only at h
  split at h
  · injection h with h
    rw [← h]
    constructor <;> simp [core, UpdateSettings]
  · split at h
    · cases h
    · rename_i s2 hs2
      have hc2 := createEvents_core a _ _ _ hs2
      have e1 : s2.client = none := congrArg Core.client hc2
      have e2 : s2.capture = none := congrArg Core.capture hc2
      have e3 : s2.idleSignal = false := congrArg Core.idle hc2
      have e4 : s2.reconnectSignal = false := congrArg Core.reconnect hc2
      have e5 : s2.startCaptureQueued = 0 := congrArg Core.queued hc2
      split at h
      · cases h
      · split at h
        · cases h
        · split at h
          · cases h
          · split at h
            · cases h
            · split at h
              · rename_i hrt
                split at h
                · cases h
                · injection h with h
                  rw [← h, core_Start]
                  refine inv_started _ _ (by split <;> decide) e1 e2 e3 e4 e5 ?_
                  intro _
                  simpa using hrt
              · rename_i hrt
                injection h with h
                rw [← h, core_Start]
                refine inv_started _ _ (by split <;> decide) e1 e2 e3 e4 e5 ?_
                intro hct
                have hct2 : s2.captureThread = true := hct
                have hct3 : s2.captureThread = false := congrArg Core.captureThread hc2
                rw [hct3] at hct2
                cases hct2

/-- Every reachable state satisfies the ownership invariant. -/
theorem reachable_inv (sys : System) (h : Reachable sys) : Inv (core sys.s) sys.t := by
  induction h with
  | constructed a build settings type s hs => exact constructor_inv a build settings type s hs
  | step x y _ hstep ih =>
    cases hstep with
    | captureThread p replies _ t' s' hg hs => exact captureThread_inv p replies _ _ _ _ ih hg hs
    | reconnectThread hr _ e' s' _ hs => exact reconnectThread_inv hr _ _ _ _ _ ih hs
    | startCapture p _ s' hg hq hs => exact onStartCapture_inv p _ _ _ ih hg hq hs
    | sampleReady p replies _ s' hg _ _ hs =>
      refine onSampleReady_inv p replies _ x.s _ _ ih hg ?_ hs
      rfl
    | restart _ _ _ _ => exact ih
    | update build settings _ =>
      show Inv (core (Update build settings x.s)) x.t
      rw [core_Update]
      exact ih
    | defaultDevice flow role id _ =>
      show Inv (core (SetDefaultDevice flow role id x.s)) x.t
      rw [core_SetDefaultDevice]
      exact ih
    | stopCall sig _ hsig =>
      rcases hsig with h | h | h
      · subst h
        exact inv_stop _ _ ih
      · subst h
        exact ih
      · subst h
        exact inv_exit _ _ ih
    | dataReady _ => exact ih

/-- C13: in every state a constructed session reaches by steps of its capture
thread, its reconnect thread, its work-queue callbacks (`OnStartCapture`,
`OnSampleReady`, `OnRestart`) and calls from outside, (1) the client and the
capture interface are both absent or both held; (2) neither is held in the
states from which `TryInitialize`, and so `Initialize`, is called: the capture
thread waiting on its inactive set, and the work-queue strategy with a start
work item queued; (3) neither is held when the idle event or the reconnect
event is set; (4) both are held while the capture thread waits on its active
set, the only state in which it drains.  A step is an iteration or a callback
that returns: one that dereferences a null interface ends the run and leads
to no state. -/
theorem pair_ownership_invariant (sys : System) (h : Reachable sys) :
    (pairAbsent sys.s ∨ pairHeld sys.s) ∧
    (sys.s.captureThread = true → sys.t.active = false → pairAbsent sys.s) ∧
    (sys.s.rtwq_supported = true → 0 < sys.s.startCaptureQueued → pairAbsent sys.s) ∧
    (sys.s.idleSignal = true ∨ sys.s.reconnectSignal = true → pairAbsent sys.s) ∧
    (sys.s.captureThread = true → sys.t.active = true → pairHeld sys.s) := by
  have hinv := reachable_inv sys h
  have habs : sys.s.client = none → pairAbsent sys.s := by
    intro hc
    rcases hinv.pair with h1 | h1
    · exact h1
    · have := h1.1
      rw [show (core sys.s).client = sys.s.client from rfl, hc] at this
      cases this
  have hheld : sys.s.client.isSome = true → pairHeld sys.s := by
    intro hc
    rcases hinv.pair with h1 | h1
    · have := h1.1
      rw [show (core sys.s).client = sys.s.client from rfl] at this
      rw [this] at hc
      cases hc
    · exact h1
  refine ⟨hinv.pair, ?_, ?_, ?_, ?_⟩
  · intro hct hta
    exact habs (hinv.inactive (hinv.strategy hct) hta)
  · intro hr hq
    exact habs (hinv.q_queued hr hq).2.1
  · intro hsig
    cases hr : sys.s.rtwq_supported with
    | true =>
      rcases hsig with hi | hrec
      · exact habs (hinv.q_idle hr hi)
      · exact habs (hinv.q_reconnect hr hrec).1
    | false =>
      have hta : sys.t.active = false := by
        cases hx : sys.t.active with
        | false => rfl
        | true =>
          rcases hsig with hi | hrec
          · have := (hinv.t_idle hr hi).1
            rw [hx] at this
            cases this
          · have := (hinv.active hr hx).2.2
            rw [show (core sys.s).reconnect = sys.s.reconnectSignal from rfl, hrec] at this
            cases this
      exact habs (hinv.inactive hr hta)
  · intro hct hta
    exact hheld (hinv.active (hinv.strategy hct) hta).1

theorem pair_ownership_invariant_witness :
    ∃ s0 s1, WASAPISource_constructor {} noWindowStrings ⟨"default", false, 0⟩
        SourceType.Input = Except.ok s0 ∧
      OnStartCapture nominalPlatform
        { s0 with startCaptureQueued := s0.startCaptureQueued - 1 } = Except.ok s1 ∧
      Reachable { s := s1 } ∧ s1.client = some ⟨100⟩ ∧
      (pairAbsent s1 ∨ pairHeld s1) ∧
      (s1.idleSignal = true ∨ s1.reconnectSignal = true → pairAbsent s1) :=
  ⟨_, _, rfl, rfl,
    Reachable.step _ _
      (Reachable.constructed {} noWindowStrings ⟨"default", false, 0⟩ SourceType.Input _ rfl)
      (Step.startCapture nominalPlatform _ _ rfl (by decide) rfl),
    rfl,
    (pair_ownership_invariant _
      (Reachable.step _ _
        (Reachable.constructed {} noWindowStrings ⟨"default", false, 0⟩ SourceType.Input _
          rfl)
        (Step.startCapture nominalPlatform _ _ rfl (by decide) rfl))).1,
    (pair_ownership_invariant _
      (Reachable.step _ _
        (Reachable.constructed {} noWindowStrings ⟨"default", false, 0⟩ SourceType.Input _
          rfl)
        (Step.startCapture nominalPlatform _ _ rfl (by decide) rfl))).2.2.2.1⟩

/-! ## The process-loopback format -/

/-- The fields of the format `InitClient` builds for a ProcessOutput session,
for every host mix configuration. -/
theorem processLoopbackFormat_fields (p : Platform) :
    (processLoopbackFormat p).Format.wFormatTag = WAVE_FORMAT_EXTENSIBLE ∧
    (processLoopbackFormat p).Format.wBitsPerSample = 32 ∧
    (processLoopbackFormat p).wValidBitsPerSample = 32 ∧
    (processLoopbackFormat p).Format.nChannels = p.hostChannels % 2 ^ 16 ∧
    (processLoopbackFormat p).Format.nSamplesPerSec = p.hostSamplesPerSec ∧
    (processLoopbackFormat p).Format.nBlockAlign =
      ((processLoopbackFormat p).Format.nChannels * 4) % 2 ^ 16 ∧
    (processLoopbackFormat p).Format.nAvgBytesPerSec =
      (p.hostSamplesPerSec * (processLoopbackFormat p).Format.nBlockAlign) % 2 ^ 32 ∧
    (processLoopbackFormat p).SubFormat = KSDATAFORMAT_SUBTYPE_IEEE_FLOAT ∧
    (processLoopbackFormat p).dwChannelMask = GetSpeakerChannelMask p.hostSpeakers ∧
    (processLoopbackFormat p).Format.cbSize = 36 := by
  refine ⟨rfl, rfl, rfl, rfl, rfl, ?_, rfl, rfl, rfl, rfl⟩
  show (p.hostChannels % 2 ^ 16 * 32 / 8) % 2 ^ 16 = (p.hostChannels % 2 ^ 16 * 4) % 2 ^ 16
  have h : p.hostChannels % 2 ^ 16 * 32 / 8 = p.hostChannels % 2 ^ 16 * 4 := by omega
  rw [h]

/-- C21 (the code at the failing input): on a host mixing two channels at
48 kHz the format `InitClient` builds for a ProcessOutput session has
`cbSize` 36, which is `sizeof(WAVEFORMATEXTENSIBLE)` less the four bytes of the
`audio_format` parameter named `format`, and not the 22 bytes of the extension
beyond `WAVEFORMATEX`.  Its other fields are the well-formed ones. -/
theorem processLoopbackFormat_cbSize :
    nominalPlatform.hostChannels = 2 ∧ nominalPlatform.hostSamplesPerSec = 48000 ∧
    (processLoopbackFormat nominalPlatform).Format.cbSize = 36 ∧
    sizeof_WAVEFORMATEXTENSIBLE - sizeof_WAVEFORMATEX = 22 ∧
    (processLoopbackFormat nominalPlatform).Format.cbSize ≠
      sizeof_WAVEFORMATEXTENSIBLE - sizeof_WAVEFORMATEX ∧
    (processLoopbackFormat nominalPlatform).Format.cbSize =
      sizeof_WAVEFORMATEXTENSIBLE - sizeof_audio_format ∧
    (processLoopbackFormat nominalPlatform).Format.nChannels = 2 ∧
    (processLoopbackFormat nominalPlatform).Format.nSamplesPerSec = 48000 ∧
    (processLoopbackFormat nominalPlatform).Format.nBlockAlign = 8 ∧
    (processLoopbackFormat nominalPlatform).Format.nAvgBytesPerSec = 384000 ∧
    (processLoopbackFormat nominalPlatform).Format.wBitsPerSample = 32 ∧
    (processLoopbackFormat nominalPlatform).wValidBitsPerSample = 32 ∧
    (processLoopbackFormat nominalPlatform).SubFormat = KSDATAFORMAT_SUBTYPE_IEEE_FLOAT ∧
    (processLoopbackFormat nominalPlatform).dwChannelMask = KSAUDIO_SPEAKER_STEREO := by
  decide

/-! ## The process-id lookup cache -/

/-- What `CreateWASAPISource` does to the cache, for every outcome of the
constructor: nothing when the session is returned or an `HRError` passes
through, one `addRef` when a thrown string is caught. -/
theorem CreateWASAPISource_refs (a : ConstructorAnswers) (build : String → WindowStrings)
    (settings : obs_data) (type : SourceType) (cache : AppDevicesCache) :
    (∀ s, WASAPISource_constructor a build settings type = Except.ok s →
      CreateWASAPISource a build settings type cache = (Created.session s, cache) ∧
      (DestroyWASAPISource s cache).2.refs = cache.refs - 1) ∧
    (∀ m, WASAPISource_constructor a build settings type = Except.error (Thrown.message m) →
      CreateWASAPISource a build settings type cache =
        (Created.null, { refs := cache.refs + 1 })) ∧
    (∀ str hr,
      WASAPISource_constructor a build settings type =
        Except.error (Thrown.hrError str hr) →
      CreateWASAPISource a build settings type cache =
        (Created.thrown (Thrown.hrError str hr), cache)) := by
  refine ⟨?_, ?_, ?_⟩
  · intro s h
    unfold CreateWASAPISource
    rw [h]
    exact ⟨rfl, rfl⟩
  · intro m h
    unfold CreateWASAPISource
    rw [h]
    rfl
  · intro str hr h
    unfold CreateWASAPISource
    rw [h]

/-- C22 (the code at the failing inputs): with the cache holding three
references, (1) creating an Input session on the default device succeeds and
leaves the count at three, and destroying that session leaves it at two;
(2) a creation whose constructor fails to create the reconnect thread returns
`nullptr` and leaves the count at four. -/
theorem create_destroy_cache_refs :
    (∃ s, CreateWASAPISource {} noWindowStrings ⟨"default", false, 0⟩ SourceType.Input
        { refs := 3 } = (Created.session s, { refs := 3 }) ∧
      (DestroyWASAPISource s { refs := 3 }).2 = { refs := 2 }) ∧
    CreateWASAPISource { CreateReconnectThread := false } noWindowStrings
        ⟨"default", false, 0⟩ SourceType.Input { refs := 3 } =
      (Created.null, { refs := 4 }) := by
  refine ⟨⟨_, rfl, ?_⟩, ?_⟩
  · decide
  · decide

/-! ## The media-control library patch -/

/-- C24 (the code at the failing inputs).  (1) An image that is exactly the
33 pattern bytes matches at offset 0 = n - 33, and the search reports not
found: the loop bound `n - 33` is 0.  (2) The same with one byte in front:
the match at offset 1 = n - 33 is not tried.  (3) With one byte after, the
match at offset 0 is found.  (4) For the empty image and for the first 32
pattern bytes the bound wraps around and the search reads the byte at index
0, respectively 32, which is outside the image. -/
theorem findPattern_misses_last_offset :
    patterndata.length = 33 ∧
    matchPattern patterndata 0 0 (patterndata.zip patternsten) = Except.ok true ∧
    findPattern patterndata = Except.ok none ∧
    matchPattern (0 :: patterndata) 1 0 (patterndata.zip patternsten) = Except.ok true ∧
    findPattern (0 :: patterndata) = Except.ok none ∧
    findPattern (patterndata ++ [0]) = Except.ok (some 0) ∧
    findPattern [] = Except.error (ReadFault.outside 0) ∧
    (patterndata.take 32).length = 32 ∧
    findPattern (patterndata.take 32) = Except.error (ReadFault.outside 32) :=
  ⟨rfl, rfl, rfl, rfl, rfl, rfl, rfl, rfl, rfl⟩

/-- A window on which the inner loop of the search ends with `found_memory`
set: every byte of the window is in the image, and every byte whose stencil is
zero equals its pattern byte. -/
theorem matchPattern_true (image : List Nat) (o : Nat) :
    ∀ (l : List (Nat × Nat)) (k : Nat), matchPattern image o k l = Except.ok true →
      ∀ (j : Nat) (x : Nat × Nat), l[j]? = some x →
        ∃ b, image[o + k + j]? = some b ∧ (x.2 ≠ 0 ∨ x.1 = b) := by
  intro l
  induction l with
  | nil =>
    intro k _ j x hx
    simp at hx
  | cons y rest ih =>
    intro k h j x hx
    obtain ⟨d, st⟩ := y
    unfold matchPattern at h
    unfold readByte at h
    cases hb : image[o + k]? with
    | none =>
      rw [hb] at h
      cases h
    | some b =>
      rw [hb] at h
      dsimp only at h
      by_cases hc : st ≠ 0 ∨ d = b
      · rw [if_pos hc] at h
        cases j with
        | zero =>
          simp only [List.getElem?_cons_zero, Option.some.injEq] at hx
          subst hx
          exact ⟨b, hb, hc⟩
        | succ j =>
          simp only [List.getElem?_cons_succ] at hx
          obtain ⟨b1, h1, h2⟩ := ih (k + 1) h j x hx
          refine ⟨b1, ?_, h2⟩
          rw [show o + k + (j + 1) = o + (k + 1) + j by omega]
          exact h1
      · rw [if_neg hc] at h
        cases h

/-- A window whose first byte that is not a wildcard and differs from its
pattern byte is at index `m`: the inner loop ends with `found_memory` null. -/
theorem matchPattern_mismatch (image : List Nat) (o : Nat) :
    ∀ (l : List (Nat × Nat)) (k m : Nat) (x : Nat × Nat) (b : Nat),
      l[m]? = some x → image[o + k + m]? = some b → x.2 = 0 → x.1 ≠ b →
      (∀ (j : Nat) (y : Nat × Nat), j < m → l[j]? = some y →
        ∃ c, image[o + k + j]? = some c ∧ (y.2 ≠ 0 ∨ y.1 = c)) →
      matchPattern image o k l = Except.ok false := by
  intro l
  induction l with
  | nil =>
    intro k m x b hx
    simp at hx
  | cons y rest ih =>
    intro k m x b hx hb hst hne hprev
    obtain ⟨d, st⟩ := y
    cases m with
    | zero =>
      simp only [List.getElem?_cons_zero, Option.some.injEq] at hx
      subst hx
      unfold matchPattern
      unfold readByte
      rw [show o + k + 0 = o + k by omega] at hb
      rw [hb]
      dsimp only
      rw [if_neg]
      intro hc
      rcases hc with hc | hc
      · exact hc hst
      · exact hne hc
    | succ m =>
      simp only [List.getElem?_cons_succ] at hx
      obtain ⟨c, hc1, hc2⟩ := hprev 0 (d, st) (by omega) (by simp)
      rw [show o + k + 0 = o + k by omega] at hc1
      unfold matchPattern
      unfold readByte
      rw [hc1]
      dsimp only
      rw [if_pos hc2]
      refine ih (k + 1) m x b hx ?_ hst hne ?_
      · rw [show o + (k + 1) + m = o + k + (m + 1) by omega]
        exact hb
      · intro j y hj hy
        obtain ⟨c1, h1, h2⟩ := hprev (j + 1) y (by omega) (by simpa using hy)
        refine ⟨c1, ?_, h2⟩
        rw [show o + (k + 1) + j = o + k + (j + 1) by omega]
        exact h1

theorem applyPatch_length (o : Nat) :
    ∀ (l : List (Nat × Nat)) (k : Nat) (image : List Nat),
      (applyPatch image o k l).length = image.length := by
  intro l
  induction l with
  | nil => intro k image; rfl
  | cons y rest ih =>
    intro k image
    obtain ⟨d, st⟩ := y
    unfold applyPatch
    rw [ih]
    split
    · exact List.length_set _ _ _
    · rfl

/-- The patch loop leaves every byte outside its window as it is. -/
theorem applyPatch_outside (o : Nat) :
    ∀ (l : List (Nat × Nat)) (k : Nat) (image : List Nat) (i : Nat),
      i < o + k ∨ o + k + l.length ≤ i →
      (applyPatch image o k l)[i]? = image[i]? := by
  intro l
  induction l with
  | nil => intro k image i _; rfl
  | cons y rest ih =>
    intro k image i h
    obtain ⟨d, st⟩ := y
    have hlen : ((d, st) :: rest).length = rest.length + 1 := rfl
    rw [hlen] at h
    unfold applyPatch
    rw [ih (k + 1) _ i (by omega)]
    split
    · exact List.getElem?_set_ne (by omega)
    · rfl

/-- The patch loop at index `j` of its window: the patch byte is written when
its stencil is zero, the byte is left as it is otherwise. -/
theorem applyPatch_inside (o : Nat) :
    ∀ (l : List (Nat × Nat)) (k : Nat) (image : List Nat) (j : Nat) (x : Nat × Nat),
      l[j]? = some x →
      (applyPatch image o k l)[o + k + j]? =
        if x.2 = 0 then (if o + k + j < image.length then some x.1 else none)
        else image[o + k + j]? := by
  intro l
  induction l with
  | nil =>
    intro k image j x hx
    simp at hx
  | cons y rest ih =>
    intro k image j x hx
    obtain ⟨d, st⟩ := y
    cases j with
    | zero =>
      simp only [List.getElem?_cons_zero, Option.some.injEq] at hx
      subst hx
      unfold applyPatch
      rw [applyPatch_outside o rest (k + 1) _ (o + k + 0) (Or.inl (by omega))]
      dsimp only
      rw [show o + k + 0 = o + k by omega]
      by_cases hst : st = 0
      · rw [if_pos hst, if_pos hst, List.getElem?_set, if_pos rfl]
      · rw [if_neg hst, if_neg hst]
    | succ j =>
      simp only [List.getElem?_cons_succ] at hx
      unfold applyPatch
      rw [show o + k + (j + 1) = o + (k + 1) + j by omega, ih (k + 1) _ j x hx]
      by_cases hst : st = 0
      · rw [if_pos hst, List.length_set, List.getElem?_set_ne (by omega)]
      · rw [if_neg hst]

/-- C23: the patch applied at an offset `o` where the search's inner loop
finds the pattern.  The 33-byte window lies in the image; the image keeps its
length; the bytes at relative offsets 26 to 31 are `0x90`; every other byte,
inside the window or outside, is what it was; and the inner loop no longer
finds the pattern at `o`. -/
theorem patch_writes_six_nops (image : List Nat) (o : Nat)
    (hm : matchPattern image o 0 (patterndata.zip patternsten) = Except.ok true) :
    o + 33 ≤ image.length ∧
    (applyPatch image o 0 (patchdata.zip patchsten)).length = image.length ∧
    (∀ k, 26 ≤ k → k ≤ 31 →
      (applyPatch image o 0 (patchdata.zip patchsten))[o + k]? = some 0x90) ∧
    (∀ i, ¬ (o + 26 ≤ i ∧ i ≤ o + 31) →
      (applyPatch image o 0 (patchdata.zip patchsten))[i]? = image[i]?) ∧
    matchPattern (applyPatch image o 0 (patchdata.zip patchsten)) o 0
      (patterndata.zip patternsten) = Except.ok false := by
  have g1 : ∀ j, j < 33 → (patterndata.zip patternsten)[j]? =
      some ((patterndata.zip patternsten).getD j (0, 0)) := by decide
  have g2 : ∀ j, j < 33 → (patchdata.zip patchsten)[j]? =
      some ((patchdata.zip patchsten).getD j (0, 0)) := by decide
  have f2 : ∀ k, k < 32 → 26 ≤ k →
      (patchdata.zip patchsten).getD k (0, 0) = (0x90, 0) := by decide
  have f3 : ∀ j, j < 33 → ¬ (26 ≤ j ∧ j ≤ 31) →
      ((patchdata.zip patchsten).getD j (0, 0)).2 = 0 →
      (patterndata.zip patternsten).getD j (0, 0) =
        (((patchdata.zip patchsten).getD j (0, 0)).1, 0) := by decide
  have hlen : (patchdata.zip patchsten).length = 33 := by decide
  have hA : ∀ j, j < 33 → ∃ b, image[o + j]? = some b ∧
      (((patterndata.zip patternsten).getD j (0, 0)).2 ≠ 0 ∨
        ((patterndata.zip patternsten).getD j (0, 0)).1 = b) := by
    intro j hj
    have h := matchPattern_true image o _ 0 hm j _ (g1 j hj)
    rw [show o + 0 + j = o + j by omega] at h
    exact h
  have hin : ∀ j, j < 33 → o + j < image.length := by
    intro j hj
    obtain ⟨b, hb, _⟩ := hA j hj
    exact (List.getElem?_eq_some.1 hb).1
  have hB : ∀ j, j < 33 →
      (applyPatch image o 0 (patchdata.zip patchsten))[o + j]? =
        if ((patchdata.zip patchsten).getD j (0, 0)).2 = 0 then
          some ((patchdata.zip patchsten).getD j (0, 0)).1
        else image[o + j]? := by
    intro j hj
    have h := applyPatch_inside o _ 0 image j _ (g2 j hj)
    rw [show o + 0 + j = o + j by omega] at h
    rw [h, if_pos (hin j hj)]
  have hnops : ∀ k, 26 ≤ k → k ≤ 31 →
      (applyPatch image o 0 (patchdata.zip patchsten))[o + k]? = some 0x90 := by
    intro k h1 h2
    rw [hB k (by omega), f2 k (by omega) h1]
    rfl
  have hframe : ∀ i, ¬ (o + 26 ≤ i ∧ i ≤ o + 31) →
      (applyPatch image o 0 (patchdata.zip patchsten))[i]? = image[i]? := by
    intro i hi
    by_cases hw : o ≤ i ∧ i < o + 33
    · obtain ⟨j, hj⟩ : ∃ j, i = o + j := ⟨i - o, by omega⟩
      subst hj
      have hj33 : j < 33 := by omega
      have hj26 : ¬ (26 ≤ j ∧ j ≤ 31) := by omega
      rw [hB j hj33]
      by_cases hst : ((patchdata.zip patchsten).getD j (0, 0)).2 = 0
      · rw [if_pos hst]
        obtain ⟨b, hb, hc⟩ := hA j hj33
        rw [f3 j hj33 hj26 hst] at hc
        rcases hc with hc | hc
        · exact absurd rfl hc
        · rw [hb]
          exact congrArg some hc
      · rw [if_neg hst]
    · refine applyPatch_outside o _ 0 image i ?_
      rw [hlen]
      omega
  refine ⟨hin 32 (by omega), applyPatch_length o _ 0 image, hnops, hframe, ?_⟩
  refine matchPattern_mismatch _ o _ 0 26 (0x0F, 0) 0x90 (by decide) ?_ rfl (by decide) ?_
  · rw [show o + 0 + 26 = o + 26 by omega]
    exact hnops 26 (by omega) (by omega)
  · intro j y hj hy
    rw [show o + 0 + j = o + j by omega, hframe (o + j) (by omega)]
    rw [g1 j (by omega)] at hy
    injection hy with hy
    subst hy
    exact hA j (by omega)

theorem patch_writes_six_nops_witness :
    matchPattern mediaImage 1 0 (patterndata.zip patternsten) = Except.ok true ∧
    findPattern mediaImage = Except.ok (some 1) ∧
    patchMediaCrash true (some mediaImage) true =
      Except.ok (some (applyPatch mediaImage 1 0 (patchdata.zip patchsten))) ∧
    (applyPatch mediaImage 1 0 (patchdata.zip patchsten))[1 + 26]? = some 0x90 ∧
    (applyPatch mediaImage 1 0 (patchdata.zip patchsten))[1 + 15]? = mediaImage[1 + 15]? ∧
    matchPattern (applyPatch mediaImage 1 0 (patchdata.zip patchsten)) 1 0
      (patterndata.zip patternsten) = Except.ok false :=
  ⟨rfl, rfl, rfl,
   (patch_writes_six_nops mediaImage 1 rfl).2.2.1 26 (by decide) (by decide),
   (patch_writes_six_nops mediaImage 1 rfl).2.2.2.1 (1 + 15) (by decide),
   (patch_writes_six_nops mediaImage 1 rfl).2.2.2.2⟩

/-- The inner loop of the search returns when its window lies in the
image. -/
theorem matchPattern_returns (image : List Nat) (o : Nat) :
    ∀ (l : List (Nat × Nat)) (k : Nat), o + k + l.length ≤ image.length →
      ∃ b, matchPattern image o k l = Except.ok b := by
  intro l
  induction l with
  | nil => intro k _; exact ⟨true, rfl⟩
  | cons y rest ih =>
    intro k h
    obtain ⟨d, st⟩ := y
    have hlen : ((d, st) :: rest).length = rest.length + 1 := rfl
    rw [hlen] at h
    have hlt : o + k < image.length := by omega
    unfold matchPattern
    unfold readByte
    rw [List.getElem?_eq_getElem hlt]
    dsimp only
    split
    · exact ih (k + 1) (by omega)
    · exact ⟨false, rfl⟩

/-- The outer loop of the search over offsets whose windows all lie in the
image: it returns the lowest of them at which the inner loop finds the
pattern, and `nullptr` when there is none. -/
theorem searchPattern_in_range (image : List Nat) :
    ∀ (r off : Nat), off + r + 32 ≤ image.length →
      (∃ o, searchPattern image r off = Except.ok (some o) ∧ off ≤ o ∧ o < off + r ∧
        matchPattern image o 0 (patterndata.zip patternsten) = Except.ok true ∧
        ∀ q, off ≤ q → q < o →
          matchPattern image q 0 (patterndata.zip patternsten) = Except.ok false) ∨
      (searchPattern image r off = Except.ok none ∧
        ∀ q, off ≤ q → q < off + r →
          matchPattern image q 0 (patterndata.zip patternsten) = Except.ok false) := by
  intro r
  induction r with
  | zero =>
    intro off _
    refine Or.inr ⟨rfl, ?_⟩
    intro q h1 h2
    omega
  | succ r ih =>
    intro off h
    have hlen : (patterndata.zip patternsten).length = 33 := by decide
    obtain ⟨b, hb⟩ := matchPattern_returns image off (patterndata.zip patternsten) 0
      (by rw [hlen]; omega)
    cases b with
    | true =>
      refine Or.inl ⟨off, ?_, Nat.le_refl _, by omega, hb, ?_⟩
      · unfold searchPattern
        rw [hb]
      · intro q h1 h2
        omega
    | false =>
      have hs : searchPattern image (r + 1) off = searchPattern image r (off + 1) := by
        rw [searchPattern, hb]
      rcases ih (off + 1) (by omega) with ⟨o, k1, k2, k3, k4, k5⟩ | ⟨k1, k2⟩
      · refine Or.inl ⟨o, hs.trans k1, by omega, by omega, k4, ?_⟩
        intro q h1 h2
        by_cases hq : q = off
        · rw [hq]
          exact hb
        · exact k5 q (by omega) h2
      · refine Or.inr ⟨hs.trans k1, ?_⟩
        intro q h1 h2
        by_cases hq : q = off
        · rw [hq]
          exact hb
        · exact k2 q (by omega) (by omega)

/-- What the search of `patchMediaCrash` does on an image of `n` bytes with
33 ≤ n < 2^64: it reads no byte outside the image and tries the offsets
0 to n - 34 only.  It returns the lowest of these at which the pattern
matches, and not found when none of these matches, whatever offset n - 33
holds. -/
theorem findPattern_in_range (image : List Nat) (h33 : 33 ≤ image.length)
    (h64 : image.length < 2 ^ 64) :
    (∃ o, findPattern image = Except.ok (some o) ∧ o + 34 ≤ image.length ∧
      matchPattern image o 0 (patterndata.zip patternsten) = Except.ok true ∧
      ∀ q, q < o →
        matchPattern image q 0 (patterndata.zip patternsten) = Except.ok false) ∨
    (findPattern image = Except.ok none ∧
      ∀ q, q + 34 ≤ image.length →
        matchPattern image q 0 (patterndata.zip patternsten) = Except.ok false) := by
  have hb : sub64 image.length sizeof_patterndata = image.length - 33 :=
    sub64_exact image.length 33 h64 h33
  unfold findPattern
  rw [hb]
  rcases searchPattern_in_range image (image.length - 33) 0 (by omega) with
    ⟨o, k1, _, k3, k4, k5⟩ | ⟨k1, k2⟩
  · exact Or.inl ⟨o, k1, by omega, k4, fun q hq => k5 q (Nat.zero_le _) hq⟩
  · exact Or.inr ⟨k1, fun q hq => k2 q (Nat.zero_le _) (by omega)⟩

end WASAPI
